import Mathlib

/-! RKE bootstrap controller (`pkg/controllers/capr/bootstrap/controller.go`)

A shallow embedding of the bootstrap reconciliation handler: the artifact
generator (`assignPlanSecret`, `assignBootStrapSecret`, `getBootstrapSecret`),
the generating handler with its readiness gate, the removal handler with its
deletion safety gate, the change handler and the trigger mapping; and of the
global role binding handler of
`pkg/controllers/managementuser/rbac/globalrole_handler.go` (`isAdminRole`,
`sync` and its two ensure steps).

Conventions of the embedding

* A Go function returning `(value, error)` returns `Except GoError value`.
* The handler's caches that are only read are lookup functions held by
  `handler`; the Machine objects, which the handler also writes, live in an
  explicit `Store` that is passed in and returned.
* Every outbound call that matters to the contract (`EnqueueAfter`, the Machine
  `Update`, the consensus query `SafelyRemoved`) is recorded, in order, in the
  `calls` component of the result.
* Members of imported packages whose source is not part of the controller file
  (constants and functions of `capr`, `name`, `installer`, `etcdmgmt`, ...)
  are fields of `Pkg`; the general theorems quantify over them, and the
  evaluations at concrete inputs use the values of `Demo.pkg`.
-/

set_option autoImplicit false

namespace Bootstrap

/-! ## Go maps with string keys and values -/

/-- A Go `map[string]string`: either the nil map or a list of entries. -/
inductive GoMap where
  | nil
  | mk (entries : List (String × String))
deriving DecidableEq, Repr

namespace GoMap

/-- The entries of a map; the nil map has none. -/
def entries : GoMap → List (String × String)
  | nil => []
  | mk l => l

/-- Is `m == nil`. -/
def isNil : GoMap → Bool
  | nil => true
  | mk _ => false

/-- Comma-ok lookup `v, ok := m[k]`, as an option. -/
def get? (m : GoMap) (k : String) : Option String :=
  m.entries.lookup k

/-- Plain lookup `m[k]`: the zero value `""` when the key is absent. -/
def getD (m : GoMap) (k : String) : String :=
  (m.get? k).getD ""

/-- Key presence, `_, ok := m[k]`. -/
def contains (m : GoMap) (k : String) : Bool :=
  (m.get? k).isSome

/-- Assignment `m[k] = v`. -/
def set (m : GoMap) (k v : String) : GoMap :=
  mk ((k, v) :: m.entries.filter (fun p => p.1 != k))

/-- Builtin `delete(m, k)`; a no-op on the nil map. -/
def delete : GoMap → String → GoMap
  | nil, _ => nil
  | mk l, k => mk (l.filter (fun p => p.1 != k))

end GoMap

/-! ## Errors -/

/-- The errors the handlers distinguish: the skip sentinel `generic.ErrSkip`,
an API not-found error, `capr.ErrNoMachineOwnerRef`, an API already-exists
error, and any other error. -/
inductive GoError where
  | ErrSkip
  | NotFound
  | ErrNoMachineOwnerRef
  | Other (msg : String)
  | AlreadyExists
deriving DecidableEq, Repr

deriving instance DecidableEq for Except

/-- Predicate `apierrors.IsNotFound`. -/
def IsNotFound : GoError → Bool
  | .NotFound => true
  | _ => false

/-- Predicate `apierrors.IsAlreadyExists`. -/
def IsAlreadyExists : GoError → Bool
  | .AlreadyExists => true
  | _ => false

/-! ## Kubernetes objects -/

abbrev Bytes := List Nat

structure OwnerReference where
  Kind : String
  Name : String
deriving DecidableEq, Repr

structure ObjectReference where
  Kind : String
  Namespace : String
  Name : String
deriving DecidableEq, Repr

structure MachineSpec where
  ClusterName : String
  BootstrapConfigRef : Option ObjectReference
deriving DecidableEq, Repr

structure MachineStatus where
  Phase : String
  NodeRef : Option ObjectReference
deriving DecidableEq, Repr

/-- A CAPI Machine (`capi.Machine`), with the fields the controller reads. -/
structure Machine where
  Name : String
  Namespace : String
  Labels : GoMap
  Annotations : GoMap
  Spec : MachineSpec
  Status : MachineStatus
deriving DecidableEq, Repr

structure ClusterSpec where
  ControlPlaneRef : Option ObjectReference
deriving DecidableEq, Repr

structure ClusterStatus where
  InfrastructureReady : Bool
deriving DecidableEq, Repr

/-- A CAPI Cluster (`capi.Cluster`). -/
structure Cluster where
  Name : String
  Namespace : String
  DeletionTimestamp : Option Nat
  Spec : ClusterSpec
  Status : ClusterStatus
deriving DecidableEq, Repr

structure EnvVar where
  Name : String
  Value : String
deriving DecidableEq, Repr

structure RKEControlPlaneSpec where
  AgentEnvVars : List EnvVar
  KubernetesVersion : String
deriving DecidableEq, Repr

structure RKEControlPlane where
  DeletionTimestamp : Option Nat
  Spec : RKEControlPlaneSpec
deriving DecidableEq, Repr

structure RKEBootstrapSpec where
  ClusterName : String
deriving DecidableEq, Repr

/-- The bootstrap request (`rkev1.RKEBootstrap`). -/
structure RKEBootstrap where
  Name : String
  Namespace : String
  Labels : GoMap
  Annotations : GoMap
  OwnerReferences : List OwnerReference
  DeletionTimestamp : Option Nat
  Spec : RKEBootstrapSpec
deriving DecidableEq, Repr

/-- The request status (`rkev1.RKEBootstrapStatus`). -/
structure RKEBootstrapStatus where
  Ready : Bool
  DataSecretName : Option String
deriving DecidableEq, Repr

structure ObjectMeta where
  Name : String
  Namespace : String
  Labels : GoMap
  Annotations : GoMap
deriving DecidableEq, Repr

structure ServiceAccount where
  ObjectMeta : ObjectMeta
deriving DecidableEq, Repr

structure Secret where
  ObjectMeta : ObjectMeta
  Data : List (String × Bytes)
  SecretType : String
deriving DecidableEq, Repr

structure PolicyRule where
  Verbs : List String
  APIGroups : List String
  Resources : List String
  ResourceNames : List String
  NonResourceURLs : List String := []
deriving DecidableEq, Repr

structure Role where
  ObjectMeta : ObjectMeta
  Rules : List PolicyRule
deriving DecidableEq, Repr

structure Subject where
  Kind : String
  Name : String
  Namespace : String
deriving DecidableEq, Repr

structure RoleRef where
  APIGroup : String
  Kind : String
  Name : String
deriving DecidableEq, Repr

structure RoleBinding where
  ObjectMeta : ObjectMeta
  Subjects : List Subject
  RoleRef : RoleRef
deriving DecidableEq, Repr

structure ContainerPort where
  HostPort : Int
deriving DecidableEq, Repr

structure Container where
  Name : String
  Ports : List ContainerPort
deriving DecidableEq, Repr

/-- An apps/v1 Deployment, reduced to `Spec.Template.Spec.Containers`. -/
structure Deployment where
  Containers : List Container
deriving DecidableEq, Repr

/-- The client configuration parsed from a kubeconfig. -/
structure RestConfig where
  Host : String
deriving DecidableEq, Repr

/-- A `runtime.Object` of one of the kinds the generating handler returns. -/
inductive Object where
  | serviceAccount (sa : ServiceAccount)
  | secret (s : Secret)
  | role (r : Role)
  | roleBinding (rb : RoleBinding)
deriving DecidableEq, Repr

/-- Value `data[k]` of a secret data map: nil bytes when the key is absent. -/
def dataGet (data : List (String × Bytes)) (k : String) : Bytes :=
  (data.lookup k).getD []

/-! ## Constants of the controller and of the Kubernetes libraries -/

def rkeBootstrapName : String := "rke.cattle.io/rkebootstrap-name"

def capiMachinePreTerminateAnnotation : String :=
  "pre-terminate.delete.hook.machine.cluster.x-k8s.io/rke-bootstrap-cleanup"

def capiMachinePreTerminateAnnotationOwner : String := "rke-bootstrap-controller"

/-- Constant `capi.ClusterLabelName`. -/
def ClusterLabelName : String := "cluster.x-k8s.io/cluster-name"

/-- Constant `rbacv1.GroupName`. -/
def GroupName : String := "rbac.authorization.k8s.io"

def MachinePhasePending : String := "Pending"
def MachinePhaseDeleting : String := "Deleting"
def MachinePhaseFailed : String := "Failed"
def MachinePhaseProvisioning : String := "Provisioning"

/-! ## Imported package members -/

/-- Members of imported packages that the controller uses and whose source is
not part of the controller file: constants and functions of `capr`, and the
library functions `name.SafeConcatName`, `capiannotations.IsPaused`,
`serviceaccounttoken.EnsureSecretForServiceAccount`, the install-script
generators, `sha256.Sum256`, `base64.URLEncoding.EncodeToString`,
`secret.Name(_, secret.Kubeconfig)`, `clientcmd.RESTConfigFromKubeConfig`,
`strings.ToLower` and `etcdmgmt.SafelyRemoved`. -/
structure Pkg where
  EtcdRoleLabel : String
  MachineNameLabel : String
  ClusterNameLabel : String
  RoleLabel : String
  RolePlan : String
  RoleBootstrap : String
  PlanSecret : String
  SecretTypeMachinePlan : String
  CattleOSLabel : String
  WindowsMachineOS : String
  ForceRemoveEtcdAnnotation : String
  SystemNamespace : String
  PlanSecretFromBootstrapName : String → String
  SafeConcatName : List String → String
  IsPaused : Cluster → RKEBootstrap → Bool
  EnsureSecretForServiceAccount : ServiceAccount → Except GoError Secret
  LinuxInstallScript : Bool → String → List EnvVar → String → Except GoError Bytes
  WindowsInstallScript : Bool → String → List EnvVar → String → Except GoError Bytes
  Sum256 : Bytes → Bytes
  EncodeToString : Bytes → String
  KubeconfigSecretName : String → String
  RESTConfigFromKubeConfig : Bytes → Except GoError RestConfig
  GetRuntimeCommand : String → String
  ToLower : String → String
  SafelyRemoved : RestConfig → String → String → Except GoError Bool

/-! ## The handler and the Machine store -/

/-- The Machine objects behind `machineCache` and `machineClient`. -/
structure Store where
  Machines : List Machine
deriving DecidableEq, Repr

/-- The handler's collaborators. The read-only caches are lookup functions of
(namespace, name). `machineCacheErr`, when set, is the error every Machine
cache read fails with; `machineUpdateErr` gives the error, if any, with which
the API server rejects an update of the given Machine. -/
structure handler where
  serviceAccountCache : String → String → Except GoError ServiceAccount
  secretCache : String → String → Except GoError Secret
  capiClusterCache : String → String → Except GoError Cluster
  deploymentCache : String → String → Except GoError Deployment
  rkeControlPlanes : String → String → Except GoError RKEControlPlane
  machineCacheErr : Option GoError
  machineUpdateErr : Machine → Option GoError

/-- An outbound call recorded in a result's trace. -/
inductive Call where
  | EnqueueAfter (ns name : String) (seconds : Nat)
  | MachineUpdate (m : Machine)
  | SafelyRemoved (cfg : RestConfig) (runtime nodeName : String)
deriving DecidableEq, Repr

/-- Read `h.machineCache.Get(namespace, name)`. -/
def machineCacheGet (h : handler) (s : Store) (ns name : String) : Except GoError Machine :=
  match h.machineCacheErr with
  | some e => .error e
  | none =>
    match s.Machines.find? (fun m => m.Namespace == ns && m.Name == name) with
    | some m => .ok m
    | none => .error .NotFound

/-- Write `h.machineClient.Update(machine)`: on success the stored Machine of
the same namespace and name is replaced and the written object is returned. -/
def machineClientUpdate (h : handler) (s : Store) (machine : Machine) :
    Except GoError Machine × Store :=
  match h.machineUpdateErr machine with
  | some e => (.error e, s)
  | none =>
    if s.Machines.any (fun m => m.Namespace == machine.Namespace && m.Name == machine.Name) then
      (.ok machine,
        { Machines := s.Machines.map (fun m =>
            if m.Namespace == machine.Namespace && m.Name == machine.Name then machine else m) })
    else (.error .NotFound, s)

/-- Modelled from the spec: `capr.GetOwnerCAPIMachine`, which is not part of the
sources; the owning Machine is resolved "via owner-reference lookup", an indexed
lookup keyed by the (kind, name) pairs stored on the request, and the absence
of an owner link is the not-found outcome. -/
def GetOwnerCAPIMachine (bootstrap : RKEBootstrap)
    (cache : String → String → Except GoError Machine) : Except GoError Machine :=
  match bootstrap.OwnerReferences.find? (fun r => r.Kind == "Machine") with
  | some r => cache bootstrap.Namespace r.Name
  | none => .error .NotFound

/-- Modelled from the spec: `capr.GetMachineByOwner`, which is not part of the
sources; the same owner-reference lookup, reporting `capr.ErrNoMachineOwnerRef`
when the request was never linked to a Machine. -/
def GetMachineByOwner (cache : String → String → Except GoError Machine)
    (bootstrap : RKEBootstrap) : Except GoError Machine :=
  match bootstrap.OwnerReferences.find? (fun r => r.Kind == "Machine") with
  | some r => cache bootstrap.Namespace r.Name
  | none => .error .ErrNoMachineOwnerRef

/-! ## Artifact generator -/

def rancherDeploymentHasHostPort (x : Pkg) (h : handler) : Except GoError Bool :=
  match h.deploymentCache x.SystemNamespace "rancher" with
  | .error err => if IsNotFound err then .ok false else .error err
  | .ok deployment =>
    .ok (deployment.Containers.any (fun container =>
      container.Ports.any (fun port => container.Name == "rancher" && port.HostPort != 0)))

def getBootstrapSecret (x : Pkg) (h : handler) (ns name : String)
    (envVars : List EnvVar) (machine : Machine) : Except GoError (Option Secret) :=
  match h.serviceAccountCache ns name with
  | .error err => if IsNotFound err then .ok none else .error err
  | .ok sa =>
    match x.EnsureSecretForServiceAccount sa with
    | .error err => .error err
    | .ok secret =>
      let hash := x.Sum256 (dataGet secret.Data "token")
      match rancherDeploymentHasHostPort x h with
      | .error err => .error err
      | .ok hasHostPort =>
        let is := if machine.Labels.getD x.CattleOSLabel == x.WindowsMachineOS
          then x.WindowsInstallScript else x.LinuxInstallScript
        match is hasHostPort (x.EncodeToString hash) envVars "" with
        | .error err => .error err
        | .ok data =>
          .ok (some
            { ObjectMeta :=
                { Name := name, Namespace := ns, Labels := .nil, Annotations := .nil }
              Data := [("value", data)]
              SecretType := "rke.cattle.io/bootstrap" })

def getLabelsAndAnnotationsForPlanSecret (x : Pkg) (bootstrap : RKEBootstrap)
    (machine : Machine) : GoMap × GoMap :=
  let labels := ((GoMap.mk []).set x.MachineNameLabel machine.Name).set
    x.ClusterNameLabel bootstrap.Spec.ClusterName
  let labels := bootstrap.Labels.entries.foldl (fun m kv => m.set kv.1 kv.2) labels
  let annotations := bootstrap.Annotations.entries.foldl (fun m kv => m.set kv.1 kv.2) (GoMap.mk [])
  (labels, annotations)

def assignPlanSecret (x : Pkg) (machine : Machine) (bootstrap : RKEBootstrap) : List Object :=
  let secretName := x.PlanSecretFromBootstrapName bootstrap.Name
  let la := getLabelsAndAnnotationsForPlanSecret x bootstrap machine
  let sa : ServiceAccount :=
    { ObjectMeta :=
        { Name := secretName
          Namespace := bootstrap.Namespace
          Labels := ((((GoMap.mk []).set x.MachineNameLabel machine.Name).set
            rkeBootstrapName bootstrap.Name).set x.RoleLabel x.RolePlan).set x.PlanSecret secretName
          Annotations := .nil } }
  let secret : Secret :=
    { ObjectMeta :=
        { Name := secretName, Namespace := bootstrap.Namespace, Labels := la.1, Annotations := la.2 }
      Data := []
      SecretType := x.SecretTypeMachinePlan }
  let role : Role :=
    { ObjectMeta :=
        { Name := secretName, Namespace := bootstrap.Namespace, Labels := .nil, Annotations := .nil }
      Rules :=
        [{ Verbs := ["watch", "get", "update", "list"]
           APIGroups := [""]
           Resources := ["secrets"]
           ResourceNames := [secretName] }] }
  let roleBinding : RoleBinding :=
    { ObjectMeta :=
        { Name := secretName, Namespace := bootstrap.Namespace, Labels := .nil, Annotations := .nil }
      Subjects :=
        [{ Kind := "ServiceAccount"
           Name := sa.ObjectMeta.Name
           Namespace := sa.ObjectMeta.Namespace }]
      RoleRef := { APIGroup := GroupName, Kind := "Role", Name := secretName } }
  [.serviceAccount sa, .secret secret, .role role, .roleBinding roleBinding]

def getEnvVar (h : handler) (bootstrap : RKEBootstrap) (capiCluster : Cluster) :
    Except GoError (List EnvVar) :=
  match capiCluster.Spec.ControlPlaneRef with
  | none => .ok []
  | some ref =>
    if ref.Kind != "RKEControlPlane" then .ok []
    else
      match h.rkeControlPlanes bootstrap.Namespace ref.Name with
      | .error err => .error err
      | .ok cp => .ok (cp.Spec.AgentEnvVars.map (fun env => { Name := env.Name, Value := env.Value }))

def assignBootStrapSecret (x : Pkg) (h : handler) (machine : Machine) (bootstrap : RKEBootstrap)
    (capiCluster : Cluster) : Except GoError (Option Secret × List Object) :=
  if machine.Status.Phase != MachinePhasePending &&
      machine.Status.Phase != MachinePhaseDeleting &&
      machine.Status.Phase != MachinePhaseFailed &&
      machine.Status.Phase != MachinePhaseProvisioning then
    .ok (none, [])
  else
    match getEnvVar h bootstrap capiCluster with
    | .error err => .error err
    | .ok envVars =>
      let secretName := x.SafeConcatName [bootstrap.Name, "machine", "bootstrap"]
      let sa : ServiceAccount :=
        { ObjectMeta :=
            { Name := secretName
              Namespace := bootstrap.Namespace
              Labels := (((GoMap.mk []).set x.MachineNameLabel machine.Name).set
                rkeBootstrapName bootstrap.Name).set x.RoleLabel x.RoleBootstrap
              Annotations := .nil } }
      match getBootstrapSecret x h sa.ObjectMeta.Namespace sa.ObjectMeta.Name envVars machine with
      | .error err => .error err
      | .ok bootstrapSecret => .ok (bootstrapSecret, [.serviceAccount sa])

/-! ## Generating handler -/

/-- What one `GeneratingHandler` invocation returns (`objs`, `status`, `err`),
the calls it issued and the Machine store it leaves. -/
structure GenerateResult where
  objs : List Object
  status : RKEBootstrapStatus
  err : Option GoError
  calls : List Call
  store : Store
deriving DecidableEq, Repr

/-- The marker block of `GeneratingHandler` (`if val, ok := ...; isEtcd && ...`):
the Machine the handler continues with or the error of the update, the calls
issued and the store left. The write goes to the label map, as in the source. -/
def annotateMachine (x : Pkg) (h : handler) (s : Store) (machine : Machine) :
    Except GoError Machine × List Call × Store :=
  let isEtcd := machine.Labels.contains x.EtcdRoleLabel
  let val := machine.Annotations.get? capiMachinePreTerminateAnnotation
  if isEtcd && (val.isNone || val != some capiMachinePreTerminateAnnotationOwner) then
    let labels := if machine.Labels.isNil then GoMap.mk [] else machine.Labels
    let machine1 : Machine :=
      { machine with
        Labels := labels.set capiMachinePreTerminateAnnotation
          capiMachinePreTerminateAnnotationOwner }
    let r := machineClientUpdate h s machine1
    (r.1, [.MachineUpdate machine1], r.2)
  else (.ok machine, [], s)

def GeneratingHandler (x : Pkg) (h : handler) (s : Store) (bootstrap : RKEBootstrap)
    (status : RKEBootstrapStatus) : GenerateResult :=
  let skip : GenerateResult :=
    { objs := [], status := status, err := some .ErrSkip,
      calls := [.EnqueueAfter bootstrap.Namespace bootstrap.Name 10], store := s }
  match GetOwnerCAPIMachine bootstrap (machineCacheGet h s) with
  | .error err =>
    if IsNotFound err then skip
    else { objs := [], status := status, err := some err, calls := [], store := s }
  | .ok machine =>
    match h.capiClusterCache machine.Namespace machine.Spec.ClusterName with
    | .error err =>
      if IsNotFound err then skip
      else { objs := [], status := status, err := some err, calls := [], store := s }
    | .ok capiCluster =>
      if x.IsPaused capiCluster bootstrap then skip
      else if !capiCluster.Status.InfrastructureReady then skip
      else
        let result := assignPlanSecret x machine bootstrap
        match annotateMachine x h s machine with
        | (.error err, calls, s1) =>
          { objs := [], status := status, err := some err, calls := calls, store := s1 }
        | (.ok machine, calls, s1) =>
          match assignBootStrapSecret x h machine bootstrap capiCluster with
          | .error err =>
            { objs := [], status := status, err := some err, calls := calls, store := s1 }
          | .ok (none, objs) =>
            { objs := result ++ objs, status := status, err := none, calls := calls, store := s1 }
          | .ok (some bootstrapSecret, objs) =>
            let status1 : RKEBootstrapStatus :=
              if status.DataSecretName.isNone then
                { status with DataSecretName := some bootstrapSecret.ObjectMeta.Name, Ready := true }
              else status
            { objs := result ++ [.secret bootstrapSecret] ++ objs, status := status1,
              err := none, calls := calls, store := s1 }

/-! ## Removal handler -/

/-- What one removal invocation returns (`bootstrap`, `err`), the calls it
issued and the Machine store it leaves. -/
structure RemoveResult where
  bootstrap : RKEBootstrap
  err : Option GoError
  calls : List Call
  store : Store
deriving DecidableEq, Repr

def removeMachinePreTerminateAnnotation (h : handler) (s : Store) (bootstrap : RKEBootstrap)
    (machine : Option Machine) : RemoveResult :=
  match machine with
  | none => { bootstrap := bootstrap, err := none, calls := [], store := s }
  | some machine =>
    if machine.Annotations.isNil then
      { bootstrap := bootstrap, err := none, calls := [], store := s }
    else if machine.Annotations.contains capiMachinePreTerminateAnnotation then
      let machine1 : Machine :=
        { machine with Annotations := machine.Annotations.delete capiMachinePreTerminateAnnotation }
      let r := machineClientUpdate h s machine1
      { bootstrap := bootstrap
        err := match r.1 with
          | .error err => some err
          | .ok _ => none
        calls := [.MachineUpdate machine1]
        store := r.2 }
    else { bootstrap := bootstrap, err := none, calls := [], store := s }

def OnRemove (x : Pkg) (h : handler) (s : Store) (_key : String) (bootstrap : RKEBootstrap) :
    RemoveResult :=
  let done (err : Option GoError) : RemoveResult :=
    { bootstrap := bootstrap, err := err, calls := [], store := s }
  let clusterName := bootstrap.Labels.getD ClusterLabelName
  if clusterName == "" then done none
  else
    match h.capiClusterCache bootstrap.Namespace clusterName with
    | .error err => if IsNotFound err then done none else done (some err)
    | .ok capiCluster =>
      match capiCluster.Spec.ControlPlaneRef with
      | none => done none
      | some cpRef =>
        match h.rkeControlPlanes cpRef.Namespace cpRef.Name with
        | .error err => if IsNotFound err then done none else done (some err)
        | .ok cp =>
          match GetMachineByOwner (machineCacheGet h s) bootstrap with
          | .error err =>
            if err == .ErrNoMachineOwnerRef || IsNotFound err then done none else done (some err)
          | .ok machine =>
            if cp.DeletionTimestamp.isSome || capiCluster.DeletionTimestamp.isSome then
              removeMachinePreTerminateAnnotation h s bootstrap (some machine)
            else if !machine.Labels.contains x.EtcdRoleLabel then
              removeMachinePreTerminateAnnotation h s bootstrap (some machine)
            else if (match bootstrap.Annotations.get? x.ForceRemoveEtcdAnnotation with
                | some v => x.ToLower v == "true"
                | none => false) then
              removeMachinePreTerminateAnnotation h s bootstrap (some machine)
            else
              match machine.Status.NodeRef with
              | none => removeMachinePreTerminateAnnotation h s bootstrap (some machine)
              | some nodeRef =>
                match h.secretCache bootstrap.Namespace (x.KubeconfigSecretName clusterName) with
                | .error err =>
                  if IsNotFound err then
                    removeMachinePreTerminateAnnotation h s bootstrap (some machine)
                  else done (some err)
                | .ok kcSecret =>
                  match x.RESTConfigFromKubeConfig (dataGet kcSecret.Data "value") with
                  | .error err => done (some err)
                  | .ok restConfig =>
                    let runtime := x.GetRuntimeCommand cp.Spec.KubernetesVersion
                    let query : Call := .SafelyRemoved restConfig runtime nodeRef.Name
                    match x.SafelyRemoved restConfig runtime nodeRef.Name with
                    | .error err =>
                      { bootstrap := bootstrap, err := some err, calls := [query], store := s }
                    | .ok removed =>
                      if !removed then
                        { bootstrap := bootstrap, err := some .ErrSkip,
                          calls := [query, .EnqueueAfter bootstrap.Namespace bootstrap.Name 5],
                          store := s }
                      else
                        let r := removeMachinePreTerminateAnnotation h s bootstrap (some machine)
                        { r with calls := query :: r.calls }

/-! ## Change handler -/

/-- Method `(*metav1.Time).IsZero`: true of the nil pointer and of the zero
instant, which the timestamps of the embedding represent by 0. -/
def IsZero : Option Nat → Bool
  | none => true
  | some t => t == 0

/-- The request client `h.rkeBootstrap`, the one handler field `OnChange` uses:
`Update` gives the pair (object, error) the client answers an update with. -/
structure RKEBootstrapController where
  Update : RKEBootstrap → Option RKEBootstrap × Option GoError

/-- What one `OnChange` invocation returns (`bootstrap`, `err`) and the
arguments of the `Update` calls it issued, in order. -/
structure ChangeResult where
  bootstrap : Option RKEBootstrap
  err : Option GoError
  updates : List RKEBootstrap
deriving DecidableEq, Repr

def OnChange (rkeBootstrap : RKEBootstrapController) (_key : String)
    (bootstrap : Option RKEBootstrap) : ChangeResult :=
  match bootstrap with
  | none => { bootstrap := none, err := none, updates := [] }
  | some bootstrap =>
    if !IsZero bootstrap.DeletionTimestamp || bootstrap.Spec.ClusterName != "" then
      { bootstrap := some bootstrap, err := none, updates := [] }
    else
      match bootstrap.Labels.get? ClusterLabelName with
      | some v =>
        if v != "" then
          let bootstrap1 : RKEBootstrap :=
            { bootstrap with Spec := { bootstrap.Spec with ClusterName := v } }
          let r := rkeBootstrap.Update bootstrap1
          { bootstrap := r.1, err := r.2, updates := [bootstrap1] }
        else { bootstrap := some bootstrap, err := none, updates := [] }
      | none => { bootstrap := some bootstrap, err := none, updates := [] }

/-! ## Trigger mapping -/

/-- A `relatedresource.Key`. -/
structure Key where
  Namespace : String
  Name : String
deriving DecidableEq, Repr

/-- A `runtime.Object` handed to the trigger mapping: a service account, a
Machine, or an object of any other type (named by its kind). -/
inductive WatchedObject where
  | serviceAccount (sa : ServiceAccount)
  | machine (m : Machine)
  | other (kind : String)
deriving DecidableEq, Repr

/-- The resolver `Register` hands to `relatedresource.Watch` under the name
"rke-bootstrap-trigger": the keys to enqueue and the error, which is always
nil. -/
def rkeBootstrapTrigger (_ns _name : String) (obj : WatchedObject) :
    List Key × Option GoError :=
  let fromMachine : List Key × Option GoError :=
    match obj with
    | .machine machine =>
      match machine.Spec.BootstrapConfigRef with
      | some configRef =>
        if configRef.Kind == "RKEBootstrap" then
          ([{ Namespace := machine.Namespace, Name := configRef.Name }], none)
        else ([], none)
      | none => ([], none)
    | _ => ([], none)
  match obj with
  | .serviceAccount sa =>
    match sa.ObjectMeta.Labels.get? rkeBootstrapName with
    | some name => ([{ Namespace := sa.ObjectMeta.Namespace, Name := name }], none)
    | none => fromMachine
  | _ => fromMachine

/-! ## Global role binding handler
(`pkg/controllers/managementuser/rbac/globalrole_handler.go`) -/

/-- A `v3.GlobalRole`, with the fields `isAdminRole` reads. -/
structure GlobalRole where
  Name : String
  Builtin : Bool
  Rules : List PolicyRule
deriving DecidableEq, Repr

/-- A `v3.GlobalRoleBinding`. -/
structure GlobalRoleBinding where
  Name : String
  Namespace : String
  APIVersion : String
  Kind : String
  UID : String
  DeletionTimestamp : Option Nat
  GlobalRoleName : String
  UserName : String
  GroupPrincipalName : String
deriving DecidableEq, Repr

/-- A `ClusterRoleBinding` as `ensureClusterAdminBinding` builds it; `Name` is
`ObjectMeta.Name`. -/
structure ClusterRoleBinding where
  Name : String
  Subjects : List Subject
  RoleRef : RoleRef
deriving DecidableEq, Repr

/-- A provisioning cluster (`provisioning.cattle.io/v1` Cluster). -/
structure ProvisioningCluster where
  Name : String
  Namespace : String
deriving DecidableEq, Repr

/-- An owner reference with the fields `ensureProvisioningClusterAdminBinding`
fills in. -/
structure BindingOwnerReference where
  APIVersion : String
  Kind : String
  Name : String
  UID : String
deriving DecidableEq, Repr

/-- A `RoleBinding` as `ensureProvisioningClusterAdminBinding` builds it. -/
structure OwnedRoleBinding where
  Name : String
  Namespace : String
  OwnerReferences : List BindingOwnerReference
  RoleRef : RoleRef
  Subjects : List Subject
deriving DecidableEq, Repr

/-- Members of the packages `rbac`, `clusterv2` and `name` that the handler uses
and whose source is not part of the handler file. -/
structure RbacPkg where
  GlobalAdmin : String
  GlobalRestrictedAdmin : String
  ByCluster : String
  GrbCRBName : GlobalRoleBinding → String
  GetGRBSubject : GlobalRoleBinding → Subject
  GetGRBTargetKey : GlobalRoleBinding → String
  ProvisioningClusterAdminName : ProvisioningCluster → String
  SafeConcatName : List String → String

/-- The handler's collaborators: listers are lookup functions of (namespace,
name), `provClusters` is `GetByIndex(index, key)`, and `clusterRoleBindings` and
`roleBindings` give the error, if any, that `Create` answers with. -/
structure grbHandler where
  clusterName : String
  clusterRoleBindings : ClusterRoleBinding → Option GoError
  crbLister : String → String → Except GoError ClusterRoleBinding
  grLister : String → String → Except GoError GlobalRole
  rbLister : String → String → Except GoError OwnedRoleBinding
  roleBindings : OwnedRoleBinding → Option GoError
  provClusters : String → String → Except GoError (List ProvisioningCluster)

/-- An outbound call of the global role binding handler. -/
inductive GrbCall where
  | CreateClusterRoleBinding (crb : ClusterRoleBinding)
  | CreateRoleBinding (rb : OwnedRoleBinding)
  | EnqueueAfter (ns name : String) (seconds : Nat)
deriving DecidableEq, Repr

/-- Function `slice.ContainsString`. -/
def ContainsString (slice : List String) (item : String) : Bool :=
  slice.any (fun j => j == item)

def isAdminRole (r : RbacPkg) (c : grbHandler) (rtName : String) : Except GoError Bool :=
  match c.grLister "" rtName with
  | .error err => .error err
  | .ok gr =>
    if gr.Builtin && (gr.Name == r.GlobalAdmin || gr.Name == r.GlobalRestrictedAdmin) then
      .ok true
    else
      -- the pair is (hasResourceRule, hasNonResourceRule)
      let flags : Bool × Bool := gr.Rules.foldl (fun flags rule =>
        if ContainsString rule.Resources "*" && ContainsString rule.APIGroups "*" &&
            ContainsString rule.Verbs "*" then
          (true, flags.2)
        else if ContainsString rule.NonResourceURLs "*" && ContainsString rule.Verbs "*" then
          (flags.1, true)
        else flags) (false, false)
      if flags.1 && flags.2 then .ok true else .ok false

def ensureClusterAdminBinding (r : RbacPkg) (c : grbHandler) (obj : GlobalRoleBinding) :
    Option GoError × List GrbCall :=
  let bindingName := r.GrbCRBName obj
  let create : Option GoError × List GrbCall :=
    let crb : ClusterRoleBinding :=
      { Name := bindingName
        Subjects := [r.GetGRBSubject obj]
        RoleRef := { APIGroup := "", Kind := "ClusterRole", Name := "cluster-admin" } }
    match c.clusterRoleBindings crb with
    | some err =>
      if !IsAlreadyExists err then (some err, [.CreateClusterRoleBinding crb])
      else (none, [.CreateClusterRoleBinding crb])
    | none => (none, [.CreateClusterRoleBinding crb])
  match c.crbLister "" bindingName with
  | .error err => if !IsNotFound err then (some err, []) else create
  | .ok _ => (none, [])

def ensureProvisioningClusterAdminBinding (r : RbacPkg) (c : grbHandler)
    (obj : GlobalRoleBinding) : Option GoError × List GrbCall :=
  if obj.GlobalRoleName != r.GlobalRestrictedAdmin then (none, [])
  else
    match c.provClusters r.ByCluster c.clusterName with
    | .error err => (some err, [])
    | .ok [] => (none, [.EnqueueAfter obj.Namespace obj.Name 10])
    | .ok (provCluster :: _) =>
      let subject := r.GetGRBSubject obj
      let rbName := r.SafeConcatName
        [r.ProvisioningClusterAdminName provCluster, r.GetGRBTargetKey obj]
      let create : Option GoError × List GrbCall :=
        let rb : OwnedRoleBinding :=
          { Name := rbName
            Namespace := provCluster.Namespace
            OwnerReferences :=
              [{ APIVersion := obj.APIVersion, Kind := obj.Kind, Name := obj.Name, UID := obj.UID }]
            RoleRef :=
              { APIGroup := GroupName, Kind := "Role",
                Name := r.ProvisioningClusterAdminName provCluster }
            Subjects := [subject] }
        match c.roleBindings rb with
        | some err =>
          if !IsAlreadyExists err then (some err, [.CreateRoleBinding rb])
          else (none, [.CreateRoleBinding rb])
        | none => (none, [.CreateRoleBinding rb])
      match c.rbLister provCluster.Namespace rbName with
      | .error err => if !IsNotFound err then (some err, []) else create
      | .ok _ => (none, [])

/-- What one `sync` invocation returns (`obj`, `err`) and the calls it issued. -/
structure SyncResult where
  obj : Option GlobalRoleBinding
  err : Option GoError
  calls : List GrbCall
deriving DecidableEq, Repr

def grbHandler.sync (r : RbacPkg) (c : grbHandler) (_key : String)
    (obj : Option GlobalRoleBinding) : SyncResult :=
  match obj with
  | none => { obj := none, err := none, calls := [] }
  | some grb =>
    if grb.DeletionTimestamp.isSome then { obj := obj, err := none, calls := [] }
    else
      match isAdminRole r c grb.GlobalRoleName with
      | .error err => { obj := none, err := some err, calls := [] }
      | .ok isAdmin =>
        if !isAdmin then { obj := obj, err := none, calls := [] }
        else if c.clusterName == "local" && grb.GlobalRoleName == r.GlobalRestrictedAdmin then
          { obj := obj, err := none, calls := [] }
        else
          match ensureClusterAdminBinding r c grb with
          | (some err, calls) => { obj := none, err := some err, calls := calls }
          | (none, calls) =>
            match ensureProvisioningClusterAdminBinding r c grb with
            | (some err, calls2) => { obj := none, err := some err, calls := calls ++ calls2 }
            | (none, calls2) => { obj := obj, err := none, calls := calls ++ calls2 }

/-! ## A concrete cluster used to exercise the handlers -/

namespace Demo

/-- Concrete package members: the label constants have the shape they have in
`capr`, the name functions join with dashes, and the consensus query answers
"not safe". -/
def pkg : Pkg where
  EtcdRoleLabel := "rke.cattle.io/etcd-role"
  MachineNameLabel := "rke.cattle.io/machine-name"
  ClusterNameLabel := "rke.cattle.io/cluster-name"
  RoleLabel := "rke.cattle.io/service-account-role"
  RolePlan := "plan"
  RoleBootstrap := "bootstrap"
  PlanSecret := "rke.cattle.io/plan-secret-name"
  SecretTypeMachinePlan := "rke.cattle.io/machine-plan"
  CattleOSLabel := "cattle.io/os"
  WindowsMachineOS := "windows"
  ForceRemoveEtcdAnnotation := "rke.cattle.io/force-machine-remove"
  SystemNamespace := "cattle-system"
  PlanSecretFromBootstrapName := fun n => n ++ "-machine-plan"
  SafeConcatName := fun parts => "-".intercalate parts
  IsPaused := fun _ _ => false
  EnsureSecretForServiceAccount := fun sa =>
    .ok { ObjectMeta := sa.ObjectMeta, Data := [("token", [7])], SecretType := "token" }
  LinuxInstallScript := fun _ _ _ _ => .ok [1]
  WindowsInstallScript := fun _ _ _ _ => .ok [2]
  Sum256 := fun b => b
  EncodeToString := fun _ => "hash"
  KubeconfigSecretName := fun c => c ++ "-kubeconfig"
  RESTConfigFromKubeConfig := fun _ => .ok { Host := "https://c1" }
  GetRuntimeCommand := fun _ => "rke2"
  ToLower := fun v => v
  SafelyRemoved := fun _ _ _ => .ok false

def cluster : Cluster where
  Name := "c1"
  Namespace := "fleet"
  DeletionTimestamp := none
  Spec := { ControlPlaneRef := some { Kind := "RKEControlPlane", Namespace := "fleet", Name := "c1" } }
  Status := { InfrastructureReady := true }

def controlPlane : RKEControlPlane where
  DeletionTimestamp := none
  Spec := { AgentEnvVars := [], KubernetesVersion := "v1.27.6+rke2r1" }

/-- One cluster, one control plane, the kubeconfig secret of the cluster and
the bootstrap service account of request `b1`; no write is rejected. -/
def h : handler where
  serviceAccountCache := fun ns name =>
    if ns == "fleet" && name == "b1-machine-bootstrap" then
      .ok { ObjectMeta := { Name := name, Namespace := ns, Labels := .nil, Annotations := .nil } }
    else .error .NotFound
  secretCache := fun ns name =>
    if ns == "fleet" && name == "c1-kubeconfig" then
      .ok { ObjectMeta := { Name := name, Namespace := ns, Labels := .nil, Annotations := .nil },
            Data := [("value", [1, 2, 3])], SecretType := "cluster.x-k8s.io/secret" }
    else .error .NotFound
  capiClusterCache := fun ns name =>
    if ns == "fleet" && name == "c1" then .ok cluster else .error .NotFound
  deploymentCache := fun _ _ => .error .NotFound
  rkeControlPlanes := fun ns name =>
    if ns == "fleet" && name == "c1" then .ok controlPlane else .error .NotFound
  machineCacheErr := none
  machineUpdateErr := fun _ => none

/-- An etcd voter that joined as node `node1` and carries the pre-terminate
marker annotation. -/
def etcdMachine : Machine where
  Name := "m1"
  Namespace := "fleet"
  Labels := .mk [("rke.cattle.io/etcd-role", "true")]
  Annotations := .mk [( capiMachinePreTerminateAnnotation, capiMachinePreTerminateAnnotationOwner)]
  Spec := { ClusterName := "c1", BootstrapConfigRef := none }
  Status := { Phase := "Running", NodeRef := some { Kind := "Node", Namespace := "", Name := "node1" } }

/-- An etcd voter still being provisioned, on which no marker was written yet. -/
def newEtcdMachine : Machine where
  Name := "m1"
  Namespace := "fleet"
  Labels := .mk [("rke.cattle.io/etcd-role", "true")]
  Annotations := .nil
  Spec := { ClusterName := "c1", BootstrapConfigRef := none }
  Status := { Phase := "Pending", NodeRef := none }

/-- A worker being provisioned. -/
def workerMachine : Machine where
  Name := "m1"
  Namespace := "fleet"
  Labels := .mk [("rke.cattle.io/worker-role", "true")]
  Annotations := .nil
  Spec := { ClusterName := "c1", BootstrapConfigRef := none }
  Status := { Phase := "Pending", NodeRef := none }

/-- Request `fleet/b1`, owned by Machine `m1` and labelled with cluster `c1`. -/
def bootstrap : RKEBootstrap where
  Name := "b1"
  Namespace := "fleet"
  Labels := .mk [( ClusterLabelName, "c1")]
  Annotations := .nil
  OwnerReferences := [{ Kind := "Machine", Name := "m1" }]
  DeletionTimestamp := none
  Spec := { ClusterName := "c1" }

/-- The same request without its cluster label. -/
def unlabelledBootstrap : RKEBootstrap :=
  { bootstrap with Labels := .nil }

/-- The same request with the operator's force-remove annotation. -/
def forcedBootstrap : RKEBootstrap :=
  { bootstrap with Annotations := .mk [("rke.cattle.io/force-machine-remove", "true")] }

/-- The joined etcd voter once its marker annotation is removed. -/
def clearedEtcdMachine : Machine :=
  { etcdMachine with Annotations := .mk [] }

/-- The new etcd voter as the generating handler writes it. -/
def labelledEtcdMachine : Machine :=
  { newEtcdMachine with
    Labels := .mk [( capiMachinePreTerminateAnnotation, capiMachinePreTerminateAnnotationOwner),
                   ("rke.cattle.io/etcd-role", "true")] }

def emptyStatus : RKEBootstrapStatus where
  Ready := false
  DataSecretName := none

/-- The same package members with a consensus query that answers "safe". -/
def safePkg : Pkg :=
  { pkg with SafelyRemoved := fun _ _ _ => .ok true }

/-- The same package members with a consensus query that fails. -/
def failingPkg : Pkg :=
  { pkg with SafelyRemoved := fun _ _ _ => .error (.Other "etcd unreachable") }

/-- The cluster once it is being deleted. -/
def deletingCluster : Cluster :=
  { cluster with DeletionTimestamp := some 1700000000 }

/-- The handler seeing the cluster in deletion. -/
def hDeleting : handler :=
  { h with capiClusterCache := fun ns name =>
      if ns == "fleet" && name == "c1" then .ok deletingCluster else .error .NotFound }

/-- The handler before the bootstrap service account exists. -/
def hNoServiceAccount : handler :=
  { h with serviceAccountCache := fun _ _ => .error .NotFound }

/-- The handler before the bootstrap service account exists and with an API
server that rejects every Machine update. -/
def hRejecting : handler :=
  { hNoServiceAccount with machineUpdateErr := fun _ => some (.Other "conflict") }

/-- A worker that carries the marker annotation next to another annotation. -/
def markedWorkerMachine : Machine :=
  { workerMachine with
    Annotations := .mk [("note", "keep"),
      ( capiMachinePreTerminateAnnotation, capiMachinePreTerminateAnnotationOwner)] }

/-- An etcd voter that carries the marker annotation but never joined. -/
def unjoinedEtcdMachine : Machine :=
  { etcdMachine with Status := { Phase := "Provisioning", NodeRef := none } }

/-- The same package members with install scripts that record the host-port
flag they are given: a trailing 443 when it is set. -/
def flagPkg : Pkg :=
  { pkg with
    LinuxInstallScript := fun flag _ _ _ => .ok (if flag then [1, 443] else [1])
    WindowsInstallScript := fun flag _ _ _ => .ok (if flag then [2, 443] else [2]) }

/-- The rancher deployment: a proxy container with a host port and the
`rancher` container, whose second port is bound to host port 443. -/
def rancherDeployment : Deployment where
  Containers :=
    [{ Name := "proxy", Ports := [{ HostPort := 8080 }] },
     { Name := "rancher", Ports := [{ HostPort := 0 }, { HostPort := 443 }] }]

/-- The handler seeing the rancher deployment in the system namespace. -/
def hHostPort : handler :=
  { h with deploymentCache := fun ns name =>
      if ns == "cattle-system" && name == "rancher" then .ok rancherDeployment
      else .error .NotFound }

/-- The handler before the control plane of the cluster exists. -/
def hNoControlPlane : handler :=
  { h with rkeControlPlanes := fun _ _ => .error .NotFound }

/-- Concrete members of the `rbac` package: the two builtin admin role names
and name functions that join with dashes. -/
def rbacPkg : RbacPkg where
  GlobalAdmin := "admin"
  GlobalRestrictedAdmin := "restricted-admin"
  ByCluster := "by-cluster"
  GrbCRBName := fun g => "globaladmin-" ++ g.UserName
  GetGRBSubject := fun g => { Kind := "User", Name := g.UserName, Namespace := "" }
  GetGRBTargetKey := fun g => g.UserName
  ProvisioningClusterAdminName := fun c => c.Name ++ "-clusteradmin"
  SafeConcatName := fun parts => "-".intercalate parts

/-- A custom global role whose single rule has "*" in resources, API groups,
verbs and non-resource URLs. -/
def combinedRuleRole : GlobalRole where
  Name := "custom-admin"
  Builtin := false
  Rules := [{ Verbs := ["*"], APIGroups := ["*"], Resources := ["*"], ResourceNames := [],
              NonResourceURLs := ["*"] }]

/-- A custom global role with an admin resource rule and, apart from it, an
admin non-resource rule. -/
def twoRuleRole : GlobalRole where
  Name := "custom-admin"
  Builtin := false
  Rules := [{ Verbs := ["*"], APIGroups := ["*"], Resources := ["*"], ResourceNames := [] },
            { Verbs := ["*"], APIGroups := [], Resources := [], ResourceNames := [],
              NonResourceURLs := ["*"] }]

/-- A binding of user `u-1` to the global role `custom-admin`. -/
def grb : GlobalRoleBinding where
  Name := "grb-1"
  Namespace := ""
  APIVersion := "management.cattle.io/v3"
  Kind := "GlobalRoleBinding"
  UID := "uid-1"
  DeletionTimestamp := none
  GlobalRoleName := "custom-admin"
  UserName := "u-1"
  GroupPrincipalName := ""

/-- The handler of downstream cluster `c-m-1`, which knows the given global
role and holds no binding yet; no create is rejected. -/
def grbh (role : GlobalRole) : grbHandler where
  clusterName := "c-m-1"
  clusterRoleBindings := fun _ => none
  crbLister := fun _ _ => .error .NotFound
  grLister := fun _ n => if n == role.Name then .ok role else .error .NotFound
  rbLister := fun _ _ => .error .NotFound
  roleBindings := fun _ => none
  provClusters := fun _ _ => .ok []

/-- A legacy request: no spec cluster name, cluster named by its label. -/
def legacyBootstrap : RKEBootstrap :=
  { bootstrap with Spec := { ClusterName := "" } }

/-- A request client that stores what it is given. -/
def client : RKEBootstrapController where
  Update := fun b => (some b, none)

/-- A request with two labels, one of them under the cluster-name key of the
plan secret, and one annotation. -/
def labelledBootstrap : RKEBootstrap :=
  { bootstrap with
    Labels := .mk [( ClusterLabelName, "c1"), ("rke.cattle.io/cluster-name", "from-request")]
    Annotations := .mk [("owner", "team-a")] }

end Demo

/-! ## Removal handler: the deletion safety gate -/

/-- One removal pass that reaches the consensus query and is told "not safe":
skip, one re-enqueue after 5 seconds, store untouched. -/
theorem OnRemove_not_safe_step (x : Pkg) (h : handler) (s : Store) (key : String)
    (b : RKEBootstrap) (c : Cluster) (cpRef : ObjectReference) (cp : RKEControlPlane)
    (m : Machine) (nodeRef : ObjectReference) (kc : Secret) (cfg : RestConfig)
    (hlabel : b.Labels.getD ClusterLabelName ≠ "")
    (hc : h.capiClusterCache b.Namespace (b.Labels.getD ClusterLabelName) = .ok c)
    (href : c.Spec.ControlPlaneRef = some cpRef)
    (hcp : h.rkeControlPlanes cpRef.Namespace cpRef.Name = .ok cp)
    (hm : GetMachineByOwner (machineCacheGet h s) b = .ok m)
    (hcpdel : cp.DeletionTimestamp = none) (hcdel : c.DeletionTimestamp = none)
    (hetcd : m.Labels.contains x.EtcdRoleLabel = true)
    (hforce : ∀ v, b.Annotations.get? x.ForceRemoveEtcdAnnotation = some v → x.ToLower v ≠ "true")
    (hnode : m.Status.NodeRef = some nodeRef)
    (hkc : h.secretCache b.Namespace (x.KubeconfigSecretName (b.Labels.getD ClusterLabelName))
      = .ok kc)
    (hcfg : x.RESTConfigFromKubeConfig (dataGet kc.Data "value") = .ok cfg)
    (hq : x.SafelyRemoved cfg (x.GetRuntimeCommand cp.Spec.KubernetesVersion) nodeRef.Name
      = .ok false) :
    OnRemove x h s key b =
      { bootstrap := b, err := some .ErrSkip,
        calls := [.SafelyRemoved cfg (x.GetRuntimeCommand cp.Spec.KubernetesVersion) nodeRef.Name,
                  .EnqueueAfter b.Namespace b.Name 5],
        store := s } := by
  have hf : (match b.Annotations.get? x.ForceRemoveEtcdAnnotation with
      | some v => x.ToLower v == "true"
      | none => false) = false := by
    cases hv : b.Annotations.get? x.ForceRemoveEtcdAnnotation with
    | none => rfl
    | some v => simpa using hforce v hv
  simp [OnRemove, hlabel, hc, href, hcp, hm, hcpdel, hcdel, hetcd, hf, hnode, hkc, hcfg, hq]

/-- C1: every removal pass that reaches the consensus query (cluster label set,
cluster and control plane found and not deleting, owning etcd Machine found, no
force annotation whose lower-cased value is "true", node reference set,
kubeconfig secret found and parsed) and is answered (false, no error) returns
the skip sentinel, issues exactly the query and one re-enqueue of the request
after 5 seconds, issues no Machine update and leaves the Machine store as it
was; this holds for the pass following any number `n` of earlier such passes. -/
theorem OnRemove_not_safe_skips (x : Pkg) (h : handler) (s : Store) (key : String)
    (b : RKEBootstrap) (c : Cluster) (cpRef : ObjectReference) (cp : RKEControlPlane)
    (m : Machine) (nodeRef : ObjectReference) (kc : Secret) (cfg : RestConfig)
    (hlabel : b.Labels.getD ClusterLabelName ≠ "")
    (hc : h.capiClusterCache b.Namespace (b.Labels.getD ClusterLabelName) = .ok c)
    (href : c.Spec.ControlPlaneRef = some cpRef)
    (hcp : h.rkeControlPlanes cpRef.Namespace cpRef.Name = .ok cp)
    (hm : GetMachineByOwner (machineCacheGet h s) b = .ok m)
    (hcpdel : cp.DeletionTimestamp = none) (hcdel : c.DeletionTimestamp = none)
    (hetcd : m.Labels.contains x.EtcdRoleLabel = true)
    (hforce : ∀ v, b.Annotations.get? x.ForceRemoveEtcdAnnotation = some v → x.ToLower v ≠ "true")
    (hnode : m.Status.NodeRef = some nodeRef)
    (hkc : h.secretCache b.Namespace (x.KubeconfigSecretName (b.Labels.getD ClusterLabelName))
      = .ok kc)
    (hcfg : x.RESTConfigFromKubeConfig (dataGet kc.Data "value") = .ok cfg)
    (hq : x.SafelyRemoved cfg (x.GetRuntimeCommand cp.Spec.KubernetesVersion) nodeRef.Name
      = .ok false)
    (n : Nat) :
    OnRemove x h ((fun st => (OnRemove x h st key b).store)^[n] s) key b =
      { bootstrap := b, err := some .ErrSkip,
        calls := [.SafelyRemoved cfg (x.GetRuntimeCommand cp.Spec.KubernetesVersion) nodeRef.Name,
                  .EnqueueAfter b.Namespace b.Name 5],
        store := s } := by
  have hstep := OnRemove_not_safe_step x h s key b c cpRef cp m nodeRef kc cfg hlabel hc href hcp
    hm hcpdel hcdel hetcd hforce hnode hkc hcfg hq
  have hfix : (fun st => (OnRemove x h st key b).store)^[n] s = s :=
    Function.iterate_fixed (by simp [hstep]) n
  rw [hfix, hstep]

/-- Witness for C1: the third consecutive removal pass on the joined etcd voter
of the demo cluster, whose consensus query answers "not safe". -/
theorem OnRemove_not_safe_skips_witness :
    OnRemove Demo.pkg Demo.h
        ((fun st => (OnRemove Demo.pkg Demo.h st "fleet/b1" Demo.bootstrap).store)^[2]
          ⟨[Demo.etcdMachine]⟩) "fleet/b1" Demo.bootstrap =
      { bootstrap := Demo.bootstrap, err := some .ErrSkip,
        calls := [.SafelyRemoved ⟨"https://c1"⟩ "rke2" "node1", .EnqueueAfter "fleet" "b1" 5],
        store := ⟨[Demo.etcdMachine]⟩ } :=
  OnRemove_not_safe_skips Demo.pkg Demo.h ⟨[Demo.etcdMachine]⟩ "fleet/b1" Demo.bootstrap
    Demo.cluster { Kind := "RKEControlPlane", Namespace := "fleet", Name := "c1" }
    Demo.controlPlane Demo.etcdMachine { Kind := "Node", Namespace := "", Name := "node1" }
    { ObjectMeta := { Name := "c1-kubeconfig", Namespace := "fleet", Labels := .nil,
                      Annotations := .nil },
      Data := [("value", [1, 2, 3])], SecretType := "cluster.x-k8s.io/secret" }
    ⟨"https://c1"⟩
    (by decide) (by decide) (by decide) (by decide) (by decide) (by decide) (by decide)
    (by decide) (fun v hv => by simp [Demo.bootstrap, GoMap.get?, GoMap.entries] at hv)
    (by decide) (by decide) (by decide) (by decide) 2

/-! ### Marker cleanup and the stored Machine -/

theorem GoMap.contains_of_isNil (m : GoMap) (k : String) (hm : m.isNil = true) :
    m.contains k = false := by
  cases m with
  | nil => rfl
  | mk l => simp [GoMap.isNil] at hm

theorem lookup_filter_ne (l : List (String × String)) (k : String) :
    (l.filter (fun p => p.1 != k)).lookup k = none := by
  induction l with
  | nil => rfl
  | cons a t ih =>
    obtain ⟨a1, a2⟩ := a
    by_cases hk : a1 = k
    · rw [List.filter_cons_of_neg (by simp [hk])]
      exact ih
    · have hk2 : (k == a1) = false := by simpa using fun e => hk e.symm
      rw [List.filter_cons_of_pos (by simpa using hk), List.lookup_cons, hk2]
      exact ih

theorem GoMap.contains_delete (m : GoMap) (k : String) : (m.delete k).contains k = false := by
  cases m with
  | nil => rfl
  | mk l => simp [GoMap.delete, GoMap.contains, GoMap.get?, GoMap.entries, lookup_filter_ne]

/-- Reading back a key after the objects stored under it were overwritten. -/
theorem find?_map_overwrite (p : Machine → Bool) (m1 : Machine) (hp : p m1 = true)
    (l : List Machine) :
    (l.map (fun m => if p m then m1 else m)).find? p = (l.find? p).map (fun _ => m1) := by
  induction l with
  | nil => rfl
  | cons a t ih =>
    by_cases ha : p a = true
    · simp [List.find?, ha, hp]
    · simp [List.find?, ha, ih]

/-- A successful owner lookup found an owner reference of kind Machine and read
the Machine stored under the request's namespace and the reference's name. -/
theorem GetMachineByOwner_ok (h : handler) (s : Store) (b : RKEBootstrap) (m : Machine)
    (hm : GetMachineByOwner (machineCacheGet h s) b = .ok m) :
    ∃ r, b.OwnerReferences.find? (fun r => r.Kind == "Machine") = some r ∧
      h.machineCacheErr = none ∧
      s.Machines.find? (fun m => m.Namespace == b.Namespace && m.Name == r.Name) = some m := by
  unfold GetMachineByOwner at hm
  split at hm
  · rename_i r hr
    refine ⟨r, hr, ?_⟩
    unfold machineCacheGet at hm
    split at hm
    · cases hm
    · rename_i he
      refine ⟨he, ?_⟩
      split at hm
      · rename_i m1 hfind
        cases hm
        exact hfind
      · cases hm
  · cases hm

/-- After a marker cleanup that returned no error, the Machine the owner lookup
reads from the store does not carry the marker annotation. -/
theorem removeMarker_clears (h : handler) (s : Store) (b : RKEBootstrap) (m0 : Machine)
    (hm : GetMachineByOwner (machineCacheGet h s) b = .ok m0)
    (herr : ( removeMachinePreTerminateAnnotation h s b (some m0)).err = none) (m : Machine)
    (hafter : GetMachineByOwner
      (machineCacheGet h ( removeMachinePreTerminateAnnotation h s b (some m0)).store) b = .ok m) :
    m.Annotations.contains capiMachinePreTerminateAnnotation = false := by
  obtain ⟨r, hr, he, hfind⟩ := GetMachineByOwner_ok h s b m0 hm
  have hkey := List.find?_some hfind
  simp only [Bool.and_eq_true, beq_iff_eq] at hkey
  unfold removeMachinePreTerminateAnnotation at herr hafter
  by_cases hnil : m0.Annotations.isNil = true
  · simp only [hnil, if_true] at hafter
    rw [hm] at hafter
    cases hafter
    exact GoMap.contains_of_isNil _ _ hnil
  · by_cases hc : m0.Annotations.contains capiMachinePreTerminateAnnotation = true
    · simp only [hnil, hc, if_true, Bool.false_eq_true, if_false] at herr hafter
      unfold machineClientUpdate at herr hafter
      cases hu : h.machineUpdateErr
          { m0 with Annotations := m0.Annotations.delete capiMachinePreTerminateAnnotation } with
      | some e => simp [hu] at herr
      | none =>
        simp only [hu] at herr hafter
        split at hafter
        · obtain ⟨r2, hr2, -, hfind2⟩ := GetMachineByOwner_ok h _ b m hafter
          rw [hr] at hr2
          cases hr2
          simp only [hkey.1, hkey.2] at hfind2
          rw [find?_map_overwrite _ _ (by simp [hkey.1, hkey.2]), hfind] at hfind2
          cases hfind2
          exact GoMap.contains_delete _ _
        · rename_i hany
          simp [hany] at herr
    · simp only [hnil, hc, if_false, Bool.false_eq_true] at hafter
      rw [hm] at hafter
      cases hafter
      simpa using hc

/-- C2, as stated, fails: a request without cluster label is allowed to be
removed (nil error) while the etcd Machine it owns is still stored with the
pre-terminate marker annotation. -/
theorem OnRemove_unlabelled_keeps_marker :
    (OnRemove Demo.pkg Demo.h ⟨[Demo.etcdMachine]⟩ "fleet/b1" Demo.unlabelledBootstrap).err = none ∧
    GetMachineByOwner
      (machineCacheGet Demo.h
        (OnRemove Demo.pkg Demo.h ⟨[Demo.etcdMachine]⟩ "fleet/b1" Demo.unlabelledBootstrap).store)
      Demo.unlabelledBootstrap = .ok Demo.etcdMachine ∧
    Demo.etcdMachine.Annotations.contains capiMachinePreTerminateAnnotation = true := by
  decide

/-- C2, amended: for every removal pass that returns a nil error and in which
the request's cluster label is non-empty, the cluster is found with a
control-plane reference and the control plane is found, the Machine owned by
the request, whenever the store holds one after the pass, does not carry the
pre-terminate marker annotation. -/
theorem OnRemove_nil_error_marker_cleared (x : Pkg) (h : handler) (s : Store) (key : String)
    (b : RKEBootstrap) (c : Cluster) (cpRef : ObjectReference) (cp : RKEControlPlane)
    (hlabel : b.Labels.getD ClusterLabelName ≠ "")
    (hc : h.capiClusterCache b.Namespace (b.Labels.getD ClusterLabelName) = .ok c)
    (href : c.Spec.ControlPlaneRef = some cpRef)
    (hcp : h.rkeControlPlanes cpRef.Namespace cpRef.Name = .ok cp)
    (herr : (OnRemove x h s key b).err = none) (m : Machine)
    (hafter : GetMachineByOwner (machineCacheGet h (OnRemove x h s key b).store) b = .ok m) :
    m.Annotations.contains capiMachinePreTerminateAnnotation = false := by
  unfold OnRemove at herr hafter
  simp only [hlabel, hc, href, hcp, beq_iff_eq, if_false] at herr hafter
  cases hm : GetMachineByOwner (machineCacheGet h s) b with
  | error e =>
    simp only [hm] at herr hafter
    split at hafter
    · simp [hm] at hafter
    · rename_i hne
      simp [hne] at herr
  | ok m0 =>
    simp only [hm] at herr hafter
    have key := removeMarker_clears h s b m0 hm
    repeat' split at hafter
    all_goals first
      | exact key (by simp_all) m hafter
      | simp_all

/-- Witness for C2 (amended): a forced removal of the joined etcd voter returns a
nil error and leaves the stored Machine without the marker annotation. -/
theorem OnRemove_nil_error_marker_cleared_witness :
    (OnRemove Demo.pkg Demo.h ⟨[Demo.etcdMachine]⟩ "fleet/b1" Demo.forcedBootstrap).err = none ∧
    GetMachineByOwner
      (machineCacheGet Demo.h
        (OnRemove Demo.pkg Demo.h ⟨[Demo.etcdMachine]⟩ "fleet/b1" Demo.forcedBootstrap).store)
      Demo.forcedBootstrap = .ok Demo.clearedEtcdMachine ∧
    Demo.clearedEtcdMachine.Annotations.contains capiMachinePreTerminateAnnotation = false :=
  ⟨by decide, by decide,
    OnRemove_nil_error_marker_cleared Demo.pkg Demo.h ⟨[Demo.etcdMachine]⟩ "fleet/b1"
      Demo.forcedBootstrap Demo.cluster
      { Kind := "RKEControlPlane", Namespace := "fleet", Name := "c1" } Demo.controlPlane
      (by decide) (by decide) (by decide) (by decide) (by decide) Demo.clearedEtcdMachine
      (by decide)⟩

/-! ## Generating handler: the marker write -/

/-- C3 (the code at the failing input): on a new etcd voter without marker
annotation the pass succeeds and issues one Machine update, but the updated
Machine carries the marker as a label, not as an annotation, and the Machine
stored after the pass still lacks the marker annotation. -/
theorem GeneratingHandler_writes_marker_label :
    (GeneratingHandler Demo.pkg Demo.h ⟨[Demo.newEtcdMachine]⟩ Demo.bootstrap
        Demo.emptyStatus).err = none ∧
    (GeneratingHandler Demo.pkg Demo.h ⟨[Demo.newEtcdMachine]⟩ Demo.bootstrap
        Demo.emptyStatus).calls = [.MachineUpdate Demo.labelledEtcdMachine] ∧
    Demo.labelledEtcdMachine.Annotations.get? capiMachinePreTerminateAnnotation = none ∧
    Demo.labelledEtcdMachine.Labels.get? capiMachinePreTerminateAnnotation =
      some capiMachinePreTerminateAnnotationOwner ∧
    GetOwnerCAPIMachine Demo.bootstrap
      (machineCacheGet Demo.h
        (GeneratingHandler Demo.pkg Demo.h ⟨[Demo.newEtcdMachine]⟩ Demo.bootstrap
          Demo.emptyStatus).store) = .ok Demo.labelledEtcdMachine := by
  decide

/-- C4 (the code at the failing input): after a successful first pass on a new
etcd voter, a second pass on the store and status the first pass left returns
the same objects and status but issues a Machine update again. -/
theorem GeneratingHandler_second_pass_updates_again :
    (GeneratingHandler Demo.pkg Demo.h ⟨[Demo.newEtcdMachine]⟩ Demo.bootstrap
        Demo.emptyStatus).err = none ∧
    GeneratingHandler Demo.pkg Demo.h
      (GeneratingHandler Demo.pkg Demo.h ⟨[Demo.newEtcdMachine]⟩ Demo.bootstrap
        Demo.emptyStatus).store
      Demo.bootstrap
      (GeneratingHandler Demo.pkg Demo.h ⟨[Demo.newEtcdMachine]⟩ Demo.bootstrap
        Demo.emptyStatus).status =
    { objs := (GeneratingHandler Demo.pkg Demo.h ⟨[Demo.newEtcdMachine]⟩ Demo.bootstrap
        Demo.emptyStatus).objs,
      status := (GeneratingHandler Demo.pkg Demo.h ⟨[Demo.newEtcdMachine]⟩ Demo.bootstrap
        Demo.emptyStatus).status,
      err := none,
      calls := [.MachineUpdate Demo.labelledEtcdMachine],
      store := ⟨[Demo.labelledEtcdMachine]⟩ } := by
  decide

/-! ## Generating handler: status -/

/-- C5: when the input status has a non-nil DataSecretName, the returned status
equals the input status (in particular its DataSecretName), on every return
path. -/
theorem GeneratingHandler_keeps_data_secret_name (x : Pkg) (h : handler) (s : Store)
    (b : RKEBootstrap) (status : RKEBootstrapStatus) (hset : status.DataSecretName ≠ none) :
    (GeneratingHandler x h s b status).status = status := by
  unfold GeneratingHandler
  repeat' split
  all_goals simp_all

/-- Witness for C5: a pass that computes the bootstrap secret `b1-machine-bootstrap`
leaves a status that already names another secret as it is. -/
theorem GeneratingHandler_keeps_data_secret_name_witness :
    (GeneratingHandler Demo.pkg Demo.h ⟨[Demo.workerMachine]⟩ Demo.bootstrap
        ⟨true, some "earlier-secret"⟩).status = ⟨true, some "earlier-secret"⟩ ∧
    (GeneratingHandler Demo.pkg Demo.h ⟨[Demo.workerMachine]⟩ Demo.bootstrap
        ⟨true, some "earlier-secret"⟩).err = none :=
  ⟨GeneratingHandler_keeps_data_secret_name Demo.pkg Demo.h ⟨[Demo.workerMachine]⟩ Demo.bootstrap
      ⟨true, some "earlier-secret"⟩ (by decide),
    by decide⟩

/-! ### The pass after the readiness gate -/

/-- The marker block keeps the Machine's name, namespace, annotations, spec and
status. -/
theorem annotateMachine_ok (x : Pkg) (h : handler) (s : Store) (m m1 : Machine)
    (calls : List Call) (s1 : Store) (hw : annotateMachine x h s m = (.ok m1, calls, s1)) :
    m1.Name = m.Name ∧ m1.Namespace = m.Namespace ∧ m1.Annotations = m.Annotations ∧
      m1.Spec = m.Spec ∧ m1.Status = m.Status := by
  unfold annotateMachine at hw
  dsimp only at hw
  split at hw
  · unfold machineClientUpdate at hw
    dsimp only at hw
    split at hw
    · simp at hw
    · split at hw
      · simp only [Prod.mk.injEq, Except.ok.injEq] at hw
        obtain ⟨rfl, -, -⟩ := hw
        simp
      · simp at hw
  · simp only [Prod.mk.injEq, Except.ok.injEq] at hw
    obtain ⟨rfl, -, -⟩ := hw
    simp

/-- Once the readiness gate is passed the handler runs the marker block and
the bootstrap-secret assignment. -/
theorem GeneratingHandler_passed (x : Pkg) (h : handler) (s : Store) (b : RKEBootstrap)
    (status : RKEBootstrapStatus) (m : Machine) (c : Cluster)
    (hm : GetOwnerCAPIMachine b (machineCacheGet h s) = .ok m)
    (hc : h.capiClusterCache m.Namespace m.Spec.ClusterName = .ok c)
    (hpause : x.IsPaused c b = false) (hready : c.Status.InfrastructureReady = true) :
    GeneratingHandler x h s b status =
      match annotateMachine x h s m with
      | (.error err, calls, s1) =>
        { objs := [], status := status, err := some err, calls := calls, store := s1 }
      | (.ok machine, calls, s1) =>
        match assignBootStrapSecret x h machine b c with
        | .error err =>
          { objs := [], status := status, err := some err, calls := calls, store := s1 }
        | .ok (none, objs) =>
          { objs := assignPlanSecret x m b ++ objs, status := status, err := none,
            calls := calls, store := s1 }
        | .ok (some bootstrapSecret, objs) =>
          { objs := assignPlanSecret x m b ++ [.secret bootstrapSecret] ++ objs,
            status :=
              if status.DataSecretName.isNone then
                { status with DataSecretName := some bootstrapSecret.ObjectMeta.Name, Ready := true }
              else status,
            err := none, calls := calls, store := s1 } := by
  unfold GeneratingHandler
  simp only [hm, hc, hpause, hready, Bool.false_eq_true, if_false, Bool.not_true]

/-- Outside the four provisioning phases no bootstrap object is assigned. -/
theorem assignBootStrapSecret_other_phase (x : Pkg) (h : handler) (m : Machine)
    (b : RKEBootstrap) (c : Cluster)
    (hphase : m.Status.Phase ≠ MachinePhasePending ∧ m.Status.Phase ≠ MachinePhaseDeleting ∧
      m.Status.Phase ≠ MachinePhaseFailed ∧ m.Status.Phase ≠ MachinePhaseProvisioning) :
    assignBootStrapSecret x h m b c = .ok (none, []) := by
  obtain ⟨h1, h2, h3, h4⟩ := hphase
  simp [assignBootStrapSecret, h1, h2, h3, h4]

/-- In one of the four provisioning phases a successful assignment returns the
bootstrap service account and whatever `getBootstrapSecret` computed for it. -/
theorem assignBootStrapSecret_phase (x : Pkg) (h : handler) (m : Machine) (b : RKEBootstrap)
    (c : Cluster) (sec : Option Secret) (objs : List Object)
    (hphase : m.Status.Phase = MachinePhasePending ∨ m.Status.Phase = MachinePhaseDeleting ∨
      m.Status.Phase = MachinePhaseFailed ∨ m.Status.Phase = MachinePhaseProvisioning)
    (hok : assignBootStrapSecret x h m b c = .ok (sec, objs)) :
    ∃ sa : ServiceAccount, objs = [.serviceAccount sa] ∧
      sa.ObjectMeta.Name = x.SafeConcatName [b.Name, "machine", "bootstrap"] ∧
      sa.ObjectMeta.Namespace = b.Namespace ∧
      ∃ envVars, getBootstrapSecret x h b.Namespace
        (x.SafeConcatName [b.Name, "machine", "bootstrap"]) envVars m = .ok sec := by
  unfold assignBootStrapSecret at hok
  have hcond : (m.Status.Phase != MachinePhasePending && m.Status.Phase != MachinePhaseDeleting &&
      m.Status.Phase != MachinePhaseFailed && m.Status.Phase != MachinePhaseProvisioning)
      = false := by
    rcases hphase with hp | hp | hp | hp <;> simp [hp]
  simp only [hcond, Bool.false_eq_true, if_false] at hok
  split at hok
  · cases hok
  · rename_i envVars _
    split at hok
    · cases hok
    · rename_i secret hsec
      simp only [Except.ok.injEq, Prod.mk.injEq] at hok
      obtain ⟨rfl, rfl⟩ := hok
      exact ⟨_, rfl, rfl, rfl, envVars, hsec⟩

/-- When the service account exists, a successful `getBootstrapSecret` returns
a secret of type "rke.cattle.io/bootstrap" with the given name and namespace. -/
theorem getBootstrapSecret_present (x : Pkg) (h : handler) (ns name : String)
    (envVars : List EnvVar) (m : Machine) (sa : ServiceAccount) (r : Option Secret)
    (hsa : h.serviceAccountCache ns name = .ok sa)
    (hok : getBootstrapSecret x h ns name envVars m = .ok r) :
    ∃ sec : Secret, r = some sec ∧ sec.ObjectMeta.Name = name ∧ sec.ObjectMeta.Namespace = ns ∧
      sec.SecretType = "rke.cattle.io/bootstrap" := by
  unfold getBootstrapSecret at hok
  simp only [hsa] at hok
  repeat' split at hok
  all_goals first
    | (cases hok; exact ⟨_, rfl, rfl, rfl, rfl⟩)
    | cases hok

/-- C6: a pass that passes the readiness gate on a Machine in phase Pending,
Deleting, Failed or Provisioning, finds the bootstrap service account and
returns no error, while the input status has no DataSecretName, returns the
status with Ready = true and DataSecretName = SafeConcatName(request name,
"machine", "bootstrap"), and its object list holds the bootstrap secret, which
bears that name. -/
theorem GeneratingHandler_sets_data_secret_name (x : Pkg) (h : handler) (s : Store)
    (b : RKEBootstrap) (status : RKEBootstrapStatus) (m : Machine) (c : Cluster)
    (sa : ServiceAccount)
    (hm : GetOwnerCAPIMachine b (machineCacheGet h s) = .ok m)
    (hc : h.capiClusterCache m.Namespace m.Spec.ClusterName = .ok c)
    (hpause : x.IsPaused c b = false) (hready : c.Status.InfrastructureReady = true)
    (hphase : m.Status.Phase = MachinePhasePending ∨ m.Status.Phase = MachinePhaseDeleting ∨
      m.Status.Phase = MachinePhaseFailed ∨ m.Status.Phase = MachinePhaseProvisioning)
    (hsa : h.serviceAccountCache b.Namespace (x.SafeConcatName [b.Name, "machine", "bootstrap"])
      = .ok sa)
    (herr : (GeneratingHandler x h s b status).err = none)
    (hnil : status.DataSecretName = none) :
    (GeneratingHandler x h s b status).status =
      { Ready := true
        DataSecretName := some (x.SafeConcatName [b.Name, "machine", "bootstrap"]) } ∧
    ∃ sec : Secret, Object.secret sec ∈ (GeneratingHandler x h s b status).objs ∧
      sec.ObjectMeta.Name = x.SafeConcatName [b.Name, "machine", "bootstrap"] ∧
      sec.ObjectMeta.Namespace = b.Namespace ∧ sec.SecretType = "rke.cattle.io/bootstrap" := by
  rw [GeneratingHandler_passed x h s b status m c hm hc hpause hready] at herr ⊢
  rcases hw : annotateMachine x h s m with ⟨r, calls, s1⟩
  rw [hw] at herr
  cases r with
  | error e => simp at herr
  | ok m1 =>
    obtain ⟨-, -, -, -, hstatus⟩ := annotateMachine_ok x h s m m1 calls s1 hw
    dsimp only at herr ⊢
    cases ha : assignBootStrapSecret x h m1 b c with
    | error e => simp [ha] at herr
    | ok p =>
      obtain ⟨sec, objs⟩ := p
      obtain ⟨bsa, -, -, -, envVars, hget⟩ :=
        assignBootStrapSecret_phase x h m1 b c sec objs (by rw [hstatus]; exact hphase) ha
      obtain ⟨sec1, rfl, hname, hns, htype⟩ :=
        getBootstrapSecret_present x h _ _ envVars m1 sa sec hsa hget
      simp only [hnil, Option.isNone_none, if_true, hname]
      exact ⟨trivial, sec1, by simp, hname, hns, htype⟩

/-- Witness for C6: the first pass on a worker in phase Pending whose bootstrap
service account exists. -/
theorem GeneratingHandler_sets_data_secret_name_witness :
    (GeneratingHandler Demo.pkg Demo.h ⟨[Demo.workerMachine]⟩ Demo.bootstrap
        Demo.emptyStatus).status = { Ready := true, DataSecretName := some "b1-machine-bootstrap" } ∧
    ∃ sec : Secret,
      Object.secret sec ∈ (GeneratingHandler Demo.pkg Demo.h ⟨[Demo.workerMachine]⟩
        Demo.bootstrap Demo.emptyStatus).objs ∧
      sec.ObjectMeta.Name = "b1-machine-bootstrap" ∧
      sec.ObjectMeta.Namespace = "fleet" ∧ sec.SecretType = "rke.cattle.io/bootstrap" :=
  GeneratingHandler_sets_data_secret_name Demo.pkg Demo.h ⟨[Demo.workerMachine]⟩ Demo.bootstrap
    Demo.emptyStatus Demo.workerMachine Demo.cluster
    { ObjectMeta := { Name := "b1-machine-bootstrap", Namespace := "fleet", Labels := .nil,
                      Annotations := .nil } }
    (by decide) (by decide) (by decide) (by decide) (by decide) (by decide) (by decide)
    (by decide)

/-! ## Generating handler: the readiness gate -/

/-- C7: when the owning Machine lookup reports not-found, or (the Machine being
found) the cluster lookup reports not-found, or (the cluster being found) the
cluster or the request is paused or the cluster's infrastructure is not ready,
the pass returns an empty object list, the input status and the skip sentinel,
issues exactly one call, the re-enqueue of the request after 10 seconds, and
leaves the Machine store as it was. -/
theorem GeneratingHandler_gate_skips (x : Pkg) (h : handler) (s : Store) (b : RKEBootstrap)
    (status : RKEBootstrapStatus)
    (hgate :
      (∃ e, GetOwnerCAPIMachine b (machineCacheGet h s) = .error e ∧ IsNotFound e = true) ∨
      ∃ m, GetOwnerCAPIMachine b (machineCacheGet h s) = .ok m ∧
        ((∃ e, h.capiClusterCache m.Namespace m.Spec.ClusterName = .error e ∧
            IsNotFound e = true) ∨
          ∃ c, h.capiClusterCache m.Namespace m.Spec.ClusterName = .ok c ∧
            (x.IsPaused c b = true ∨ c.Status.InfrastructureReady = false))) :
    GeneratingHandler x h s b status =
      { objs := [], status := status, err := some .ErrSkip,
        calls := [.EnqueueAfter b.Namespace b.Name 10], store := s } := by
  unfold GeneratingHandler
  rcases hgate with ⟨e, hm, he⟩ | ⟨m, hm, ⟨e, hc, he⟩ | ⟨c, hc, hp | hr⟩⟩
  · simp [hm, he]
  · simp [hm, hc, he]
  · simp [hm, hc, hp]
  · simp [hm, hc, hr]

/-- Witness for C7: a request whose owning Machine is not in the store yet. -/
theorem GeneratingHandler_gate_skips_witness :
    GeneratingHandler Demo.pkg Demo.h ⟨[]⟩ Demo.bootstrap Demo.emptyStatus =
      { objs := [], status := Demo.emptyStatus, err := some .ErrSkip,
        calls := [.EnqueueAfter "fleet" "b1" 10], store := ⟨[]⟩ } :=
  GeneratingHandler_gate_skips Demo.pkg Demo.h ⟨[]⟩ Demo.bootstrap Demo.emptyStatus
    (Or.inl ⟨.NotFound, by decide, by decide⟩)

/-! ## Generating handler: the objects returned -/

/-- Every secret `getBootstrapSecret` returns has type "rke.cattle.io/bootstrap"
and the name and namespace it was asked for. -/
theorem getBootstrapSecret_some (x : Pkg) (h : handler) (ns name : String)
    (envVars : List EnvVar) (m : Machine) (sec : Secret)
    (hok : getBootstrapSecret x h ns name envVars m = .ok (some sec)) :
    sec.ObjectMeta.Name = name ∧ sec.ObjectMeta.Namespace = ns ∧
      sec.SecretType = "rke.cattle.io/bootstrap" := by
  unfold getBootstrapSecret at hok
  dsimp only at hok
  generalize (if (m.Labels.getD x.CattleOSLabel == x.WindowsMachineOS) = true
    then x.WindowsInstallScript else x.LinuxInstallScript) = script at hok
  repeat' split at hok
  all_goals first
    | (cases hok; exact ⟨rfl, rfl, rfl⟩)
    | cases hok

/-- The four plan objects, spelled out. -/
theorem assignPlanSecret_eq (x : Pkg) (m : Machine) (b : RKEBootstrap) :
    ∃ (sa : ServiceAccount) (sec : Secret) (role : Role) (rb : RoleBinding),
      assignPlanSecret x m b =
        [.serviceAccount sa, .secret sec, .role role, .roleBinding rb] ∧
      sa.ObjectMeta.Name = x.PlanSecretFromBootstrapName b.Name ∧
      sec.ObjectMeta.Name = x.PlanSecretFromBootstrapName b.Name ∧
      role.ObjectMeta.Name = x.PlanSecretFromBootstrapName b.Name ∧
      rb.ObjectMeta.Name = x.PlanSecretFromBootstrapName b.Name ∧
      sa.ObjectMeta.Namespace = b.Namespace ∧ sec.ObjectMeta.Namespace = b.Namespace ∧
      role.ObjectMeta.Namespace = b.Namespace ∧ rb.ObjectMeta.Namespace = b.Namespace ∧
      sec.SecretType = x.SecretTypeMachinePlan :=
  ⟨_, _, _, _, rfl, rfl, rfl, rfl, rfl, rfl, rfl, rfl, rfl, rfl⟩

/-- C8: a pass that passes the readiness gate and returns no error returns a
list that starts with a service account, a secret of type
capr.SecretTypeMachinePlan, a role and a role binding, in this order, all named
capr.PlanSecretFromBootstrapName(request name) and all in the namespace of the
request; whatever follows them is a bootstrap object (the service account
named SafeConcatName(request name, "machine", "bootstrap") or a secret of type
"rke.cattle.io/bootstrap"). -/
theorem GeneratingHandler_plan_objects_first (x : Pkg) (h : handler) (s : Store)
    (b : RKEBootstrap) (status : RKEBootstrapStatus) (m : Machine) (c : Cluster)
    (hm : GetOwnerCAPIMachine b (machineCacheGet h s) = .ok m)
    (hc : h.capiClusterCache m.Namespace m.Spec.ClusterName = .ok c)
    (hpause : x.IsPaused c b = false) (hready : c.Status.InfrastructureReady = true)
    (herr : (GeneratingHandler x h s b status).err = none) :
    ∃ (sa : ServiceAccount) (sec : Secret) (role : Role) (rb : RoleBinding) (rest : List Object),
      (GeneratingHandler x h s b status).objs =
        [.serviceAccount sa, .secret sec, .role role, .roleBinding rb] ++ rest ∧
      sa.ObjectMeta.Name = x.PlanSecretFromBootstrapName b.Name ∧
      sec.ObjectMeta.Name = x.PlanSecretFromBootstrapName b.Name ∧
      role.ObjectMeta.Name = x.PlanSecretFromBootstrapName b.Name ∧
      rb.ObjectMeta.Name = x.PlanSecretFromBootstrapName b.Name ∧
      sa.ObjectMeta.Namespace = b.Namespace ∧ sec.ObjectMeta.Namespace = b.Namespace ∧
      role.ObjectMeta.Namespace = b.Namespace ∧ rb.ObjectMeta.Namespace = b.Namespace ∧
      sec.SecretType = x.SecretTypeMachinePlan ∧
      ∀ o ∈ rest,
        (∃ bsa : ServiceAccount, o = .serviceAccount bsa ∧
          bsa.ObjectMeta.Name = x.SafeConcatName [b.Name, "machine", "bootstrap"]) ∨
        (∃ bsec : Secret, o = .secret bsec ∧ bsec.SecretType = "rke.cattle.io/bootstrap") := by
  obtain ⟨sa, sec, role, rb, hplan, h1, h2, h3, h4, h5, h6, h7, h8, h9⟩ :=
    assignPlanSecret_eq x m b
  rw [GeneratingHandler_passed x h s b status m c hm hc hpause hready] at herr ⊢
  rcases hw : annotateMachine x h s m with ⟨r, calls, s1⟩
  rw [hw] at herr
  cases r with
  | error e => simp at herr
  | ok m1 =>
    obtain ⟨-, -, -, -, hstatus⟩ := annotateMachine_ok x h s m m1 calls s1 hw
    dsimp only at herr ⊢
    cases ha : assignBootStrapSecret x h m1 b c with
    | error e => simp [ha] at herr
    | ok p =>
      obtain ⟨bsec, objs⟩ := p
      by_cases hphase : m1.Status.Phase = MachinePhasePending ∨
          m1.Status.Phase = MachinePhaseDeleting ∨ m1.Status.Phase = MachinePhaseFailed ∨
          m1.Status.Phase = MachinePhaseProvisioning
      · obtain ⟨bsa, rfl, hbname, -, envVars, hget⟩ :=
          assignBootStrapSecret_phase x h m1 b c bsec objs hphase ha
        cases bsec with
        | none =>
          refine ⟨sa, sec, role, rb, [.serviceAccount bsa], ?_, h1, h2, h3, h4, h5, h6, h7, h8,
            h9, ?_⟩
          · simp [hplan]
          · intro o ho
            simp only [List.mem_singleton] at ho
            exact Or.inl ⟨bsa, ho, hbname⟩
        | some bs =>
          obtain ⟨-, -, htype⟩ := getBootstrapSecret_some x h _ _ envVars m1 bs hget
          refine ⟨sa, sec, role, rb, [.secret bs, .serviceAccount bsa], ?_, h1, h2, h3, h4, h5,
            h6, h7, h8, h9, ?_⟩
          · simp [hplan]
          · intro o ho
            simp only [List.mem_cons, List.mem_singleton, List.mem_nil_iff, or_false] at ho
            rcases ho with ho | ho
            · exact Or.inr ⟨bs, ho, htype⟩
            · exact Or.inl ⟨bsa, ho, hbname⟩
      · have hother := assignBootStrapSecret_other_phase x h m1 b c (by
          simp only [not_or] at hphase
          exact hphase)
        rw [hother] at ha
        cases ha
        exact ⟨sa, sec, role, rb, [], by simp [hplan], h1, h2, h3, h4, h5, h6, h7, h8, h9,
          by simp⟩

/-- Witness for C8: the first pass on a worker in phase Pending. -/
theorem GeneratingHandler_plan_objects_first_witness :
    ∃ (sa : ServiceAccount) (sec : Secret) (role : Role) (rb : RoleBinding) (rest : List Object),
      (GeneratingHandler Demo.pkg Demo.h ⟨[Demo.workerMachine]⟩ Demo.bootstrap
        Demo.emptyStatus).objs =
        [.serviceAccount sa, .secret sec, .role role, .roleBinding rb] ++ rest ∧
      sa.ObjectMeta.Name = "b1-machine-plan" ∧ sec.ObjectMeta.Name = "b1-machine-plan" ∧
      role.ObjectMeta.Name = "b1-machine-plan" ∧ rb.ObjectMeta.Name = "b1-machine-plan" ∧
      sa.ObjectMeta.Namespace = "fleet" ∧ sec.ObjectMeta.Namespace = "fleet" ∧
      role.ObjectMeta.Namespace = "fleet" ∧ rb.ObjectMeta.Namespace = "fleet" ∧
      sec.SecretType = "rke.cattle.io/machine-plan" ∧
      ∀ o ∈ rest,
        (∃ bsa : ServiceAccount, o = .serviceAccount bsa ∧
          bsa.ObjectMeta.Name = "b1-machine-bootstrap") ∨
        (∃ bsec : Secret, o = .secret bsec ∧ bsec.SecretType = "rke.cattle.io/bootstrap") :=
  GeneratingHandler_plan_objects_first Demo.pkg Demo.h ⟨[Demo.workerMachine]⟩ Demo.bootstrap
    Demo.emptyStatus Demo.workerMachine Demo.cluster (by decide) (by decide) (by decide)
    (by decide) (by decide)

/-- C9: for every machine and request, the role built by `assignPlanSecret` has
exactly one rule, with verbs [watch, get, update, list], API groups [""],
resources [secrets] and the one plan secret name as resource names; the role
binding has exactly one subject, the plan service account (kind
ServiceAccount, the plan name, the request's namespace), and references the
role of that name; service account, secret, role and binding all bear the plan
name. -/
theorem assignPlanSecret_least_privilege (x : Pkg) (m : Machine) (b : RKEBootstrap) :
    ∃ (sa : ServiceAccount) (sec : Secret) (role : Role) (rb : RoleBinding),
      assignPlanSecret x m b =
        [.serviceAccount sa, .secret sec, .role role, .roleBinding rb] ∧
      role.Rules =
        [{ Verbs := ["watch", "get", "update", "list"]
           APIGroups := [""]
           Resources := ["secrets"]
           ResourceNames := [x.PlanSecretFromBootstrapName b.Name] }] ∧
      rb.Subjects =
        [{ Kind := "ServiceAccount"
           Name := x.PlanSecretFromBootstrapName b.Name
           Namespace := b.Namespace }] ∧
      rb.RoleRef =
        { APIGroup := GroupName, Kind := "Role", Name := x.PlanSecretFromBootstrapName b.Name } ∧
      sa.ObjectMeta.Name = x.PlanSecretFromBootstrapName b.Name ∧
      sa.ObjectMeta.Namespace = b.Namespace ∧
      sec.ObjectMeta.Name = x.PlanSecretFromBootstrapName b.Name ∧
      role.ObjectMeta.Name = x.PlanSecretFromBootstrapName b.Name ∧
      role.ObjectMeta.Namespace = b.Namespace ∧
      rb.ObjectMeta.Namespace = b.Namespace :=
  ⟨_, _, _, _, rfl, rfl, rfl, rfl, rfl, rfl, rfl, rfl, rfl, rfl⟩

/-- C10: for a pass that passes the readiness gate and returns no error, if the
Machine's phase is none of Pending, Deleting, Failed, Provisioning the object
list is exactly the four plan objects and the status is returned unchanged; if
the phase is one of the four, the list contains a service account named
SafeConcatName(request name, "machine", "bootstrap") in the namespace of the
request. -/
theorem GeneratingHandler_phase_gating (x : Pkg) (h : handler) (s : Store)
    (b : RKEBootstrap) (status : RKEBootstrapStatus) (m : Machine) (c : Cluster)
    (hm : GetOwnerCAPIMachine b (machineCacheGet h s) = .ok m)
    (hc : h.capiClusterCache m.Namespace m.Spec.ClusterName = .ok c)
    (hpause : x.IsPaused c b = false) (hready : c.Status.InfrastructureReady = true)
    (herr : (GeneratingHandler x h s b status).err = none) :
    ((m.Status.Phase ≠ MachinePhasePending ∧ m.Status.Phase ≠ MachinePhaseDeleting ∧
        m.Status.Phase ≠ MachinePhaseFailed ∧ m.Status.Phase ≠ MachinePhaseProvisioning) →
      (GeneratingHandler x h s b status).objs = assignPlanSecret x m b ∧
      (GeneratingHandler x h s b status).status = status) ∧
    ((m.Status.Phase = MachinePhasePending ∨ m.Status.Phase = MachinePhaseDeleting ∨
        m.Status.Phase = MachinePhaseFailed ∨ m.Status.Phase = MachinePhaseProvisioning) →
      ∃ bsa : ServiceAccount,
        Object.serviceAccount bsa ∈ (GeneratingHandler x h s b status).objs ∧
        bsa.ObjectMeta.Name = x.SafeConcatName [b.Name, "machine", "bootstrap"] ∧
        bsa.ObjectMeta.Namespace = b.Namespace) := by
  rw [GeneratingHandler_passed x h s b status m c hm hc hpause hready] at herr ⊢
  rcases hw : annotateMachine x h s m with ⟨r, calls, s1⟩
  rw [hw] at herr
  cases r with
  | error e => simp at herr
  | ok m1 =>
    obtain ⟨-, -, -, -, hstatus⟩ := annotateMachine_ok x h s m m1 calls s1 hw
    dsimp only at herr ⊢
    constructor
    · intro hphase
      rw [assignBootStrapSecret_other_phase x h m1 b c (by rw [hstatus]; exact hphase)]
      simp
    · intro hphase
      cases ha : assignBootStrapSecret x h m1 b c with
      | error e => simp [ha] at herr
      | ok p =>
        obtain ⟨bsec, objs⟩ := p
        obtain ⟨bsa, rfl, hbname, hbns, -⟩ :=
          assignBootStrapSecret_phase x h m1 b c bsec objs (by rw [hstatus]; exact hphase) ha
        refine ⟨bsa, ?_, hbname, hbns⟩
        cases bsec <;> simp

/-- Witness for C10: a worker in phase Pending gets the bootstrap service
account `b1-machine-bootstrap`. -/
theorem GeneratingHandler_phase_gating_witness :
    ((Demo.workerMachine.Status.Phase ≠ MachinePhasePending ∧
        Demo.workerMachine.Status.Phase ≠ MachinePhaseDeleting ∧
        Demo.workerMachine.Status.Phase ≠ MachinePhaseFailed ∧
        Demo.workerMachine.Status.Phase ≠ MachinePhaseProvisioning) →
      (GeneratingHandler Demo.pkg Demo.h ⟨[Demo.workerMachine]⟩ Demo.bootstrap
        Demo.emptyStatus).objs = assignPlanSecret Demo.pkg Demo.workerMachine Demo.bootstrap ∧
      (GeneratingHandler Demo.pkg Demo.h ⟨[Demo.workerMachine]⟩ Demo.bootstrap
        Demo.emptyStatus).status = Demo.emptyStatus) ∧
    ((Demo.workerMachine.Status.Phase = MachinePhasePending ∨
        Demo.workerMachine.Status.Phase = MachinePhaseDeleting ∨
        Demo.workerMachine.Status.Phase = MachinePhaseFailed ∨
        Demo.workerMachine.Status.Phase = MachinePhaseProvisioning) →
      ∃ bsa : ServiceAccount,
        Object.serviceAccount bsa ∈ (GeneratingHandler Demo.pkg Demo.h ⟨[Demo.workerMachine]⟩
          Demo.bootstrap Demo.emptyStatus).objs ∧
        bsa.ObjectMeta.Name = "b1-machine-bootstrap" ∧
        bsa.ObjectMeta.Namespace = "fleet") :=
  GeneratingHandler_phase_gating Demo.pkg Demo.h ⟨[Demo.workerMachine]⟩ Demo.bootstrap
    Demo.emptyStatus Demo.workerMachine Demo.cluster (by decide) (by decide) (by decide)
    (by decide) (by decide)

/-! ## Removal handler: the paths around the consensus query -/

/-- Marker cleanup issues nothing but Machine updates. -/
theorem removeMarker_calls (h : handler) (s : Store) (b : RKEBootstrap) (om : Option Machine)
    (call : Call) (hcall : call ∈ ( removeMachinePreTerminateAnnotation h s b om).calls) :
    ∃ m1, call = .MachineUpdate m1 := by
  unfold removeMachinePreTerminateAnnotation at hcall
  repeat' split at hcall
  all_goals simp_all

/-- C11: in every removal pass that resolves the owning Machine (cluster label
set, cluster, control-plane reference, control plane and Machine found) and
finds it without the etcd role label, the result is that of
removeMachinePreTerminateAnnotation on that Machine; the consensus query is not
invoked and no re-enqueue is scheduled. -/
theorem OnRemove_non_etcd_cleans_up (x : Pkg) (h : handler) (s : Store) (key : String)
    (b : RKEBootstrap) (c : Cluster) (cpRef : ObjectReference) (cp : RKEControlPlane)
    (m : Machine)
    (hlabel : b.Labels.getD ClusterLabelName ≠ "")
    (hc : h.capiClusterCache b.Namespace (b.Labels.getD ClusterLabelName) = .ok c)
    (href : c.Spec.ControlPlaneRef = some cpRef)
    (hcp : h.rkeControlPlanes cpRef.Namespace cpRef.Name = .ok cp)
    (hm : GetMachineByOwner (machineCacheGet h s) b = .ok m)
    (hetcd : m.Labels.contains x.EtcdRoleLabel = false) :
    OnRemove x h s key b = removeMachinePreTerminateAnnotation h s b (some m) ∧
    (∀ cfg rt node, Call.SafelyRemoved cfg rt node ∉ (OnRemove x h s key b).calls) ∧
    (∀ ns n d, Call.EnqueueAfter ns n d ∉ (OnRemove x h s key b).calls) := by
  have heq : OnRemove x h s key b = removeMachinePreTerminateAnnotation h s b (some m) := by
    simp [OnRemove, hlabel, hc, href, hcp, hm, hetcd]
  rw [heq]
  refine ⟨rfl, ?_, ?_⟩
  · intro cfg rt node hmem
    obtain ⟨m1, h1⟩ := removeMarker_calls h s b _ _ hmem
    cases h1
  · intro ns n d hmem
    obtain ⟨m1, h1⟩ := removeMarker_calls h s b _ _ hmem
    cases h1

/-- Witness for C11: removal of the request of a worker that carries the marker
annotation; the one call is the Machine update. -/
theorem OnRemove_non_etcd_cleans_up_witness :
    (OnRemove Demo.pkg Demo.h ⟨[Demo.markedWorkerMachine]⟩ "fleet/b1" Demo.bootstrap =
      removeMachinePreTerminateAnnotation Demo.h ⟨[Demo.markedWorkerMachine]⟩ Demo.bootstrap
        (some Demo.markedWorkerMachine) ∧
    (∀ cfg rt node, Call.SafelyRemoved cfg rt node ∉
      (OnRemove Demo.pkg Demo.h ⟨[Demo.markedWorkerMachine]⟩ "fleet/b1" Demo.bootstrap).calls) ∧
    (∀ ns n d, Call.EnqueueAfter ns n d ∉
      (OnRemove Demo.pkg Demo.h ⟨[Demo.markedWorkerMachine]⟩ "fleet/b1" Demo.bootstrap).calls)) ∧
    (OnRemove Demo.pkg Demo.h ⟨[Demo.markedWorkerMachine]⟩ "fleet/b1" Demo.bootstrap).calls =
      [.MachineUpdate { Demo.workerMachine with Annotations := .mk [("note", "keep")] }] :=
  ⟨OnRemove_non_etcd_cleans_up Demo.pkg Demo.h ⟨[Demo.markedWorkerMachine]⟩ "fleet/b1"
      Demo.bootstrap Demo.cluster
      { Kind := "RKEControlPlane", Namespace := "fleet", Name := "c1" } Demo.controlPlane
      Demo.markedWorkerMachine (by decide) (by decide) (by decide) (by decide) (by decide)
      (by decide),
    by decide⟩

/-- C13: in every removal pass that resolves cluster, control plane and owning
Machine and finds a deletion timestamp on the control plane or on the cluster,
the result is that of removeMachinePreTerminateAnnotation on the Machine,
whether or not it carries the etcd role label; the consensus query is not
invoked and no re-enqueue is scheduled. -/
theorem OnRemove_deleting_cluster_cleans_up (x : Pkg) (h : handler) (s : Store) (key : String)
    (b : RKEBootstrap) (c : Cluster) (cpRef : ObjectReference) (cp : RKEControlPlane)
    (m : Machine)
    (hlabel : b.Labels.getD ClusterLabelName ≠ "")
    (hc : h.capiClusterCache b.Namespace (b.Labels.getD ClusterLabelName) = .ok c)
    (href : c.Spec.ControlPlaneRef = some cpRef)
    (hcp : h.rkeControlPlanes cpRef.Namespace cpRef.Name = .ok cp)
    (hm : GetMachineByOwner (machineCacheGet h s) b = .ok m)
    (hdel : cp.DeletionTimestamp ≠ none ∨ c.DeletionTimestamp ≠ none) :
    OnRemove x h s key b = removeMachinePreTerminateAnnotation h s b (some m) ∧
    (∀ cfg rt node, Call.SafelyRemoved cfg rt node ∉ (OnRemove x h s key b).calls) ∧
    (∀ ns n d, Call.EnqueueAfter ns n d ∉ (OnRemove x h s key b).calls) := by
  have hdel2 : (cp.DeletionTimestamp.isSome || c.DeletionTimestamp.isSome) = true := by
    rcases hdel with hd | hd
    · cases hcpd : cp.DeletionTimestamp with
      | none => exact absurd hcpd hd
      | some t => simp
    · cases hcd : c.DeletionTimestamp with
      | none => exact absurd hcd hd
      | some t => simp
  have heq : OnRemove x h s key b = removeMachinePreTerminateAnnotation h s b (some m) := by
    simp only [OnRemove, hlabel, hc, href, hcp, hm, hdel2, beq_iff_eq, if_true, if_false]
  rw [heq]
  refine ⟨rfl, ?_, ?_⟩
  · intro cfg rt node hmem
    obtain ⟨m1, h1⟩ := removeMarker_calls h s b _ _ hmem
    cases h1
  · intro ns n d hmem
    obtain ⟨m1, h1⟩ := removeMarker_calls h s b _ _ hmem
    cases h1

/-- Witness for C13: the joined etcd voter of a cluster in deletion, with a
consensus query that would answer "not safe"; the one call is the Machine
update that removes the marker. -/
theorem OnRemove_deleting_cluster_cleans_up_witness :
    (OnRemove Demo.pkg Demo.hDeleting ⟨[Demo.etcdMachine]⟩ "fleet/b1" Demo.bootstrap =
      removeMachinePreTerminateAnnotation Demo.hDeleting ⟨[Demo.etcdMachine]⟩ Demo.bootstrap
        (some Demo.etcdMachine) ∧
    (∀ cfg rt node, Call.SafelyRemoved cfg rt node ∉
      (OnRemove Demo.pkg Demo.hDeleting ⟨[Demo.etcdMachine]⟩ "fleet/b1" Demo.bootstrap).calls) ∧
    (∀ ns n d, Call.EnqueueAfter ns n d ∉
      (OnRemove Demo.pkg Demo.hDeleting ⟨[Demo.etcdMachine]⟩ "fleet/b1"
        Demo.bootstrap).calls)) ∧
    (OnRemove Demo.pkg Demo.hDeleting ⟨[Demo.etcdMachine]⟩ "fleet/b1" Demo.bootstrap).calls =
      [.MachineUpdate Demo.clearedEtcdMachine] :=
  ⟨OnRemove_deleting_cluster_cleans_up Demo.pkg Demo.hDeleting ⟨[Demo.etcdMachine]⟩ "fleet/b1"
      Demo.bootstrap Demo.deletingCluster
      { Kind := "RKEControlPlane", Namespace := "fleet", Name := "c1" } Demo.controlPlane
      Demo.etcdMachine (by decide) (by decide) (by decide) (by decide) (by decide)
      (Or.inr (by decide)),
    by decide⟩

/-- C14: when the request's cluster label is missing or empty, or the cluster
lookup reports not-found, or the cluster is found without control-plane
reference, or cluster and control plane are found and the owning Machine lookup
reports no machine owner reference or not-found, the removal pass returns the
request with a nil error and issues no call at all (no Machine update, no
re-enqueue, no consensus query); the store is as before. -/
theorem OnRemove_unresolved_allows (x : Pkg) (h : handler) (s : Store) (key : String)
    (b : RKEBootstrap)
    (hcase :
      b.Labels.getD ClusterLabelName = "" ∨
      (∃ e, h.capiClusterCache b.Namespace (b.Labels.getD ClusterLabelName) = .error e ∧
        IsNotFound e = true) ∨
      ∃ c, h.capiClusterCache b.Namespace (b.Labels.getD ClusterLabelName) = .ok c ∧
        (c.Spec.ControlPlaneRef = none ∨
          ∃ cpRef cp, c.Spec.ControlPlaneRef = some cpRef ∧
            h.rkeControlPlanes cpRef.Namespace cpRef.Name = .ok cp ∧
            ∃ e, GetMachineByOwner (machineCacheGet h s) b = .error e ∧
              (e = .ErrNoMachineOwnerRef ∨ IsNotFound e = true))) :
    OnRemove x h s key b = { bootstrap := b, err := none, calls := [], store := s } := by
  by_cases hlabel : b.Labels.getD ClusterLabelName = ""
  · simp [OnRemove, hlabel]
  · rcases hcase with h0 | ⟨e, hc, he⟩ | ⟨c, hc, href | ⟨cpRef, cp, href, hcp, e, hm, he⟩⟩
    · exact absurd h0 hlabel
    · simp [OnRemove, hlabel, hc, he]
    · simp [OnRemove, hlabel, hc, href]
    · rcases he with he | he
      · simp [OnRemove, hlabel, hc, href, hcp, hm, he]
      · simp [OnRemove, hlabel, hc, href, hcp, hm, he]

/-- Witness for C14: a request whose owning Machine is gone from the store. -/
theorem OnRemove_unresolved_allows_witness :
    OnRemove Demo.pkg Demo.h ⟨[]⟩ "fleet/b1" Demo.bootstrap =
      { bootstrap := Demo.bootstrap, err := none, calls := [], store := ⟨[]⟩ } :=
  OnRemove_unresolved_allows Demo.pkg Demo.h ⟨[]⟩ "fleet/b1" Demo.bootstrap
    (Or.inr (Or.inr ⟨Demo.cluster, by decide,
      Or.inr ⟨{ Kind := "RKEControlPlane", Namespace := "fleet", Name := "c1" },
        Demo.controlPlane, by decide, by decide, .NotFound, by decide, Or.inr (by decide)⟩⟩))

/-! ### Marker cleanup on a Machine that carries the marker -/

theorem GoMap.isNil_of_contains (m : GoMap) (k : String) (hk : m.contains k = true) :
    m.isNil = false := by
  cases m with
  | nil => simp [GoMap.contains, GoMap.get?, GoMap.entries] at hk
  | mk l => rfl

theorem lookup_filter_other (l : List (String × String)) (k k1 : String) (hne : k1 ≠ k) :
    (l.filter (fun p => p.1 != k)).lookup k1 = l.lookup k1 := by
  induction l with
  | nil => rfl
  | cons a t ih =>
    obtain ⟨a1, a2⟩ := a
    by_cases hk : a1 = k
    · have hk2 : (k1 == a1) = false := by simpa [hk] using hne
      rw [List.filter_cons_of_neg (by simp [hk]), List.lookup_cons, hk2]
      exact ih
    · rw [List.filter_cons_of_pos (by simpa using hk), List.lookup_cons, List.lookup_cons, ih]

/-- Deleting a key leaves the lookup of every other key as it was. -/
theorem GoMap.get?_delete_other (m : GoMap) (k k1 : String) (hne : k1 ≠ k) :
    (m.delete k).get? k1 = m.get? k1 := by
  cases m with
  | nil => rfl
  | mk l => simp [GoMap.delete, GoMap.get?, GoMap.entries, lookup_filter_other l k k1 hne]

theorem GoMap.get?_delete_self (m : GoMap) (k : String) : (m.delete k).get? k = none := by
  cases m with
  | nil => rfl
  | mk l => simp [GoMap.delete, GoMap.get?, GoMap.entries, lookup_filter_ne]

/-- Marker cleanup on a Machine read from the store that carries the marker:
one update of the Machine without the marker annotation, whose error is
returned; a rejected update leaves the store as it was. -/
theorem removeMarker_marked (h : handler) (s : Store) (b : RKEBootstrap) (m : Machine)
    (hm : GetMachineByOwner (machineCacheGet h s) b = .ok m)
    (hmark : m.Annotations.contains capiMachinePreTerminateAnnotation = true) :
    ( removeMachinePreTerminateAnnotation h s b (some m)).calls =
      [.MachineUpdate { m with Annotations := m.Annotations.delete capiMachinePreTerminateAnnotation }] ∧
    ( removeMachinePreTerminateAnnotation h s b (some m)).err =
      h.machineUpdateErr
        { m with Annotations := m.Annotations.delete capiMachinePreTerminateAnnotation } ∧
    ( removeMachinePreTerminateAnnotation h s b (some m)).bootstrap = b ∧
    (h.machineUpdateErr
        { m with Annotations := m.Annotations.delete capiMachinePreTerminateAnnotation } ≠ none →
      ( removeMachinePreTerminateAnnotation h s b (some m)).store = s) := by
  obtain ⟨r, -, -, hfind⟩ := GetMachineByOwner_ok h s b m hm
  have hany : s.Machines.any (fun m1 => m1.Namespace == m.Namespace && m1.Name == m.Name)
      = true := by
    rw [List.any_eq_true]
    exact ⟨m, List.mem_of_find?_eq_some hfind, by simp⟩
  have hnil := GoMap.isNil_of_contains _ _ hmark
  unfold removeMachinePreTerminateAnnotation machineClientUpdate
  simp only [hnil, hmark, if_true, Bool.false_eq_true, if_false, hany]
  cases hu : h.machineUpdateErr
      { m with Annotations := m.Annotations.delete capiMachinePreTerminateAnnotation } with
  | none => simp
  | some e => simp

/-- C12: in every removal pass on a request whose force-remove-etcd annotation
has the value "true" (which strings.ToLower leaves as it is) and whose cluster,
control plane and owning etcd Machine are resolved, the result is that of
marker cleanup on the Machine: the consensus query is not invoked, no
re-enqueue is scheduled, the skip sentinel is not returned (the Machine client
does not answer an update with the controller's sentinel), and if the Machine
carries the marker annotation the one call is the update of the Machine
without that annotation, whatever the query would have answered. -/
theorem OnRemove_forced_cleans_up (x : Pkg) (h : handler) (s : Store) (key : String)
    (b : RKEBootstrap) (c : Cluster) (cpRef : ObjectReference) (cp : RKEControlPlane)
    (m : Machine)
    (hlabel : b.Labels.getD ClusterLabelName ≠ "")
    (hc : h.capiClusterCache b.Namespace (b.Labels.getD ClusterLabelName) = .ok c)
    (href : c.Spec.ControlPlaneRef = some cpRef)
    (hcp : h.rkeControlPlanes cpRef.Namespace cpRef.Name = .ok cp)
    (hm : GetMachineByOwner (machineCacheGet h s) b = .ok m)
    (hetcd : m.Labels.contains x.EtcdRoleLabel = true)
    (hforce : b.Annotations.get? x.ForceRemoveEtcdAnnotation = some "true")
    (hlower : x.ToLower "true" = "true")
    (hclient : h.machineUpdateErr
      { m with Annotations := m.Annotations.delete capiMachinePreTerminateAnnotation }
        ≠ some .ErrSkip) :
    OnRemove x h s key b = removeMachinePreTerminateAnnotation h s b (some m) ∧
    (∀ cfg rt node, Call.SafelyRemoved cfg rt node ∉ (OnRemove x h s key b).calls) ∧
    (∀ ns n d, Call.EnqueueAfter ns n d ∉ (OnRemove x h s key b).calls) ∧
    (OnRemove x h s key b).err ≠ some .ErrSkip ∧
    (m.Annotations.contains capiMachinePreTerminateAnnotation = true →
      ∃ m1 : Machine,
        m1 = { m with Annotations := m.Annotations.delete capiMachinePreTerminateAnnotation } ∧
        (OnRemove x h s key b).calls = [.MachineUpdate m1] ∧
        m1.Annotations.contains capiMachinePreTerminateAnnotation = false) := by
  have heq : OnRemove x h s key b = removeMachinePreTerminateAnnotation h s b (some m) := by
    simp [OnRemove, hlabel, hc, href, hcp, hm, hetcd, hforce, hlower]
  rw [heq]
  refine ⟨rfl, ?_, ?_, ?_, ?_⟩
  · intro cfg rt node hmem
    obtain ⟨m1, h1⟩ := removeMarker_calls h s b _ _ hmem
    cases h1
  · intro ns n d hmem
    obtain ⟨m1, h1⟩ := removeMarker_calls h s b _ _ hmem
    cases h1
  · by_cases hmark : m.Annotations.contains capiMachinePreTerminateAnnotation = true
    · rw [(removeMarker_marked h s b m hm hmark).2.1]
      exact hclient
    · unfold removeMachinePreTerminateAnnotation
      dsimp only
      split
      · simp
      · simp [hmark]
  · intro hmark
    exact ⟨_, rfl, (removeMarker_marked h s b m hm hmark).1, GoMap.contains_delete _ _⟩

/-- Witness for C12: forced removal of the joined etcd voter, whose consensus
query would answer "not safe". -/
theorem OnRemove_forced_cleans_up_witness :
    (OnRemove Demo.pkg Demo.h ⟨[Demo.etcdMachine]⟩ "fleet/b1" Demo.forcedBootstrap).calls =
      [.MachineUpdate Demo.clearedEtcdMachine] ∧
    (OnRemove Demo.pkg Demo.h ⟨[Demo.etcdMachine]⟩ "fleet/b1" Demo.forcedBootstrap).err
      ≠ some .ErrSkip ∧
    Demo.pkg.SafelyRemoved ⟨"https://c1"⟩ "rke2" "node1" = .ok false :=
  ⟨by decide,
    (OnRemove_forced_cleans_up Demo.pkg Demo.h ⟨[Demo.etcdMachine]⟩ "fleet/b1"
      Demo.forcedBootstrap Demo.cluster
      { Kind := "RKEControlPlane", Namespace := "fleet", Name := "c1" } Demo.controlPlane
      Demo.etcdMachine (by decide) (by decide) (by decide) (by decide) (by decide) (by decide)
      (by decide) (by decide) (by decide)).2.2.2.1,
    by decide⟩

/-- C15: in every removal pass that reaches the consensus query and is answered
(true, no error) while the Machine carries the marker annotation, the calls are
the query and exactly one Machine update, whose argument is the Machine with
only the marker annotation key removed (every other annotation key reads as
before; labels and all other fields are those of the Machine); the pass
returns the request and the error of that update, nil when it succeeds, which
is not the skip sentinel (the Machine client does not answer with it); the
Machine in the store changes only through the update, so a rejected update
leaves the store as it was. -/
theorem OnRemove_safe_removes_marker (x : Pkg) (h : handler) (s : Store) (key : String)
    (b : RKEBootstrap) (c : Cluster) (cpRef : ObjectReference) (cp : RKEControlPlane)
    (m : Machine) (nodeRef : ObjectReference) (kc : Secret) (cfg : RestConfig)
    (hlabel : b.Labels.getD ClusterLabelName ≠ "")
    (hc : h.capiClusterCache b.Namespace (b.Labels.getD ClusterLabelName) = .ok c)
    (href : c.Spec.ControlPlaneRef = some cpRef)
    (hcp : h.rkeControlPlanes cpRef.Namespace cpRef.Name = .ok cp)
    (hm : GetMachineByOwner (machineCacheGet h s) b = .ok m)
    (hcpdel : cp.DeletionTimestamp = none) (hcdel : c.DeletionTimestamp = none)
    (hetcd : m.Labels.contains x.EtcdRoleLabel = true)
    (hforce : ∀ v, b.Annotations.get? x.ForceRemoveEtcdAnnotation = some v → x.ToLower v ≠ "true")
    (hnode : m.Status.NodeRef = some nodeRef)
    (hkc : h.secretCache b.Namespace (x.KubeconfigSecretName (b.Labels.getD ClusterLabelName))
      = .ok kc)
    (hcfg : x.RESTConfigFromKubeConfig (dataGet kc.Data "value") = .ok cfg)
    (hq : x.SafelyRemoved cfg (x.GetRuntimeCommand cp.Spec.KubernetesVersion) nodeRef.Name
      = .ok true)
    (hmark : m.Annotations.contains capiMachinePreTerminateAnnotation = true)
    (hclient : h.machineUpdateErr
      { m with Annotations := m.Annotations.delete capiMachinePreTerminateAnnotation }
        ≠ some .ErrSkip) :
    ∃ m1 : Machine,
      m1 = { m with Annotations := m.Annotations.delete capiMachinePreTerminateAnnotation } ∧
      (OnRemove x h s key b).calls =
        [.SafelyRemoved cfg (x.GetRuntimeCommand cp.Spec.KubernetesVersion) nodeRef.Name,
         .MachineUpdate m1] ∧
      m1.Annotations.get? capiMachinePreTerminateAnnotation = none ∧
      (∀ k, k ≠ capiMachinePreTerminateAnnotation →
        m1.Annotations.get? k = m.Annotations.get? k) ∧
      (OnRemove x h s key b).bootstrap = b ∧
      (OnRemove x h s key b).err = h.machineUpdateErr m1 ∧
      (OnRemove x h s key b).err ≠ some .ErrSkip ∧
      (h.machineUpdateErr m1 ≠ none → (OnRemove x h s key b).store = s) := by
  have hf : (match b.Annotations.get? x.ForceRemoveEtcdAnnotation with
      | some v => x.ToLower v == "true"
      | none => false) = false := by
    cases hv : b.Annotations.get? x.ForceRemoveEtcdAnnotation with
    | none => rfl
    | some v => simpa using hforce v hv
  have heq : OnRemove x h s key b =
      { removeMachinePreTerminateAnnotation h s b (some m) with
        calls := .SafelyRemoved cfg (x.GetRuntimeCommand cp.Spec.KubernetesVersion) nodeRef.Name
          :: ( removeMachinePreTerminateAnnotation h s b (some m)).calls } := by
    simp [OnRemove, hlabel, hc, href, hcp, hm, hcpdel, hcdel, hetcd, hf, hnode, hkc, hcfg, hq]
  obtain ⟨hcalls, herr, hb, hstore⟩ := removeMarker_marked h s b m hm hmark
  rw [heq]
  refine ⟨_, rfl, ?_, GoMap.get?_delete_self _ _, ?_, hb, herr, ?_, hstore⟩
  · simp [hcalls]
  · intro k hk
    exact GoMap.get?_delete_other _ _ _ hk
  · simp only [herr]
    exact hclient

/-- Witness for C15: removal of the joined etcd voter with a consensus query
that answers "safe". -/
theorem OnRemove_safe_removes_marker_witness :
    ∃ m1 : Machine,
      m1 = { Demo.etcdMachine with
        Annotations := Demo.etcdMachine.Annotations.delete capiMachinePreTerminateAnnotation } ∧
      (OnRemove Demo.safePkg Demo.h ⟨[Demo.etcdMachine]⟩ "fleet/b1" Demo.bootstrap).calls =
        [.SafelyRemoved ⟨"https://c1"⟩
          (Demo.safePkg.GetRuntimeCommand Demo.controlPlane.Spec.KubernetesVersion) "node1",
         .MachineUpdate m1] ∧
      m1.Annotations.get? capiMachinePreTerminateAnnotation = none ∧
      (∀ k, k ≠ capiMachinePreTerminateAnnotation →
        m1.Annotations.get? k = Demo.etcdMachine.Annotations.get? k) ∧
      (OnRemove Demo.safePkg Demo.h ⟨[Demo.etcdMachine]⟩ "fleet/b1" Demo.bootstrap).bootstrap
        = Demo.bootstrap ∧
      (OnRemove Demo.safePkg Demo.h ⟨[Demo.etcdMachine]⟩ "fleet/b1" Demo.bootstrap).err
        = Demo.h.machineUpdateErr m1 ∧
      (OnRemove Demo.safePkg Demo.h ⟨[Demo.etcdMachine]⟩ "fleet/b1" Demo.bootstrap).err
        ≠ some .ErrSkip ∧
      (Demo.h.machineUpdateErr m1 ≠ none →
        (OnRemove Demo.safePkg Demo.h ⟨[Demo.etcdMachine]⟩ "fleet/b1" Demo.bootstrap).store
          = ⟨[Demo.etcdMachine]⟩) :=
  OnRemove_safe_removes_marker Demo.safePkg Demo.h ⟨[Demo.etcdMachine]⟩ "fleet/b1"
    Demo.bootstrap Demo.cluster { Kind := "RKEControlPlane", Namespace := "fleet", Name := "c1" }
    Demo.controlPlane Demo.etcdMachine { Kind := "Node", Namespace := "", Name := "node1" }
    { ObjectMeta := { Name := "c1-kubeconfig", Namespace := "fleet", Labels := .nil,
                      Annotations := .nil },
      Data := [("value", [1, 2, 3])], SecretType := "cluster.x-k8s.io/secret" }
    ⟨"https://c1"⟩
    (by decide) (by decide) (by decide) (by decide) (by decide) (by decide) (by decide)
    (by decide) (fun v hv => by simp [Demo.bootstrap, GoMap.get?, GoMap.entries] at hv)
    (by decide) (by decide) (by decide) (by decide) (by decide) (by decide)

/-- C16: in every removal pass that gets as far as the kubeconfig secret of the
cluster (etcd Machine with node reference, nothing deleting, no force
annotation), (a) if the secret's value does not parse into a client
configuration the pass returns that error and issues no call; (b) if the
consensus query returns an error the pass returns that error and its only call
is the query: no Machine update, no re-enqueue, store as before; (c) the pass
returns the skip sentinel together with a re-enqueue of the request exactly
when the query answers (false, no error). -/
theorem OnRemove_query_error_propagates (x : Pkg) (h : handler) (s : Store) (key : String)
    (b : RKEBootstrap) (c : Cluster) (cpRef : ObjectReference) (cp : RKEControlPlane)
    (m : Machine) (nodeRef : ObjectReference) (kc : Secret)
    (hlabel : b.Labels.getD ClusterLabelName ≠ "")
    (hc : h.capiClusterCache b.Namespace (b.Labels.getD ClusterLabelName) = .ok c)
    (href : c.Spec.ControlPlaneRef = some cpRef)
    (hcp : h.rkeControlPlanes cpRef.Namespace cpRef.Name = .ok cp)
    (hm : GetMachineByOwner (machineCacheGet h s) b = .ok m)
    (hcpdel : cp.DeletionTimestamp = none) (hcdel : c.DeletionTimestamp = none)
    (hetcd : m.Labels.contains x.EtcdRoleLabel = true)
    (hforce : ∀ v, b.Annotations.get? x.ForceRemoveEtcdAnnotation = some v → x.ToLower v ≠ "true")
    (hnode : m.Status.NodeRef = some nodeRef)
    (hkc : h.secretCache b.Namespace (x.KubeconfigSecretName (b.Labels.getD ClusterLabelName))
      = .ok kc) :
    (∀ e, x.RESTConfigFromKubeConfig (dataGet kc.Data "value") = .error e →
      OnRemove x h s key b = { bootstrap := b, err := some e, calls := [], store := s }) ∧
    (∀ cfg e, x.RESTConfigFromKubeConfig (dataGet kc.Data "value") = .ok cfg →
      x.SafelyRemoved cfg (x.GetRuntimeCommand cp.Spec.KubernetesVersion) nodeRef.Name
        = .error e →
      OnRemove x h s key b =
        { bootstrap := b, err := some e,
          calls := [.SafelyRemoved cfg (x.GetRuntimeCommand cp.Spec.KubernetesVersion)
            nodeRef.Name],
          store := s }) ∧
    (∀ cfg, x.RESTConfigFromKubeConfig (dataGet kc.Data "value") = .ok cfg →
      (((OnRemove x h s key b).err = some .ErrSkip ∧
          ∃ d, Call.EnqueueAfter b.Namespace b.Name d ∈ (OnRemove x h s key b).calls) ↔
        x.SafelyRemoved cfg (x.GetRuntimeCommand cp.Spec.KubernetesVersion) nodeRef.Name
          = .ok false)) := by
  have hf : (match b.Annotations.get? x.ForceRemoveEtcdAnnotation with
      | some v => x.ToLower v == "true"
      | none => false) = false := by
    cases hv : b.Annotations.get? x.ForceRemoveEtcdAnnotation with
    | none => rfl
    | some v => simpa using hforce v hv
  refine ⟨?_, ?_, ?_⟩
  · intro e hcfg
    simp [OnRemove, hlabel, hc, href, hcp, hm, hcpdel, hcdel, hetcd, hf, hnode, hkc, hcfg]
  · intro cfg e hcfg hq
    simp [OnRemove, hlabel, hc, href, hcp, hm, hcpdel, hcdel, hetcd, hf, hnode, hkc, hcfg, hq]
  · intro cfg hcfg
    cases hq : x.SafelyRemoved cfg (x.GetRuntimeCommand cp.Spec.KubernetesVersion)
        nodeRef.Name with
    | error e =>
      simp [OnRemove, hlabel, hc, href, hcp, hm, hcpdel, hcdel, hetcd, hf, hnode, hkc, hcfg, hq]
    | ok removed =>
      cases removed with
      | false =>
        simp [OnRemove, hlabel, hc, href, hcp, hm, hcpdel, hcdel, hetcd, hf, hnode, hkc, hcfg,
          hq]
      | true =>
        have heq : OnRemove x h s key b =
            { removeMachinePreTerminateAnnotation h s b (some m) with
              calls := .SafelyRemoved cfg (x.GetRuntimeCommand cp.Spec.KubernetesVersion)
                  nodeRef.Name
                :: ( removeMachinePreTerminateAnnotation h s b (some m)).calls } := by
          simp [OnRemove, hlabel, hc, href, hcp, hm, hcpdel, hcdel, hetcd, hf, hnode, hkc, hcfg,
            hq]
        rw [heq]
        constructor
        · rintro ⟨-, d, hd⟩
          simp only [List.mem_cons] at hd
          rcases hd with hd | hd
          · cases hd
          · obtain ⟨m1, h1⟩ := removeMarker_calls h s b _ _ hd
            cases h1
        · intro hfalse
          cases hfalse

/-- Witness for C16: removal of the joined etcd voter when the consensus query
fails: the error is returned after the query alone. -/
theorem OnRemove_query_error_propagates_witness :
    OnRemove Demo.failingPkg Demo.h ⟨[Demo.etcdMachine]⟩ "fleet/b1" Demo.bootstrap =
      { bootstrap := Demo.bootstrap, err := some (.Other "etcd unreachable"),
        calls := [.SafelyRemoved ⟨"https://c1"⟩
          (Demo.failingPkg.GetRuntimeCommand Demo.controlPlane.Spec.KubernetesVersion) "node1"],
        store := ⟨[Demo.etcdMachine]⟩ } :=
  (OnRemove_query_error_propagates Demo.failingPkg Demo.h ⟨[Demo.etcdMachine]⟩ "fleet/b1"
    Demo.bootstrap Demo.cluster { Kind := "RKEControlPlane", Namespace := "fleet", Name := "c1" }
    Demo.controlPlane Demo.etcdMachine { Kind := "Node", Namespace := "", Name := "node1" }
    { ObjectMeta := { Name := "c1-kubeconfig", Namespace := "fleet", Labels := .nil,
                      Annotations := .nil },
      Data := [("value", [1, 2, 3])], SecretType := "cluster.x-k8s.io/secret" }
    (by decide) (by decide) (by decide) (by decide) (by decide) (by decide) (by decide)
    (by decide) (fun v hv => by simp [Demo.bootstrap, GoMap.get?, GoMap.entries] at hv)
    (by decide) (by decide)).2.1 ⟨"https://c1"⟩ (.Other "etcd unreachable") (by decide)
    (by decide)

/-! ## Change handler -/

/-- C17: `OnChange` issues an Update exactly when the request is non-nil, has
no deletion timestamp (`DeletionTimestamp.IsZero()`), has an empty spec cluster
name and carries a non-empty CAPI cluster-name label. In that case it issues
exactly one Update, of the request with only Spec.ClusterName set to the
label's value, returns what the client answers, and `OnChange` on the object
it wrote issues no Update. Whenever it issues no Update it returns the request
as given with a nil error. -/
theorem OnChange_writes_iff (rkeBootstrap : RKEBootstrapController) (key : String)
    (ob : Option RKEBootstrap) :
    ((OnChange rkeBootstrap key ob).updates ≠ [] ↔
      ∃ b v, ob = some b ∧ IsZero b.DeletionTimestamp = true ∧ b.Spec.ClusterName = "" ∧
        b.Labels.get? ClusterLabelName = some v ∧ v ≠ "") ∧
    (∀ b v, ob = some b → IsZero b.DeletionTimestamp = true → b.Spec.ClusterName = "" →
      b.Labels.get? ClusterLabelName = some v → v ≠ "" →
      ∃ b1 : RKEBootstrap, b1 = { b with Spec := { b.Spec with ClusterName := v } } ∧
        (OnChange rkeBootstrap key ob).updates = [b1] ∧
        (OnChange rkeBootstrap key ob).bootstrap = (rkeBootstrap.Update b1).1 ∧
        (OnChange rkeBootstrap key ob).err = (rkeBootstrap.Update b1).2 ∧
        (OnChange rkeBootstrap key (some b1)).updates = []) ∧
    ((OnChange rkeBootstrap key ob).updates = [] →
      (OnChange rkeBootstrap key ob).bootstrap = ob ∧
      (OnChange rkeBootstrap key ob).err = none) := by
  cases ob with
  | none => simp [OnChange]
  | some b =>
    by_cases hw : IsZero b.DeletionTimestamp = true ∧ b.Spec.ClusterName = "" ∧
        ∃ v, b.Labels.get? ClusterLabelName = some v ∧ v ≠ ""
    · obtain ⟨hz, hn, v, hl, hv⟩ := hw
      have hres : OnChange rkeBootstrap key (some b) =
          { bootstrap := (rkeBootstrap.Update { b with Spec := { b.Spec with ClusterName := v } }).1
            err := (rkeBootstrap.Update { b with Spec := { b.Spec with ClusterName := v } }).2
            updates := [{ b with Spec := { b.Spec with ClusterName := v } }] } := by
        simp [OnChange, hz, hn, hl, hv]
      have hagain : (OnChange rkeBootstrap key
          (some { b with Spec := { b.Spec with ClusterName := v } })).updates = [] := by
        simp [OnChange, hv]
      rw [hres]
      refine ⟨⟨fun _ => ⟨b, v, rfl, hz, hn, hl, hv⟩, fun _ => by simp⟩, ?_, by simp⟩
      intro b2 v2 hb2 _ _ hl2 _
      cases hb2
      rw [hl] at hl2
      cases hl2
      exact ⟨_, rfl, rfl, rfl, rfl, hagain⟩
    · have hres : OnChange rkeBootstrap key (some b) =
          { bootstrap := some b, err := none, updates := [] } := by
        unfold OnChange
        dsimp only
        by_cases hz : IsZero b.DeletionTimestamp = true
        · by_cases hn : b.Spec.ClusterName = ""
          · cases hl : b.Labels.get? ClusterLabelName with
            | none => simp [hz, hn]
            | some v =>
              by_cases hv : v = ""
              · simp [hz, hn, hv]
              · exact absurd ⟨hz, hn, v, hl, hv⟩ hw
          · simp [hz, hn]
        · simp [hz]
      rw [hres]
      refine ⟨⟨fun hne => absurd rfl hne, ?_⟩, ?_, fun _ => ⟨rfl, rfl⟩⟩
      · rintro ⟨b2, v2, hb2, hz, hn, hl, hv⟩
        cases hb2
        exact absurd ⟨hz, hn, v2, hl, hv⟩ hw
      · intro b2 v2 hb2 hz hn hl hv
        cases hb2
        exact absurd ⟨hz, hn, v2, hl, hv⟩ hw

/-- Witness for C17: the legacy request gets its spec cluster name from the
label in one Update, and the written object triggers no second Update. -/
theorem OnChange_writes_iff_witness :
    ∃ b1 : RKEBootstrap,
      b1 = { Demo.legacyBootstrap with
        Spec := { Demo.legacyBootstrap.Spec with ClusterName := "c1" } } ∧
      (OnChange Demo.client "fleet/b1" (some Demo.legacyBootstrap)).updates = [b1] ∧
      (OnChange Demo.client "fleet/b1" (some Demo.legacyBootstrap)).bootstrap
        = (Demo.client.Update b1).1 ∧
      (OnChange Demo.client "fleet/b1" (some Demo.legacyBootstrap)).err
        = (Demo.client.Update b1).2 ∧
      (OnChange Demo.client "fleet/b1" (some b1)).updates = [] :=
  (OnChange_writes_iff Demo.client "fleet/b1" (some Demo.legacyBootstrap)).2.1
    Demo.legacyBootstrap "c1" rfl (by decide) (by decide) (by decide) (by decide)

/-! ## Trigger mapping -/

/-- C18: the trigger mapping returns, with a nil error, for a service account
that carries the label rke.cattle.io/rkebootstrap-name exactly the key
(its namespace, the label's value); for a Machine whose bootstrap config
reference is set and of kind "RKEBootstrap" exactly the key (its namespace, the
reference's name); and no key for a service account without the label, a
Machine without reference or with a reference of another kind, and an object
of any other type. -/
theorem rkeBootstrapTrigger_keys (ns name : String) :
    (∀ (sa : ServiceAccount) (v : String),
      sa.ObjectMeta.Labels.get? rkeBootstrapName = some v →
      rkeBootstrapTrigger ns name (.serviceAccount sa) =
        ([{ Namespace := sa.ObjectMeta.Namespace, Name := v }], none)) ∧
    (∀ (m : Machine) (ref : ObjectReference),
      m.Spec.BootstrapConfigRef = some ref → ref.Kind = "RKEBootstrap" →
      rkeBootstrapTrigger ns name (.machine m) =
        ([{ Namespace := m.Namespace, Name := ref.Name }], none)) ∧
    (∀ sa : ServiceAccount, sa.ObjectMeta.Labels.get? rkeBootstrapName = none →
      rkeBootstrapTrigger ns name (.serviceAccount sa) = ([], none)) ∧
    (∀ m : Machine, m.Spec.BootstrapConfigRef = none →
      rkeBootstrapTrigger ns name (.machine m) = ([], none)) ∧
    (∀ (m : Machine) (ref : ObjectReference),
      m.Spec.BootstrapConfigRef = some ref → ref.Kind ≠ "RKEBootstrap" →
      rkeBootstrapTrigger ns name (.machine m) = ([], none)) ∧
    (∀ kind : String, rkeBootstrapTrigger ns name (.other kind) = ([], none)) := by
  refine ⟨?_, ?_, ?_, ?_, ?_, ?_⟩
  · intro sa v hv
    simp [rkeBootstrapTrigger, hv]
  · intro m ref href hkind
    simp [rkeBootstrapTrigger, href, hkind]
  · intro sa hv
    simp [rkeBootstrapTrigger, hv]
  · intro m href
    simp [rkeBootstrapTrigger, href]
  · intro m ref href hkind
    simp [rkeBootstrapTrigger, href, hkind]
  · intro kind
    simp [rkeBootstrapTrigger]

/-- Witness for C18: a Machine whose bootstrap config reference names request
`b1` maps to the key (fleet, b1). -/
theorem rkeBootstrapTrigger_keys_witness :
    rkeBootstrapTrigger "fleet" "m1"
        (.machine { Demo.workerMachine with
          Spec := { ClusterName := "c1",
                    BootstrapConfigRef :=
                      some { Kind := "RKEBootstrap", Namespace := "fleet", Name := "b1" } } }) =
      ([{ Namespace := "fleet", Name := "b1" }], none) :=
  (rkeBootstrapTrigger_keys "fleet" "m1").2.1 _
    { Kind := "RKEBootstrap", Namespace := "fleet", Name := "b1" } rfl rfl

/-! ## Generating handler: the bootstrap service account is not there yet -/

/-- C19, as stated, fails: the gate is passed, the Machine is in phase Pending
and the bootstrap service account is not in the cache, yet the pass returns an
error and no object, because the API server rejected the marker update. -/
theorem GeneratingHandler_update_rejected_before_lookup :
    GetOwnerCAPIMachine Demo.bootstrap (machineCacheGet Demo.hRejecting ⟨[Demo.newEtcdMachine]⟩)
      = .ok Demo.newEtcdMachine ∧
    Demo.hRejecting.capiClusterCache "fleet" "c1" = .ok Demo.cluster ∧
    Demo.pkg.IsPaused Demo.cluster Demo.bootstrap = false ∧
    Demo.cluster.Status.InfrastructureReady = true ∧
    Demo.newEtcdMachine.Status.Phase = MachinePhasePending ∧
    Demo.hRejecting.serviceAccountCache "fleet"
      (Demo.pkg.SafeConcatName ["b1", "machine", "bootstrap"]) = .error .NotFound ∧
    GeneratingHandler Demo.pkg Demo.hRejecting ⟨[Demo.newEtcdMachine]⟩ Demo.bootstrap
        Demo.emptyStatus =
      { objs := [], status := Demo.emptyStatus, err := some (.Other "conflict"),
        calls := [.MachineUpdate Demo.labelledEtcdMachine], store := ⟨[Demo.newEtcdMachine]⟩ } := by
  decide

/-- C19, amended: for every pass that passes the readiness gate with a Machine
in phase Pending, Deleting, Failed or Provisioning, whose marker block did not
fail and whose environment variables were resolved, and in which the bootstrap
service account is not found in the service-account cache, `getBootstrapSecret`
returns (nil, nil) and the pass returns no error, the input status, and the
four plan objects followed by the bootstrap service account and nothing else. -/
theorem GeneratingHandler_no_service_account (x : Pkg) (h : handler) (s : Store)
    (b : RKEBootstrap) (status : RKEBootstrapStatus) (m : Machine) (c : Cluster)
    (m1 : Machine) (calls : List Call) (s1 : Store) (envVars : List EnvVar) (e : GoError)
    (hm : GetOwnerCAPIMachine b (machineCacheGet h s) = .ok m)
    (hc : h.capiClusterCache m.Namespace m.Spec.ClusterName = .ok c)
    (hpause : x.IsPaused c b = false) (hready : c.Status.InfrastructureReady = true)
    (hphase : m.Status.Phase = MachinePhasePending ∨ m.Status.Phase = MachinePhaseDeleting ∨
      m.Status.Phase = MachinePhaseFailed ∨ m.Status.Phase = MachinePhaseProvisioning)
    (hmark : annotateMachine x h s m = (.ok m1, calls, s1))
    (henv : getEnvVar h b c = .ok envVars)
    (hsa : h.serviceAccountCache b.Namespace (x.SafeConcatName [b.Name, "machine", "bootstrap"])
      = .error e)
    (he : IsNotFound e = true) :
    getBootstrapSecret x h b.Namespace (x.SafeConcatName [b.Name, "machine", "bootstrap"])
      envVars m1 = .ok none ∧
    ∃ bsa : ServiceAccount,
      bsa.ObjectMeta.Name = x.SafeConcatName [b.Name, "machine", "bootstrap"] ∧
      bsa.ObjectMeta.Namespace = b.Namespace ∧
      GeneratingHandler x h s b status =
        { objs := assignPlanSecret x m b ++ [.serviceAccount bsa], status := status,
          err := none, calls := calls, store := s1 } := by
  have hget : getBootstrapSecret x h b.Namespace
      (x.SafeConcatName [b.Name, "machine", "bootstrap"]) envVars m1 = .ok none := by
    simp [getBootstrapSecret, hsa, he]
  obtain ⟨-, -, -, -, hstatus⟩ := annotateMachine_ok x h s m m1 calls s1 hmark
  have hcond : (m1.Status.Phase != MachinePhasePending &&
      m1.Status.Phase != MachinePhaseDeleting && m1.Status.Phase != MachinePhaseFailed &&
      m1.Status.Phase != MachinePhaseProvisioning) = false := by
    rw [hstatus]
    rcases hphase with hp | hp | hp | hp <;> simp [hp]
  refine ⟨hget,
    { ObjectMeta :=
        { Name := x.SafeConcatName [b.Name, "machine", "bootstrap"]
          Namespace := b.Namespace
          Labels := (((GoMap.mk []).set x.MachineNameLabel m1.Name).set
            rkeBootstrapName b.Name).set x.RoleLabel x.RoleBootstrap
          Annotations := .nil } }, rfl, rfl, ?_⟩
  rw [GeneratingHandler_passed x h s b status m c hm hc hpause hready, hmark]
  simp only [assignBootStrapSecret, hcond, Bool.false_eq_true, if_false, henv, hget]

/-- Witness for C19 (amended): the first pass on a worker in phase Pending
before its bootstrap service account exists. -/
theorem GeneratingHandler_no_service_account_witness :
    getBootstrapSecret Demo.pkg Demo.hNoServiceAccount Demo.bootstrap.Namespace
      (Demo.pkg.SafeConcatName [Demo.bootstrap.Name, "machine", "bootstrap"]) []
      Demo.workerMachine = .ok none ∧
    ∃ bsa : ServiceAccount,
      bsa.ObjectMeta.Name = Demo.pkg.SafeConcatName [Demo.bootstrap.Name, "machine", "bootstrap"] ∧
      bsa.ObjectMeta.Namespace = Demo.bootstrap.Namespace ∧
      GeneratingHandler Demo.pkg Demo.hNoServiceAccount ⟨[Demo.workerMachine]⟩ Demo.bootstrap
          Demo.emptyStatus =
        { objs := assignPlanSecret Demo.pkg Demo.workerMachine Demo.bootstrap ++
            [.serviceAccount bsa],
          status := Demo.emptyStatus, err := none, calls := [],
          store := ⟨[Demo.workerMachine]⟩ } :=
  GeneratingHandler_no_service_account Demo.pkg Demo.hNoServiceAccount ⟨[Demo.workerMachine]⟩
    Demo.bootstrap Demo.emptyStatus Demo.workerMachine Demo.cluster Demo.workerMachine []
    ⟨[Demo.workerMachine]⟩ [] .NotFound
    (by decide) (by decide) (by decide) (by decide) (by decide) (by decide) (by decide)
    (by decide) (by decide)

/-! ## Artifact generator: labels and annotations of the plan secret -/

theorem GoMap.get?_set_self (m : GoMap) (k v : String) : (m.set k v).get? k = some v := by
  simp [GoMap.set, GoMap.get?, GoMap.entries, List.lookup_cons]

theorem GoMap.get?_set_other (m : GoMap) (k v k1 : String) (hne : k1 ≠ k) :
    (m.set k v).get? k1 = m.get? k1 := by
  have hk : (k1 == k) = false := by simpa using hne
  simp only [GoMap.set, GoMap.get?, GoMap.entries, List.lookup_cons, hk]
  exact lookup_filter_other _ k k1 hne

theorem lookup_eq_none_of_not_mem_keys (l : List (String × String)) (k : String)
    (hk : k ∉ l.map Prod.fst) : l.lookup k = none := by
  induction l with
  | nil => rfl
  | cons a t ih =>
    obtain ⟨a1, a2⟩ := a
    simp only [List.map_cons, List.mem_cons, not_or] at hk
    have hk2 : (k == a1) = false := by simpa using hk.1
    rw [List.lookup_cons, hk2]
    exact ih hk.2

/-- Copying the entries of a Go map (no key twice) into a map, one assignment
per entry: a key of the source reads as in the source, any other key as in the
target before the copy. -/
theorem foldl_set_get? (l : List (String × String)) (init : GoMap) (k : String)
    (hl : (l.map Prod.fst).Nodup) :
    (l.foldl (fun m kv => m.set kv.1 kv.2) init).get? k =
      match l.lookup k with
      | some v => some v
      | none => init.get? k := by
  induction l generalizing init with
  | nil => rfl
  | cons a t ih =>
    obtain ⟨a1, a2⟩ := a
    simp only [List.map_cons, List.nodup_cons] at hl
    rw [List.foldl_cons, ih _ hl.2, List.lookup_cons]
    by_cases hk : k = a1
    · subst hk
      simp [lookup_eq_none_of_not_mem_keys t k hl.1, GoMap.get?_set_self]
    · have hk2 : (k == a1) = false := by simpa using hk
      simp only [hk2, GoMap.get?_set_other _ _ _ _ hk]

/-- C20: for every request and machine (the request's label and annotation maps
being Go maps, no key twice), the plan secret built by `assignPlanSecret`
carries the maps of `getLabelsAndAnnotationsForPlanSecret`; in its label map a
key of the request's labels has the request's value, and otherwise the
cluster-name label has the request's Spec.ClusterName, the machine-name label
the machine's name, and no other key is present; its annotation map has, key
by key, the entries of the request's annotation map. -/
theorem planSecret_labels_and_annotations (x : Pkg) (m : Machine) (b : RKEBootstrap)
    (hl : (b.Labels.entries.map Prod.fst).Nodup)
    (ha : (b.Annotations.entries.map Prod.fst).Nodup) :
    ∃ (sa : ServiceAccount) (sec : Secret) (role : Role) (rb : RoleBinding),
      assignPlanSecret x m b =
        [.serviceAccount sa, .secret sec, .role role, .roleBinding rb] ∧
      sec.ObjectMeta.Labels = (getLabelsAndAnnotationsForPlanSecret x b m).1 ∧
      sec.ObjectMeta.Annotations = (getLabelsAndAnnotationsForPlanSecret x b m).2 ∧
      (∀ k, sec.ObjectMeta.Labels.get? k =
        match b.Labels.get? k with
        | some v => some v
        | none =>
          if k = x.ClusterNameLabel then some b.Spec.ClusterName
          else if k = x.MachineNameLabel then some m.Name
          else none) ∧
      (∀ k, sec.ObjectMeta.Annotations.get? k = b.Annotations.get? k) := by
  refine ⟨_, _, _, _, rfl, rfl, rfl, ?_, ?_⟩
  · intro k
    have hg : b.Labels.get? k = b.Labels.entries.lookup k := rfl
    simp only [getLabelsAndAnnotationsForPlanSecret]
    rw [foldl_set_get? _ _ k hl, hg]
    cases b.Labels.entries.lookup k with
    | some v => rfl
    | none =>
      dsimp only
      by_cases hk : k = x.ClusterNameLabel
      · rw [if_pos hk, hk, GoMap.get?_set_self]
      · rw [if_neg hk, GoMap.get?_set_other _ _ _ _ hk]
        by_cases hk2 : k = x.MachineNameLabel
        · rw [if_pos hk2, hk2, GoMap.get?_set_self]
        · rw [if_neg hk2, GoMap.get?_set_other _ _ _ _ hk2]
          rfl
  · intro k
    have hg : b.Annotations.get? k = b.Annotations.entries.lookup k := rfl
    simp only [getLabelsAndAnnotationsForPlanSecret]
    rw [foldl_set_get? _ _ k ha, hg]
    cases b.Annotations.entries.lookup k with
    | some v => rfl
    | none => rfl

/-- Witness for C20: a request that itself carries the cluster-name label keeps
its own value in the plan secret. -/
theorem planSecret_labels_and_annotations_witness :
    ∃ (sa : ServiceAccount) (sec : Secret) (role : Role) (rb : RoleBinding),
      assignPlanSecret Demo.pkg Demo.workerMachine Demo.labelledBootstrap =
        [.serviceAccount sa, .secret sec, .role role, .roleBinding rb] ∧
      sec.ObjectMeta.Labels =
        (getLabelsAndAnnotationsForPlanSecret Demo.pkg Demo.labelledBootstrap
          Demo.workerMachine).1 ∧
      sec.ObjectMeta.Annotations =
        (getLabelsAndAnnotationsForPlanSecret Demo.pkg Demo.labelledBootstrap
          Demo.workerMachine).2 ∧
      (∀ k, sec.ObjectMeta.Labels.get? k =
        match Demo.labelledBootstrap.Labels.get? k with
        | some v => some v
        | none =>
          if k = Demo.pkg.ClusterNameLabel then some Demo.labelledBootstrap.Spec.ClusterName
          else if k = Demo.pkg.MachineNameLabel then some Demo.workerMachine.Name
          else none) ∧
      (∀ k, sec.ObjectMeta.Annotations.get? k = Demo.labelledBootstrap.Annotations.get? k) :=
  planSecret_labels_and_annotations Demo.pkg Demo.workerMachine Demo.labelledBootstrap
    (by decide) (by decide)

/-! ## Generating handler: Ready never goes back -/

/-- The returned status is the input status or has Ready = true. -/
theorem GeneratingHandler_status_cases (x : Pkg) (h : handler) (s : Store) (b : RKEBootstrap)
    (status : RKEBootstrapStatus) :
    (GeneratingHandler x h s b status).status = status ∨
      (GeneratingHandler x h s b status).status.Ready = true := by
  unfold GeneratingHandler
  repeat' split
  all_goals simp_all

/-- C21: on every return path of `GeneratingHandler`, an input status with
Ready = true gives a returned status with Ready = true, and whenever the
returned Ready differs from the input Ready the change is from false to true. -/
theorem GeneratingHandler_ready_monotonic (x : Pkg) (h : handler) (s : Store)
    (b : RKEBootstrap) (status : RKEBootstrapStatus) :
    (status.Ready = true → (GeneratingHandler x h s b status).status.Ready = true) ∧
    ((GeneratingHandler x h s b status).status.Ready ≠ status.Ready →
      status.Ready = false ∧ (GeneratingHandler x h s b status).status.Ready = true) := by
  rcases GeneratingHandler_status_cases x h s b status with hsame | htrue
  · rw [hsame]
    exact ⟨fun hr => hr, fun hne => absurd rfl hne⟩
  · rw [htrue]
    refine ⟨fun _ => rfl, fun hne => ⟨?_, rfl⟩⟩
    cases hr : status.Ready with
    | false => rfl
    | true => exact absurd hr.symm hne

/-- Witness for C21: a status that is ready although it names no data secret
stays ready on the pass that sets the name. -/
theorem GeneratingHandler_ready_monotonic_witness :
    (GeneratingHandler Demo.pkg Demo.h ⟨[Demo.workerMachine]⟩ Demo.bootstrap
        ⟨true, none⟩).status = ⟨true, some "b1-machine-bootstrap"⟩ ∧
    (GeneratingHandler Demo.pkg Demo.h ⟨[Demo.workerMachine]⟩ Demo.bootstrap
        ⟨true, none⟩).status.Ready = true :=
  ⟨by decide,
    (GeneratingHandler_ready_monotonic Demo.pkg Demo.h ⟨[Demo.workerMachine]⟩ Demo.bootstrap
      ⟨true, none⟩).1 rfl⟩

/-! ## Removal handler: a voter that never joined, a cluster without kubeconfig -/

/-- C22: in every removal pass on a resolved etcd Machine, with cluster and
control plane not deleting and no force annotation whose lower-cased value is
"true", if the Machine's node reference is nil or the lookup of the cluster's
kubeconfig secret reports not-found, the result is that of
removeMachinePreTerminateAnnotation on the Machine; the consensus query is not
invoked and no re-enqueue is scheduled. -/
theorem OnRemove_never_joined_cleans_up (x : Pkg) (h : handler) (s : Store) (key : String)
    (b : RKEBootstrap) (c : Cluster) (cpRef : ObjectReference) (cp : RKEControlPlane)
    (m : Machine)
    (hlabel : b.Labels.getD ClusterLabelName ≠ "")
    (hc : h.capiClusterCache b.Namespace (b.Labels.getD ClusterLabelName) = .ok c)
    (href : c.Spec.ControlPlaneRef = some cpRef)
    (hcp : h.rkeControlPlanes cpRef.Namespace cpRef.Name = .ok cp)
    (hm : GetMachineByOwner (machineCacheGet h s) b = .ok m)
    (hcpdel : cp.DeletionTimestamp = none) (hcdel : c.DeletionTimestamp = none)
    (hetcd : m.Labels.contains x.EtcdRoleLabel = true)
    (hforce : ∀ v, b.Annotations.get? x.ForceRemoveEtcdAnnotation = some v → x.ToLower v ≠ "true")
    (hcase : m.Status.NodeRef = none ∨
      ∃ e, h.secretCache b.Namespace (x.KubeconfigSecretName (b.Labels.getD ClusterLabelName))
        = .error e ∧ IsNotFound e = true) :
    OnRemove x h s key b = removeMachinePreTerminateAnnotation h s b (some m) ∧
    (∀ cfg rt node, Call.SafelyRemoved cfg rt node ∉ (OnRemove x h s key b).calls) ∧
    (∀ ns n d, Call.EnqueueAfter ns n d ∉ (OnRemove x h s key b).calls) := by
  have hf : (match b.Annotations.get? x.ForceRemoveEtcdAnnotation with
      | some v => x.ToLower v == "true"
      | none => false) = false := by
    cases hv : b.Annotations.get? x.ForceRemoveEtcdAnnotation with
    | none => rfl
    | some v => simpa using hforce v hv
  have heq : OnRemove x h s key b = removeMachinePreTerminateAnnotation h s b (some m) := by
    cases hnode : m.Status.NodeRef with
    | none => simp [OnRemove, hlabel, hc, href, hcp, hm, hcpdel, hcdel, hetcd, hf, hnode]
    | some nodeRef =>
      rcases hcase with hn | ⟨e, hkc, he⟩
      · rw [hnode] at hn
        cases hn
      · simp [OnRemove, hlabel, hc, href, hcp, hm, hcpdel, hcdel, hetcd, hf, hnode, hkc, he]
  rw [heq]
  refine ⟨rfl, ?_, ?_⟩
  · intro cfg rt node hmem
    obtain ⟨m1, h1⟩ := removeMarker_calls h s b _ _ hmem
    cases h1
  · intro ns n d hmem
    obtain ⟨m1, h1⟩ := removeMarker_calls h s b _ _ hmem
    cases h1

/-- Witness for C22: an etcd voter that carries the marker but never joined (no
node reference); the one call is the update that removes the marker. -/
theorem OnRemove_never_joined_cleans_up_witness :
    (OnRemove Demo.pkg Demo.h ⟨[Demo.unjoinedEtcdMachine]⟩ "fleet/b1" Demo.bootstrap =
      removeMachinePreTerminateAnnotation Demo.h ⟨[Demo.unjoinedEtcdMachine]⟩ Demo.bootstrap
        (some Demo.unjoinedEtcdMachine) ∧
    (∀ cfg rt node, Call.SafelyRemoved cfg rt node ∉
      (OnRemove Demo.pkg Demo.h ⟨[Demo.unjoinedEtcdMachine]⟩ "fleet/b1" Demo.bootstrap).calls) ∧
    (∀ ns n d, Call.EnqueueAfter ns n d ∉
      (OnRemove Demo.pkg Demo.h ⟨[Demo.unjoinedEtcdMachine]⟩ "fleet/b1"
        Demo.bootstrap).calls)) ∧
    (OnRemove Demo.pkg Demo.h ⟨[Demo.unjoinedEtcdMachine]⟩ "fleet/b1" Demo.bootstrap).calls =
      [.MachineUpdate { Demo.unjoinedEtcdMachine with Annotations := .mk [] }] :=
  ⟨OnRemove_never_joined_cleans_up Demo.pkg Demo.h ⟨[Demo.unjoinedEtcdMachine]⟩ "fleet/b1"
      Demo.bootstrap Demo.cluster
      { Kind := "RKEControlPlane", Namespace := "fleet", Name := "c1" } Demo.controlPlane
      Demo.unjoinedEtcdMachine (by decide) (by decide) (by decide) (by decide) (by decide)
      (by decide) (by decide) (by decide)
      (fun v hv => by simp [Demo.bootstrap, GoMap.get?, GoMap.entries] at hv)
      (Or.inl (by decide)),
    by decide⟩

/-! ## The marker: check before write, and what the write changes -/

/-- The marker block does nothing on a Machine without etcd role label or with
the marker annotation already set to the owner value. -/
theorem annotateMachine_unchanged (x : Pkg) (h : handler) (s : Store) (m : Machine)
    (hno : m.Labels.contains x.EtcdRoleLabel = false ∨
      m.Annotations.get? capiMachinePreTerminateAnnotation =
        some capiMachinePreTerminateAnnotationOwner) :
    annotateMachine x h s m = (.ok m, [], s) := by
  unfold annotateMachine
  rcases hno with hl | ha
  · simp [hl]
  · simp [ha]

/-- Whatever the marker block issues is one update of the Machine with the
marker set in its label map; a rejected update leaves the store as it was. -/
theorem annotateMachine_calls (x : Pkg) (h : handler) (s : Store) (m : Machine) :
    (annotateMachine x h s m).2.1 = [] ∧ (annotateMachine x h s m).2.2 = s ∨
    (annotateMachine x h s m).2.1 =
        [.MachineUpdate { m with
          Labels := (if m.Labels.isNil then GoMap.mk [] else m.Labels).set
            capiMachinePreTerminateAnnotation capiMachinePreTerminateAnnotationOwner }] ∧
      (h.machineUpdateErr { m with
          Labels := (if m.Labels.isNil then GoMap.mk [] else m.Labels).set
            capiMachinePreTerminateAnnotation capiMachinePreTerminateAnnotationOwner } ≠ none →
        (annotateMachine x h s m).2.2 = s) := by
  unfold annotateMachine
  dsimp only
  split
  · right
    refine ⟨rfl, ?_⟩
    intro hrej
    unfold machineClientUpdate
    dsimp only
    split
    · rfl
    · rename_i hnone
      exact absurd hnone hrej
  · left
    exact ⟨rfl, rfl⟩

/-- The calls and the store of a pass are those of its marker block, or the
pass stopped at the readiness gate with at most a re-enqueue. -/
theorem GeneratingHandler_calls (x : Pkg) (h : handler) (s : Store) (b : RKEBootstrap)
    (status : RKEBootstrapStatus) :
    ((∀ m1, Call.MachineUpdate m1 ∉ (GeneratingHandler x h s b status).calls) ∧
      (GeneratingHandler x h s b status).store = s) ∨
    ∃ m, GetOwnerCAPIMachine b (machineCacheGet h s) = .ok m ∧
      (GeneratingHandler x h s b status).calls = (annotateMachine x h s m).2.1 ∧
      (GeneratingHandler x h s b status).store = (annotateMachine x h s m).2.2 := by
  unfold GeneratingHandler
  cases hm : GetOwnerCAPIMachine b (machineCacheGet h s) with
  | error e =>
    left
    dsimp only
    split <;> simp
  | ok m =>
    dsimp only
    cases h.capiClusterCache m.Namespace m.Spec.ClusterName with
    | error e =>
      left
      dsimp only
      split <;> simp
    | ok c =>
      dsimp only
      split
      · left
        simp
      · split
        · left
          simp
        · right
          refine ⟨m, rfl, ?_⟩
          rcases annotateMachine x h s m with ⟨r, calls, s1⟩
          cases r with
          | error e => exact ⟨rfl, rfl⟩
          | ok m2 =>
            dsimp only
            repeat' split
            all_goals exact ⟨rfl, rfl⟩

/-- C26: `GeneratingHandler` issues no Machine update (and leaves the store as it
was) when the Machine it resolved lacks the etcd role label or already carries
the marker annotation with value "rke-bootstrap-controller"; and
removeMachinePreTerminateAnnotation returns the request with a nil error and
issues no call when the Machine is nil, has no annotation map, or does not
carry the marker annotation. -/
theorem marker_check_before_write (x : Pkg) (h : handler) (s : Store) (b : RKEBootstrap)
    (status : RKEBootstrapStatus) :
    (∀ m, GetOwnerCAPIMachine b (machineCacheGet h s) = .ok m →
      (m.Labels.contains x.EtcdRoleLabel = false ∨
        m.Annotations.get? capiMachinePreTerminateAnnotation =
          some capiMachinePreTerminateAnnotationOwner) →
      (∀ m1, Call.MachineUpdate m1 ∉ (GeneratingHandler x h s b status).calls) ∧
      (GeneratingHandler x h s b status).store = s) ∧
    (∀ om : Option Machine,
      (om = none ∨ ∃ m, om = some m ∧
        (m.Annotations.isNil = true ∨
          m.Annotations.contains capiMachinePreTerminateAnnotation = false)) →
      removeMachinePreTerminateAnnotation h s b om =
        { bootstrap := b, err := none, calls := [], store := s }) := by
  constructor
  · intro m hm hno
    rcases GeneratingHandler_calls x h s b status with hleft | ⟨m2, hm2, hcalls, hstore⟩
    · exact hleft
    · rw [hm] at hm2
      cases hm2
      rw [hcalls, hstore, annotateMachine_unchanged x h s m hno]
      simp
  · intro om hom
    rcases hom with rfl | ⟨m, rfl, hnil | hc⟩
    · rfl
    · simp [ removeMachinePreTerminateAnnotation, hnil]
    · unfold removeMachinePreTerminateAnnotation
      dsimp only
      split
      · rfl
      · simp [hc]

/-- Witness for C26: a pass on a worker issues no call at all, and cleanup on a
Machine without annotation map returns at once. -/
theorem marker_check_before_write_witness :
    ((∀ m1, Call.MachineUpdate m1 ∉
        (GeneratingHandler Demo.pkg Demo.h ⟨[Demo.workerMachine]⟩ Demo.bootstrap
          Demo.emptyStatus).calls) ∧
      (GeneratingHandler Demo.pkg Demo.h ⟨[Demo.workerMachine]⟩ Demo.bootstrap
        Demo.emptyStatus).store = ⟨[Demo.workerMachine]⟩) ∧
    removeMachinePreTerminateAnnotation Demo.h ⟨[Demo.workerMachine]⟩ Demo.bootstrap
        (some Demo.workerMachine) =
      { bootstrap := Demo.bootstrap, err := none, calls := [],
        store := ⟨[Demo.workerMachine]⟩ } :=
  ⟨(marker_check_before_write Demo.pkg Demo.h ⟨[Demo.workerMachine]⟩ Demo.bootstrap
      Demo.emptyStatus).1 Demo.workerMachine (by decide) (Or.inl (by decide)),
    (marker_check_before_write Demo.pkg Demo.h ⟨[Demo.workerMachine]⟩ Demo.bootstrap
      Demo.emptyStatus).2 (some Demo.workerMachine)
      (Or.inr ⟨Demo.workerMachine, rfl, Or.inl (by decide)⟩)⟩

/-- C29: whenever a pass of `GeneratingHandler` issues a Machine update, it is
the only call, and the updated Machine is the Machine the pass read with only
its label map changed: the marker key reads "rke-bootstrap-controller", every
other label key reads as before, and annotations, name, namespace, spec and
status are those read; the Machine in the store changes only through that
update, so a rejected update leaves the store as it was. -/
theorem GeneratingHandler_update_frame (x : Pkg) (h : handler) (s : Store) (b : RKEBootstrap)
    (status : RKEBootstrapStatus) (m1 : Machine)
    (hcall : Call.MachineUpdate m1 ∈ (GeneratingHandler x h s b status).calls) :
    ∃ m, GetOwnerCAPIMachine b (machineCacheGet h s) = .ok m ∧
      (GeneratingHandler x h s b status).calls = [.MachineUpdate m1] ∧
      m1.Labels.get? capiMachinePreTerminateAnnotation =
        some capiMachinePreTerminateAnnotationOwner ∧
      (∀ k, k ≠ capiMachinePreTerminateAnnotation → m1.Labels.get? k = m.Labels.get? k) ∧
      m1.Annotations = m.Annotations ∧ m1.Name = m.Name ∧ m1.Namespace = m.Namespace ∧
      m1.Spec = m.Spec ∧ m1.Status = m.Status ∧
      (h.machineUpdateErr m1 ≠ none → (GeneratingHandler x h s b status).store = s) := by
  rcases GeneratingHandler_calls x h s b status with hleft | ⟨m, hm, hcalls, hstore⟩
  · exact absurd hcall (hleft.1 m1)
  · refine ⟨m, hm, ?_⟩
    rw [hcalls] at hcall ⊢
    rw [hstore]
    rcases annotateMachine_calls x h s m with ⟨hnil, -⟩ | ⟨hupd, hrej⟩
    · rw [hnil] at hcall
      cases hcall
    · rw [hupd] at hcall ⊢
      simp only [List.mem_singleton, Call.MachineUpdate.injEq] at hcall
      subst hcall
      refine ⟨rfl, GoMap.get?_set_self _ _ _, ?_, rfl, rfl, rfl, rfl, rfl, hrej⟩
      intro k hk
      rw [GoMap.get?_set_other _ _ _ _ hk]
      cases hl : m.Labels with
      | nil => rfl
      | mk l => rfl

/-- Witness for C29: the update issued on a new etcd voter. -/
theorem GeneratingHandler_update_frame_witness :
    ∃ m, GetOwnerCAPIMachine Demo.bootstrap (machineCacheGet Demo.h ⟨[Demo.newEtcdMachine]⟩)
        = .ok m ∧
      (GeneratingHandler Demo.pkg Demo.h ⟨[Demo.newEtcdMachine]⟩ Demo.bootstrap
        Demo.emptyStatus).calls = [.MachineUpdate Demo.labelledEtcdMachine] ∧
      Demo.labelledEtcdMachine.Labels.get? capiMachinePreTerminateAnnotation =
        some capiMachinePreTerminateAnnotationOwner ∧
      (∀ k, k ≠ capiMachinePreTerminateAnnotation →
        Demo.labelledEtcdMachine.Labels.get? k = m.Labels.get? k) ∧
      Demo.labelledEtcdMachine.Annotations = m.Annotations ∧
      Demo.labelledEtcdMachine.Name = m.Name ∧ Demo.labelledEtcdMachine.Namespace = m.Namespace ∧
      Demo.labelledEtcdMachine.Spec = m.Spec ∧ Demo.labelledEtcdMachine.Status = m.Status ∧
      (Demo.h.machineUpdateErr Demo.labelledEtcdMachine ≠ none →
        (GeneratingHandler Demo.pkg Demo.h ⟨[Demo.newEtcdMachine]⟩ Demo.bootstrap
          Demo.emptyStatus).store = ⟨[Demo.newEtcdMachine]⟩) :=
  GeneratingHandler_update_frame Demo.pkg Demo.h ⟨[Demo.newEtcdMachine]⟩ Demo.bootstrap
    Demo.emptyStatus Demo.labelledEtcdMachine (by decide)

/-! ## Artifact generator: the bootstrap secret -/

/-- The host-port flag, when it is obtained: false when the rancher deployment
is not found, and for a deployment found true exactly when a container named
"rancher" has a port whose HostPort is not 0. -/
theorem rancherDeploymentHasHostPort_ok (x : Pkg) (h : handler) (flag : Bool)
    (hflag : rancherDeploymentHasHostPort x h = .ok flag) :
    (∀ e, h.deploymentCache x.SystemNamespace "rancher" = .error e →
      IsNotFound e = true ∧ flag = false) ∧
    (∀ d, h.deploymentCache x.SystemNamespace "rancher" = .ok d →
      (flag = true ↔
        ∃ container ∈ d.Containers, container.Name = "rancher" ∧
          ∃ port ∈ container.Ports, port.HostPort ≠ 0)) := by
  unfold rancherDeploymentHasHostPort at hflag
  constructor
  · intro e hdep
    rw [hdep] at hflag
    dsimp only at hflag
    by_cases he : IsNotFound e = true
    · rw [if_pos he] at hflag
      cases hflag
      exact ⟨he, rfl⟩
    · rw [if_neg he] at hflag
      cases hflag
  · intro d hdep
    rw [hdep] at hflag
    dsimp only at hflag
    cases hflag
    rw [List.any_eq_true]
    constructor
    · rintro ⟨container, hc, hports⟩
      rw [List.any_eq_true] at hports
      obtain ⟨port, hp, hcond⟩ := hports
      rw [Bool.and_eq_true, beq_iff_eq, bne_iff_ne] at hcond
      exact ⟨container, hc, hcond.1, port, hp, hcond.2⟩
    · rintro ⟨container, hc, hname, port, hp, hport⟩
      refine ⟨container, hc, ?_⟩
      rw [List.any_eq_true]
      refine ⟨port, hp, ?_⟩
      rw [Bool.and_eq_true, beq_iff_eq, bne_iff_ne]
      exact ⟨hname, hport⟩

/-- C25: for every `getBootstrapSecret` call that finds the service account,
obtains its credential and returns no error, the host-port flag was read from
the deployment "rancher" of the system namespace (false when that deployment
is not found; for a deployment found, true exactly when a container named
"rancher" has a port with a non-zero HostPort), the generator called is the
Windows one if the Machine's OS label equals the Windows value and the Linux
one otherwise, its arguments are the flag, the URL-safe base64 encoding of the
SHA-256 of the credential's "token" bytes, the given environment variables and
"", and the returned secret has the name and namespace the service account was
looked up under, type "rke.cattle.io/bootstrap" and the single data key
"value" holding the script bytes. A second such call, for the same name, the
same namespace and environment variables, with equal token bytes, OS label and
host-port flag, returns the same secret. -/
theorem getBootstrapSecret_success (x : Pkg) (h : handler) (ns name : String)
    (envVars : List EnvVar) (m : Machine) (sa : ServiceAccount) (cred : Secret)
    (r : Option Secret)
    (hsa : h.serviceAccountCache ns name = .ok sa)
    (hcred : x.EnsureSecretForServiceAccount sa = .ok cred)
    (hok : getBootstrapSecret x h ns name envVars m = .ok r) :
    (∃ (hasHostPort : Bool) (data : Bytes),
      rancherDeploymentHasHostPort x h = .ok hasHostPort ∧
      (∀ e, h.deploymentCache x.SystemNamespace "rancher" = .error e →
        IsNotFound e = true ∧ hasHostPort = false) ∧
      (∀ d, h.deploymentCache x.SystemNamespace "rancher" = .ok d →
        (hasHostPort = true ↔
          ∃ container ∈ d.Containers, container.Name = "rancher" ∧
            ∃ port ∈ container.Ports, port.HostPort ≠ 0)) ∧
      (if m.Labels.getD x.CattleOSLabel = x.WindowsMachineOS then x.WindowsInstallScript
        else x.LinuxInstallScript) hasHostPort
          (x.EncodeToString (x.Sum256 (dataGet cred.Data "token"))) envVars "" = .ok data ∧
      r = some
        { ObjectMeta := { Name := name, Namespace := ns, Labels := .nil, Annotations := .nil }
          Data := [("value", data)]
          SecretType := "rke.cattle.io/bootstrap" }) ∧
    (∀ (h2 : handler) (m2 : Machine) (sa2 : ServiceAccount) (cred2 : Secret)
        (r2 : Option Secret),
      h2.serviceAccountCache ns name = .ok sa2 →
      x.EnsureSecretForServiceAccount sa2 = .ok cred2 →
      getBootstrapSecret x h2 ns name envVars m2 = .ok r2 →
      dataGet cred2.Data "token" = dataGet cred.Data "token" →
      m2.Labels.getD x.CattleOSLabel = m.Labels.getD x.CattleOSLabel →
      rancherDeploymentHasHostPort x h2 = rancherDeploymentHasHostPort x h →
      r2 = r) := by
  have hshape : ∀ (h1 : handler) (m1 : Machine) (sa1 : ServiceAccount) (cred1 : Secret)
      (r1 : Option Secret), h1.serviceAccountCache ns name = .ok sa1 →
      x.EnsureSecretForServiceAccount sa1 = .ok cred1 →
      getBootstrapSecret x h1 ns name envVars m1 = .ok r1 →
      ∃ (hasHostPort : Bool) (data : Bytes),
        rancherDeploymentHasHostPort x h1 = .ok hasHostPort ∧
        (if m1.Labels.getD x.CattleOSLabel = x.WindowsMachineOS then x.WindowsInstallScript
          else x.LinuxInstallScript) hasHostPort
            (x.EncodeToString (x.Sum256 (dataGet cred1.Data "token"))) envVars "" = .ok data ∧
        r1 = some
          { ObjectMeta := { Name := name, Namespace := ns, Labels := .nil, Annotations := .nil }
            Data := [("value", data)]
            SecretType := "rke.cattle.io/bootstrap" } := by
    intro h1 m1 sa1 cred1 r1 hsa1 hcred1 hok1
    unfold getBootstrapSecret at hok1
    simp only [hsa1, hcred1, beq_iff_eq] at hok1
    cases hflag : rancherDeploymentHasHostPort x h1 with
    | error e => simp [hflag] at hok1
    | ok flag =>
      simp only [hflag] at hok1
      cases hscript : (if m1.Labels.getD x.CattleOSLabel = x.WindowsMachineOS
          then x.WindowsInstallScript else x.LinuxInstallScript) flag
            (x.EncodeToString (x.Sum256 (dataGet cred1.Data "token"))) envVars "" with
      | error e => simp [hscript] at hok1
      | ok data =>
        simp only [hscript, Except.ok.injEq] at hok1
        exact ⟨flag, data, rfl, hscript, hok1.symm⟩
  constructor
  · obtain ⟨f1, d1, hf1, hs1, hr1⟩ := hshape h m sa cred r hsa hcred hok
    obtain ⟨hnone, hfound⟩ := rancherDeploymentHasHostPort_ok x h f1 hf1
    exact ⟨f1, d1, hf1, hnone, hfound, hs1, hr1⟩
  · intro h2 m2 sa2 cred2 r2 hsa2 hcred2 hok2 htoken hos hflag
    obtain ⟨f1, d1, hf1, hs1, rfl⟩ := hshape h m sa cred r hsa hcred hok
    obtain ⟨f2, d2, hf2, hs2, rfl⟩ := hshape h2 m2 sa2 cred2 r2 hsa2 hcred2 hok2
    rw [hflag, hf1] at hf2
    cases hf2
    rw [htoken, hos, hs1] at hs2
    cases hs2
    rfl

/-- Witness for C25: with the rancher container bound to host port 443, the
bootstrap secret of request `b1` for a Linux worker holds the Linux script
generated with the host-port flag set. -/
theorem getBootstrapSecret_success_witness :
    getBootstrapSecret Demo.flagPkg Demo.hHostPort "fleet" "b1-machine-bootstrap" []
        Demo.workerMachine =
      .ok (some
        { ObjectMeta := { Name := "b1-machine-bootstrap", Namespace := "fleet", Labels := .nil,
                          Annotations := .nil }
          Data := [("value", [1, 443])]
          SecretType := "rke.cattle.io/bootstrap" }) ∧
    rancherDeploymentHasHostPort Demo.flagPkg Demo.hHostPort = .ok true ∧
    ∃ (hasHostPort : Bool) (data : Bytes),
      rancherDeploymentHasHostPort Demo.flagPkg Demo.hHostPort = .ok hasHostPort ∧
      (∀ e, Demo.hHostPort.deploymentCache Demo.flagPkg.SystemNamespace "rancher" = .error e →
        IsNotFound e = true ∧ hasHostPort = false) ∧
      (∀ d, Demo.hHostPort.deploymentCache Demo.flagPkg.SystemNamespace "rancher" = .ok d →
        (hasHostPort = true ↔
          ∃ container ∈ d.Containers, container.Name = "rancher" ∧
            ∃ port ∈ container.Ports, port.HostPort ≠ 0)) ∧
      (if Demo.workerMachine.Labels.getD Demo.flagPkg.CattleOSLabel =
          Demo.flagPkg.WindowsMachineOS
        then Demo.flagPkg.WindowsInstallScript else Demo.flagPkg.LinuxInstallScript) hasHostPort
          (Demo.flagPkg.EncodeToString (Demo.flagPkg.Sum256 (dataGet [("token", [7])] "token")))
          [] "" = .ok data ∧
      (some
        { ObjectMeta := { Name := "b1-machine-bootstrap", Namespace := "fleet", Labels := .nil,
                          Annotations := .nil }
          Data := [("value", [1, 443])]
          SecretType := "rke.cattle.io/bootstrap" } : Option Secret) = some
        { ObjectMeta := { Name := "b1-machine-bootstrap", Namespace := "fleet", Labels := .nil,
                          Annotations := .nil }
          Data := [("value", data)]
          SecretType := "rke.cattle.io/bootstrap" } :=
  ⟨by decide, by decide,
    (getBootstrapSecret_success Demo.flagPkg Demo.hHostPort "fleet" "b1-machine-bootstrap" []
      Demo.workerMachine
      { ObjectMeta := { Name := "b1-machine-bootstrap", Namespace := "fleet", Labels := .nil,
                        Annotations := .nil } }
      { ObjectMeta := { Name := "b1-machine-bootstrap", Namespace := "fleet", Labels := .nil,
                        Annotations := .nil },
        Data := [("token", [7])], SecretType := "token" }
      (some
        { ObjectMeta := { Name := "b1-machine-bootstrap", Namespace := "fleet", Labels := .nil,
                          Annotations := .nil }
          Data := [("value", [1, 443])]
          SecretType := "rke.cattle.io/bootstrap" })
      (by decide) (by decide) (by decide)).1⟩

/-! ## Generating handler: hard errors -/

/-- A pass that returns an error returns the input status. -/
theorem GeneratingHandler_error_keeps_status (x : Pkg) (h : handler) (s : Store)
    (b : RKEBootstrap) (status : RKEBootstrapStatus)
    (herr : (GeneratingHandler x h s b status).err ≠ none) :
    (GeneratingHandler x h s b status).status = status := by
  unfold GeneratingHandler at herr ⊢
  repeat' split
  all_goals simp_all

/-- After the gate and the marker block, an error of the bootstrap-secret
assignment is the error of the pass. -/
theorem GeneratingHandler_assign_error (x : Pkg) (h : handler) (s : Store) (b : RKEBootstrap)
    (status : RKEBootstrapStatus) (m : Machine) (c : Cluster) (m1 : Machine)
    (calls : List Call) (s1 : Store) (e : GoError)
    (hm : GetOwnerCAPIMachine b (machineCacheGet h s) = .ok m)
    (hc : h.capiClusterCache m.Namespace m.Spec.ClusterName = .ok c)
    (hpause : x.IsPaused c b = false) (hready : c.Status.InfrastructureReady = true)
    (hmark : annotateMachine x h s m = (.ok m1, calls, s1))
    (ha : assignBootStrapSecret x h m1 b c = .error e) :
    (GeneratingHandler x h s b status).err = some e := by
  rw [GeneratingHandler_passed x h s b status m c hm hc hpause hready, hmark]
  simp only [ha]

/-- In one of the four provisioning phases, the assignment fails with the error
of `getEnvVar`, or else with the error of `getBootstrapSecret`. -/
theorem assignBootStrapSecret_error (x : Pkg) (h : handler) (m1 : Machine) (b : RKEBootstrap)
    (c : Cluster) (e : GoError)
    (hphase : m1.Status.Phase = MachinePhasePending ∨ m1.Status.Phase = MachinePhaseDeleting ∨
      m1.Status.Phase = MachinePhaseFailed ∨ m1.Status.Phase = MachinePhaseProvisioning)
    (hfail : getEnvVar h b c = .error e ∨
      ∃ envVars, getEnvVar h b c = .ok envVars ∧
        getBootstrapSecret x h b.Namespace (x.SafeConcatName [b.Name, "machine", "bootstrap"])
          envVars m1 = .error e) :
    assignBootStrapSecret x h m1 b c = .error e := by
  have hcond : (m1.Status.Phase != MachinePhasePending &&
      m1.Status.Phase != MachinePhaseDeleting && m1.Status.Phase != MachinePhaseFailed &&
      m1.Status.Phase != MachinePhaseProvisioning) = false := by
    rcases hphase with hp | hp | hp | hp <;> simp [hp]
  unfold assignBootStrapSecret
  rcases hfail with henv | ⟨envVars, henv, hget⟩
  · simp only [hcond, Bool.false_eq_true, if_false, henv]
  · simp only [hcond, Bool.false_eq_true, if_false, henv, hget]

/-- C23: `GeneratingHandler` returns the input status on every error return, and
its error is the error of the failing step whenever (a) the owning-machine
lookup fails other than with not-found, (b) the cluster lookup fails other than
with not-found, (c) past the gate, the Machine update of the marker block
fails, or, the Machine being in one of the four provisioning phases, (d) the
control-plane lookup of `getEnvVar` fails, (e) the service-account lookup fails
other than with not-found, (f) the credential issuance fails, (g) the
deployment lookup fails other than with not-found, (h) the script generation
fails. -/
theorem GeneratingHandler_hard_errors (x : Pkg) (h : handler) (s : Store) (b : RKEBootstrap)
    (status : RKEBootstrapStatus) :
    ((GeneratingHandler x h s b status).err ≠ none →
      (GeneratingHandler x h s b status).status = status) ∧
    (∀ e, GetOwnerCAPIMachine b (machineCacheGet h s) = .error e → IsNotFound e = false →
      (GeneratingHandler x h s b status).err = some e) ∧
    (∀ m, GetOwnerCAPIMachine b (machineCacheGet h s) = .ok m →
      (∀ e, h.capiClusterCache m.Namespace m.Spec.ClusterName = .error e →
        IsNotFound e = false → (GeneratingHandler x h s b status).err = some e) ∧
      (∀ c, h.capiClusterCache m.Namespace m.Spec.ClusterName = .ok c →
        x.IsPaused c b = false → c.Status.InfrastructureReady = true →
        (∀ e calls s1, annotateMachine x h s m = (.error e, calls, s1) →
          (GeneratingHandler x h s b status).err = some e) ∧
        (∀ m1 calls s1, annotateMachine x h s m = (.ok m1, calls, s1) →
          (m.Status.Phase = MachinePhasePending ∨ m.Status.Phase = MachinePhaseDeleting ∨
            m.Status.Phase = MachinePhaseFailed ∨ m.Status.Phase = MachinePhaseProvisioning) →
          (∀ ref e, c.Spec.ControlPlaneRef = some ref → ref.Kind = "RKEControlPlane" →
            h.rkeControlPlanes b.Namespace ref.Name = .error e →
            (GeneratingHandler x h s b status).err = some e) ∧
          (∀ envVars, getEnvVar h b c = .ok envVars →
            (∀ e, h.serviceAccountCache b.Namespace
                (x.SafeConcatName [b.Name, "machine", "bootstrap"]) = .error e →
              IsNotFound e = false → (GeneratingHandler x h s b status).err = some e) ∧
            (∀ sa, h.serviceAccountCache b.Namespace
                (x.SafeConcatName [b.Name, "machine", "bootstrap"]) = .ok sa →
              (∀ e, x.EnsureSecretForServiceAccount sa = .error e →
                (GeneratingHandler x h s b status).err = some e) ∧
              (∀ cred, x.EnsureSecretForServiceAccount sa = .ok cred →
                (∀ e, h.deploymentCache x.SystemNamespace "rancher" = .error e →
                  IsNotFound e = false → (GeneratingHandler x h s b status).err = some e) ∧
                (∀ flag e, rancherDeploymentHasHostPort x h = .ok flag →
                  (if m1.Labels.getD x.CattleOSLabel = x.WindowsMachineOS
                    then x.WindowsInstallScript else x.LinuxInstallScript) flag
                      (x.EncodeToString (x.Sum256 (dataGet cred.Data "token"))) envVars ""
                    = .error e →
                  (GeneratingHandler x h s b status).err = some e))))))) := by
  refine ⟨GeneratingHandler_error_keeps_status x h s b status, ?_, ?_⟩
  · intro e hm he
    simp [GeneratingHandler, hm, he]
  · intro m hm
    refine ⟨?_, ?_⟩
    · intro e hc he
      simp [GeneratingHandler, hm, hc, he]
    · intro c hc hpause hready
      refine ⟨?_, ?_⟩
      · intro e calls s1 hmark
        rw [GeneratingHandler_passed x h s b status m c hm hc hpause hready, hmark]
      · intro m1 calls s1 hmark hphase
        obtain ⟨-, -, -, -, hstatus⟩ := annotateMachine_ok x h s m m1 calls s1 hmark
        have hphase1 : m1.Status.Phase = MachinePhasePending ∨
            m1.Status.Phase = MachinePhaseDeleting ∨ m1.Status.Phase = MachinePhaseFailed ∨
            m1.Status.Phase = MachinePhaseProvisioning := by
          rw [hstatus]
          exact hphase
        have hfin : ∀ e, assignBootStrapSecret x h m1 b c = .error e →
            (GeneratingHandler x h s b status).err = some e :=
          fun e ha => GeneratingHandler_assign_error x h s b status m c m1 calls s1 e hm hc
            hpause hready hmark ha
        refine ⟨?_, ?_⟩
        · intro ref e href hkind hcp
          apply hfin
          apply assignBootStrapSecret_error x h m1 b c e hphase1
          left
          simp [getEnvVar, href, hkind, hcp]
        · intro envVars henv
          have hsec : ∀ e, getBootstrapSecret x h b.Namespace
              (x.SafeConcatName [b.Name, "machine", "bootstrap"]) envVars m1 = .error e →
              (GeneratingHandler x h s b status).err = some e :=
            fun e hget => hfin e
              (assignBootStrapSecret_error x h m1 b c e hphase1 (Or.inr ⟨envVars, henv, hget⟩))
          refine ⟨?_, ?_⟩
          · intro e hsa he
            apply hsec
            simp [getBootstrapSecret, hsa, he]
          · intro sa hsa
            refine ⟨?_, ?_⟩
            · intro e hcred
              apply hsec
              simp [getBootstrapSecret, hsa, hcred]
            · intro cred hcred
              refine ⟨?_, ?_⟩
              · intro e hdep he
                apply hsec
                simp [getBootstrapSecret, hsa, hcred, rancherDeploymentHasHostPort, hdep, he]
              · intro flag e hflag hscript
                apply hsec
                unfold getBootstrapSecret
                simp only [hsa, hcred, hflag, beq_iff_eq, hscript]

/-- Witness for C23: a rejected marker update is returned as the error of the
pass, with the input status. -/
theorem GeneratingHandler_hard_errors_witness :
    (GeneratingHandler Demo.pkg Demo.hRejecting ⟨[Demo.newEtcdMachine]⟩ Demo.bootstrap
        Demo.emptyStatus).err = some (.Other "conflict") ∧
    (GeneratingHandler Demo.pkg Demo.hRejecting ⟨[Demo.newEtcdMachine]⟩ Demo.bootstrap
        Demo.emptyStatus).status = Demo.emptyStatus :=
  ⟨((((GeneratingHandler_hard_errors Demo.pkg Demo.hRejecting ⟨[Demo.newEtcdMachine]⟩
      Demo.bootstrap Demo.emptyStatus).2.2 Demo.newEtcdMachine (by decide)).2 Demo.cluster
      (by decide) (by decide) (by decide)).1 (.Other "conflict")
      [.MachineUpdate Demo.labelledEtcdMachine] ⟨[Demo.newEtcdMachine]⟩ (by decide)),
    (GeneratingHandler_hard_errors Demo.pkg Demo.hRejecting ⟨[Demo.newEtcdMachine]⟩
      Demo.bootstrap Demo.emptyStatus).1 (by decide)⟩

/-! ## Not-found results -/

/-- C24, as stated, fails: in `GeneratingHandler` the lookup of the control
plane (in `getEnvVar`) reports not-found and the pass returns that not-found
error, with no object and no retry scheduled. -/
theorem GeneratingHandler_control_plane_not_found :
    Demo.cluster.Spec.ControlPlaneRef =
      some { Kind := "RKEControlPlane", Namespace := "fleet", Name := "c1" } ∧
    Demo.hNoControlPlane.rkeControlPlanes Demo.bootstrap.Namespace "c1" = .error .NotFound ∧
    IsNotFound .NotFound = true ∧
    GeneratingHandler Demo.pkg Demo.hNoControlPlane ⟨[Demo.workerMachine]⟩ Demo.bootstrap
        Demo.emptyStatus =
      { objs := [], status := Demo.emptyStatus, err := some .NotFound, calls := [],
        store := ⟨[Demo.workerMachine]⟩ } := by
  decide

/-- C24, amended: a not-found result is not returned as an error when looking
up, in `GeneratingHandler`, the owning machine or the cluster (skip sentinel
and a re-enqueue after 10 seconds) or the bootstrap service account
(`getBootstrapSecret` returns (nil, nil) and the pass goes on without bootstrap
secret), and, in `OnRemove`, the cluster, the control plane or the owning
machine (the request is returned with a nil error and no call) or the
kubeconfig secret (the pass goes on to marker cleanup). -/
theorem not_found_is_not_an_error (x : Pkg) (h : handler) (s : Store) (key : String)
    (b : RKEBootstrap) (status : RKEBootstrapStatus) :
    (∀ e, GetOwnerCAPIMachine b (machineCacheGet h s) = .error e → IsNotFound e = true →
      GeneratingHandler x h s b status =
        { objs := [], status := status, err := some .ErrSkip,
          calls := [.EnqueueAfter b.Namespace b.Name 10], store := s }) ∧
    (∀ m e, GetOwnerCAPIMachine b (machineCacheGet h s) = .ok m →
      h.capiClusterCache m.Namespace m.Spec.ClusterName = .error e → IsNotFound e = true →
      GeneratingHandler x h s b status =
        { objs := [], status := status, err := some .ErrSkip,
          calls := [.EnqueueAfter b.Namespace b.Name 10], store := s }) ∧
    (∀ ns name envVars m e, h.serviceAccountCache ns name = .error e → IsNotFound e = true →
      getBootstrapSecret x h ns name envVars m = .ok none) ∧
    (b.Labels.getD ClusterLabelName ≠ "" →
      (∀ e, h.capiClusterCache b.Namespace (b.Labels.getD ClusterLabelName) = .error e →
        IsNotFound e = true →
        OnRemove x h s key b = { bootstrap := b, err := none, calls := [], store := s }) ∧
      (∀ c cpRef, h.capiClusterCache b.Namespace (b.Labels.getD ClusterLabelName) = .ok c →
        c.Spec.ControlPlaneRef = some cpRef →
        (∀ e, h.rkeControlPlanes cpRef.Namespace cpRef.Name = .error e → IsNotFound e = true →
          OnRemove x h s key b = { bootstrap := b, err := none, calls := [], store := s }) ∧
        (∀ cp, h.rkeControlPlanes cpRef.Namespace cpRef.Name = .ok cp →
          (∀ e, GetMachineByOwner (machineCacheGet h s) b = .error e → IsNotFound e = true →
            OnRemove x h s key b = { bootstrap := b, err := none, calls := [], store := s }) ∧
          (∀ m nodeRef e, GetMachineByOwner (machineCacheGet h s) b = .ok m →
            cp.DeletionTimestamp = none → c.DeletionTimestamp = none →
            m.Labels.contains x.EtcdRoleLabel = true →
            (∀ v, b.Annotations.get? x.ForceRemoveEtcdAnnotation = some v →
              x.ToLower v ≠ "true") →
            m.Status.NodeRef = some nodeRef →
            h.secretCache b.Namespace (x.KubeconfigSecretName (b.Labels.getD ClusterLabelName))
              = .error e →
            IsNotFound e = true →
            OnRemove x h s key b = removeMachinePreTerminateAnnotation h s b (some m))))) := by
  refine ⟨?_, ?_, ?_, ?_⟩
  · intro e hm he
    simp [GeneratingHandler, hm, he]
  · intro m e hm hc he
    simp [GeneratingHandler, hm, hc, he]
  · intro ns name envVars m e hsa he
    simp [getBootstrapSecret, hsa, he]
  · intro hlabel
    refine ⟨?_, ?_⟩
    · intro e hc he
      simp [OnRemove, hlabel, hc, he]
    · intro c cpRef hc href
      refine ⟨?_, ?_⟩
      · intro e hcp he
        simp [OnRemove, hlabel, hc, href, hcp, he]
      · intro cp hcp
        refine ⟨?_, ?_⟩
        · intro e hm he
          simp [OnRemove, hlabel, hc, href, hcp, hm, he]
        · intro m nodeRef e hm hcpdel hcdel hetcd hforce hnode hkc he
          have hf : (match b.Annotations.get? x.ForceRemoveEtcdAnnotation with
              | some v => x.ToLower v == "true"
              | none => false) = false := by
            cases hv : b.Annotations.get? x.ForceRemoveEtcdAnnotation with
            | none => rfl
            | some v => simpa using hforce v hv
          simp [OnRemove, hlabel, hc, href, hcp, hm, hcpdel, hcdel, hetcd, hf, hnode, hkc, he]

/-- Witness for C24 (amended): in a removal pass the control plane is not found
and the request is returned with a nil error. -/
theorem not_found_is_not_an_error_witness :
    OnRemove Demo.pkg Demo.hNoControlPlane ⟨[Demo.etcdMachine]⟩ "fleet/b1" Demo.bootstrap =
      { bootstrap := Demo.bootstrap, err := none, calls := [],
        store := ⟨[Demo.etcdMachine]⟩ } :=
  (((not_found_is_not_an_error Demo.pkg Demo.hNoControlPlane ⟨[Demo.etcdMachine]⟩ "fleet/b1"
    Demo.bootstrap Demo.emptyStatus).2.2.2 (by decide)).2 Demo.cluster
    { Kind := "RKEControlPlane", Namespace := "fleet", Name := "c1" } (by decide)
    (by decide)).1 .NotFound (by decide) (by decide)

/-! ## Round trip: generated identities and the trigger mapping -/

/-- C30: for every request and machine, the trigger mapping sends the service
account built by `assignPlanSecret`, and the service account returned by a
successful `assignBootStrapSecret`, to exactly one key, (request namespace,
request name). The label keys written after rke.cattle.io/rkebootstrap-name in
the two map literals, `capr.RoleLabel` and `capr.PlanSecret`, differ from it,
as the keys of a Go map literal must. -/
theorem trigger_round_trip (x : Pkg) (m : Machine) (b : RKEBootstrap) (ns name : String)
    (hrole : x.RoleLabel ≠ rkeBootstrapName) (hplan : x.PlanSecret ≠ rkeBootstrapName) :
    (∃ sa : ServiceAccount, Object.serviceAccount sa ∈ assignPlanSecret x m b) ∧
    (∀ sa : ServiceAccount, Object.serviceAccount sa ∈ assignPlanSecret x m b →
      rkeBootstrapTrigger ns name (.serviceAccount sa) =
        ([{ Namespace := b.Namespace, Name := b.Name }], none)) ∧
    (∀ (h : handler) (c : Cluster) (sec : Option Secret) (objs : List Object),
      assignBootStrapSecret x h m b c = .ok (sec, objs) →
      ∀ sa : ServiceAccount, Object.serviceAccount sa ∈ objs →
        rkeBootstrapTrigger ns name (.serviceAccount sa) =
          ([{ Namespace := b.Namespace, Name := b.Name }], none)) := by
  have hrole2 : rkeBootstrapName ≠ x.RoleLabel := fun e => hrole e.symm
  have hplan2 : rkeBootstrapName ≠ x.PlanSecret := fun e => hplan e.symm
  refine ⟨⟨_, List.mem_cons_self _ _⟩, ?_, ?_⟩
  · intro sa hsa
    simp only [assignPlanSecret, List.mem_cons, Object.serviceAccount.injEq, List.mem_nil_iff,
      or_false, reduceCtorEq] at hsa
    subst hsa
    simp only [rkeBootstrapTrigger]
    rw [GoMap.get?_set_other _ _ _ _ hplan2, GoMap.get?_set_other _ _ _ _ hrole2,
      GoMap.get?_set_self]
  · intro h c sec objs hok sa hsa
    unfold assignBootStrapSecret at hok
    split at hok
    · simp only [Except.ok.injEq, Prod.mk.injEq] at hok
      obtain ⟨-, rfl⟩ := hok
      cases hsa
    · split at hok
      · cases hok
      · dsimp only at hok
        split at hok
        · cases hok
        · simp only [Except.ok.injEq, Prod.mk.injEq] at hok
          obtain ⟨-, rfl⟩ := hok
          simp only [List.mem_singleton, Object.serviceAccount.injEq] at hsa
          subst hsa
          simp only [rkeBootstrapTrigger]
          rw [GoMap.get?_set_other _ _ _ _ hrole2, GoMap.get?_set_self]

/-- Witness for C30: the plan service account of request `fleet/b1` maps back to
the key (fleet, b1). -/
theorem trigger_round_trip_witness :
    ∃ sa : ServiceAccount,
      Object.serviceAccount sa ∈ assignPlanSecret Demo.pkg Demo.workerMachine Demo.bootstrap ∧
      rkeBootstrapTrigger "fleet" "b1-machine-plan" (.serviceAccount sa) =
        ([{ Namespace := "fleet", Name := "b1" }], none) :=
  match trigger_round_trip Demo.pkg Demo.workerMachine Demo.bootstrap "fleet" "b1-machine-plan"
    (by decide) (by decide) with
  | ⟨⟨sa, hsa⟩, hplan, _⟩ => ⟨sa, hsa, hplan sa hsa⟩

/-! ## Global role binding handler: admin roles -/

theorem ContainsString_iff (l : List String) (item : String) :
    ContainsString l item = true ↔ item ∈ l := by
  unfold ContainsString
  rw [List.any_eq_true]
  constructor
  · rintro ⟨j, hj, hjeq⟩
    rw [beq_iff_eq] at hjeq
    rw [← hjeq]
    exact hj
  · intro hmem
    exact ⟨item, hmem, by simp⟩

/-- The two flags after the loop over the rules: a rule that passes the
resource test is never put to the non-resource test. -/
theorem adminFlags_foldl (rules : List PolicyRule) (init : Bool × Bool) :
    rules.foldl (fun (flags : Bool × Bool) rule =>
        if ContainsString rule.Resources "*" && ContainsString rule.APIGroups "*" &&
            ContainsString rule.Verbs "*" then
          (true, flags.2)
        else if ContainsString rule.NonResourceURLs "*" && ContainsString rule.Verbs "*" then
          (flags.1, true)
        else flags) init =
      (init.1 || rules.any (fun rule =>
          ContainsString rule.Resources "*" && ContainsString rule.APIGroups "*" &&
            ContainsString rule.Verbs "*"),
       init.2 || rules.any (fun rule =>
          !(ContainsString rule.Resources "*" && ContainsString rule.APIGroups "*" &&
            ContainsString rule.Verbs "*") &&
          (ContainsString rule.NonResourceURLs "*" && ContainsString rule.Verbs "*"))) := by
  induction rules generalizing init with
  | nil => simp
  | cons rule rest ih =>
    rw [List.foldl_cons, ih, List.any_cons, List.any_cons]
    obtain ⟨i1, i2⟩ := init
    generalize (ContainsString rule.Resources "*" && ContainsString rule.APIGroups "*" &&
      ContainsString rule.Verbs "*") = isRes
    generalize (ContainsString rule.NonResourceURLs "*" && ContainsString rule.Verbs "*") = isNon
    generalize (rest.any fun rule =>
      ContainsString rule.Resources "*" && ContainsString rule.APIGroups "*" &&
        ContainsString rule.Verbs "*") = restRes
    generalize (rest.any fun rule =>
      !(ContainsString rule.Resources "*" && ContainsString rule.APIGroups "*" &&
        ContainsString rule.Verbs "*") &&
      (ContainsString rule.NonResourceURLs "*" && ContainsString rule.Verbs "*")) = restNon
    cases isRes <;> cases isNon <;> cases i1 <;> cases i2 <;> cases restRes <;>
      cases restNon <;> rfl

/-- The two flags, read as statements about the rules. -/
theorem adminFlags_iff (rules : List PolicyRule) :
    (rules.any (fun rule =>
          ContainsString rule.Resources "*" && ContainsString rule.APIGroups "*" &&
            ContainsString rule.Verbs "*") &&
        rules.any (fun rule =>
          !(ContainsString rule.Resources "*" && ContainsString rule.APIGroups "*" &&
            ContainsString rule.Verbs "*") &&
          (ContainsString rule.NonResourceURLs "*" && ContainsString rule.Verbs "*"))) = true ↔
      (∃ rule ∈ rules, "*" ∈ rule.Resources ∧ "*" ∈ rule.APIGroups ∧ "*" ∈ rule.Verbs) ∧
      ∃ rule ∈ rules,
        ¬("*" ∈ rule.Resources ∧ "*" ∈ rule.APIGroups ∧ "*" ∈ rule.Verbs) ∧
        "*" ∈ rule.NonResourceURLs ∧ "*" ∈ rule.Verbs := by
  have hres : ∀ rule : PolicyRule,
      (ContainsString rule.Resources "*" && ContainsString rule.APIGroups "*" &&
        ContainsString rule.Verbs "*") = true ↔
      ("*" ∈ rule.Resources ∧ "*" ∈ rule.APIGroups ∧ "*" ∈ rule.Verbs) := by
    intro rule
    simp only [Bool.and_eq_true, ContainsString_iff, and_assoc]
  have hnon : ∀ rule : PolicyRule,
      (!(ContainsString rule.Resources "*" && ContainsString rule.APIGroups "*" &&
          ContainsString rule.Verbs "*") &&
        (ContainsString rule.NonResourceURLs "*" && ContainsString rule.Verbs "*")) = true ↔
      (¬("*" ∈ rule.Resources ∧ "*" ∈ rule.APIGroups ∧ "*" ∈ rule.Verbs) ∧
        "*" ∈ rule.NonResourceURLs ∧ "*" ∈ rule.Verbs) := by
    intro rule
    rw [Bool.and_eq_true, Bool.not_eq_true', ← Bool.not_eq_true, hres rule, Bool.and_eq_true,
      ContainsString_iff, ContainsString_iff]
  rw [Bool.and_eq_true, List.any_eq_true, List.any_eq_true]
  constructor
  · rintro ⟨⟨r1, h1, p1⟩, ⟨r2, h2, p2⟩⟩
    exact ⟨⟨r1, h1, (hres r1).mp p1⟩, ⟨r2, h2, (hnon r2).mp p2⟩⟩
  · rintro ⟨⟨r1, h1, p1⟩, ⟨r2, h2, p2⟩⟩
    exact ⟨⟨r1, h1, (hres r1).mpr p1⟩, ⟨r2, h2, (hnon r2).mpr p2⟩⟩

/-- C27, as stated, fails: the custom role whose single rule has "*" in
resources, API groups, verbs and non-resource URLs contains an admin resource
rule and an admin non-resource rule (the same rule), and `isAdminRole` returns
false for it. -/
theorem isAdminRole_combined_rule_false :
    (∃ rule ∈ Demo.combinedRuleRole.Rules,
      "*" ∈ rule.Resources ∧ "*" ∈ rule.APIGroups ∧ "*" ∈ rule.Verbs) ∧
    (∃ rule ∈ Demo.combinedRuleRole.Rules, "*" ∈ rule.NonResourceURLs ∧ "*" ∈ rule.Verbs) ∧
    isAdminRole Demo.rbacPkg (Demo.grbh Demo.combinedRuleRole) "custom-admin" = .ok false := by
  decide

/-- C27, amended: `isAdminRole` returns the lookup error when the role cannot be
fetched; for a role found it returns true exactly when the role is builtin and
named as the admin or the restricted-admin role, or its rules contain an admin
resource rule ("*" among Resources, APIGroups and Verbs) and, in a rule that
is not an admin resource rule, an admin non-resource rule ("*" among
NonResourceURLs and Verbs); otherwise it returns false. -/
theorem isAdminRole_verdict (r : RbacPkg) (c : grbHandler) (rtName : String) :
    (∀ e, c.grLister "" rtName = .error e → isAdminRole r c rtName = .error e) ∧
    (∀ gr, c.grLister "" rtName = .ok gr →
      ∃ verdict : Bool, isAdminRole r c rtName = .ok verdict ∧
        (verdict = true ↔
          (gr.Builtin = true ∧ (gr.Name = r.GlobalAdmin ∨ gr.Name = r.GlobalRestrictedAdmin)) ∨
          ((∃ rule ∈ gr.Rules,
              "*" ∈ rule.Resources ∧ "*" ∈ rule.APIGroups ∧ "*" ∈ rule.Verbs) ∧
            ∃ rule ∈ gr.Rules,
              ¬("*" ∈ rule.Resources ∧ "*" ∈ rule.APIGroups ∧ "*" ∈ rule.Verbs) ∧
              "*" ∈ rule.NonResourceURLs ∧ "*" ∈ rule.Verbs))) := by
  constructor
  · intro e he
    simp [isAdminRole, he]
  · intro gr hgr
    unfold isAdminRole
    simp only [hgr]
    by_cases hb : (gr.Builtin && (gr.Name == r.GlobalAdmin || gr.Name == r.GlobalRestrictedAdmin))
        = true
    · refine ⟨true, by simp [hb], ?_⟩
      simp only [true_iff]
      left
      simpa using hb
    · have hb2 : ¬(gr.Builtin = true ∧
          (gr.Name = r.GlobalAdmin ∨ gr.Name = r.GlobalRestrictedAdmin)) := by
        simpa using hb
      simp only [hb, if_false, Bool.false_eq_true]
      rw [adminFlags_foldl]
      simp only [Bool.false_or]
      by_cases hflags : (gr.Rules.any (fun rule =>
            ContainsString rule.Resources "*" && ContainsString rule.APIGroups "*" &&
              ContainsString rule.Verbs "*") &&
          gr.Rules.any (fun rule =>
            !(ContainsString rule.Resources "*" && ContainsString rule.APIGroups "*" &&
              ContainsString rule.Verbs "*") &&
            (ContainsString rule.NonResourceURLs "*" && ContainsString rule.Verbs "*"))) = true
      · refine ⟨true, by simp only [hflags, if_true], ?_⟩
        simp only [true_iff]
        right
        exact (adminFlags_iff gr.Rules).mp hflags
      · refine ⟨false, by simp only [hflags, if_false, Bool.false_eq_true], ?_⟩
        simp only [Bool.false_eq_true, false_iff, not_or]
        exact ⟨hb2, fun hP => hflags ((adminFlags_iff gr.Rules).mpr hP)⟩

/-- Witness for C27 (amended): the custom role with a separate non-resource
rule is an admin role. -/
theorem isAdminRole_verdict_witness :
    ∃ verdict : Bool,
      isAdminRole Demo.rbacPkg (Demo.grbh Demo.twoRuleRole) "custom-admin" = .ok verdict ∧
      (verdict = true ↔
        (Demo.twoRuleRole.Builtin = true ∧
          (Demo.twoRuleRole.Name = Demo.rbacPkg.GlobalAdmin ∨
            Demo.twoRuleRole.Name = Demo.rbacPkg.GlobalRestrictedAdmin)) ∨
        ((∃ rule ∈ Demo.twoRuleRole.Rules,
            "*" ∈ rule.Resources ∧ "*" ∈ rule.APIGroups ∧ "*" ∈ rule.Verbs) ∧
          ∃ rule ∈ Demo.twoRuleRole.Rules,
            ¬("*" ∈ rule.Resources ∧ "*" ∈ rule.APIGroups ∧ "*" ∈ rule.Verbs) ∧
            "*" ∈ rule.NonResourceURLs ∧ "*" ∈ rule.Verbs)) :=
  (isAdminRole_verdict Demo.rbacPkg (Demo.grbh Demo.twoRuleRole) "custom-admin").2
    Demo.twoRuleRole (by decide)

/-! ## Global role binding handler: the cluster-admin binding -/

/-- The provisioning binding step never creates a ClusterRoleBinding. -/
theorem ensureProvisioning_no_crb (r : RbacPkg) (c : grbHandler) (g : GlobalRoleBinding)
    (y : ClusterRoleBinding) :
    GrbCall.CreateClusterRoleBinding y ∉ (ensureProvisioningClusterAdminBinding r c g).2 := by
  unfold ensureProvisioningClusterAdminBinding
  dsimp only
  repeat' split
  all_goals simp

/-- Past the admin check, `sync` runs the two ensure steps in order. -/
theorem sync_active (r : RbacPkg) (c : grbHandler) (key : String) (g : GlobalRoleBinding)
    (hdel : g.DeletionTimestamp = none)
    (hadmin : isAdminRole r c g.GlobalRoleName = .ok true)
    (hlocal : ¬(c.clusterName = "local" ∧ g.GlobalRoleName = r.GlobalRestrictedAdmin)) :
    grbHandler.sync r c key (some g) =
      match ensureClusterAdminBinding r c g with
      | (some err, calls) => { obj := none, err := some err, calls := calls }
      | (none, calls) =>
        match ensureProvisioningClusterAdminBinding r c g with
        | (some err, calls2) => { obj := none, err := some err, calls := calls ++ calls2 }
        | (none, calls2) => { obj := some g, err := none, calls := calls ++ calls2 } := by
  have hl : (c.clusterName == "local" && g.GlobalRoleName == r.GlobalRestrictedAdmin) = false := by
    simpa using hlocal
  unfold grbHandler.sync
  simp only [hdel, Option.isSome_none, Bool.false_eq_true, if_false, hadmin, Bool.not_true, hl]

/-- The result of `sync` once the cluster-admin step has succeeded. -/
theorem sync_after_ensure (r : RbacPkg) (c : grbHandler) (key : String) (g : GlobalRoleBinding)
    (calls : List GrbCall)
    (hdel : g.DeletionTimestamp = none)
    (hadmin : isAdminRole r c g.GlobalRoleName = .ok true)
    (hlocal : ¬(c.clusterName = "local" ∧ g.GlobalRoleName = r.GlobalRestrictedAdmin))
    (hens : ensureClusterAdminBinding r c g = (none, calls)) :
    (grbHandler.sync r c key (some g)).calls =
        calls ++ (ensureProvisioningClusterAdminBinding r c g).2 ∧
      (grbHandler.sync r c key (some g)).err = (ensureProvisioningClusterAdminBinding r c g).1 := by
  rw [sync_active r c key g hdel hadmin hlocal, hens]
  rcases ensureProvisioningClusterAdminBinding r c g with ⟨e, calls2⟩
  cases e with
  | none => exact ⟨rfl, rfl⟩
  | some e => exact ⟨rfl, rfl⟩

/-- C28: `sync` issues no call at all (so it creates no ClusterRoleBinding and no
RoleBinding) when the binding is nil or being deleted, when its global role is
not an admin role, or when the handler's cluster is "local" and the global
role is restricted-admin. For every other binding to an admin role: if the
lister returns a ClusterRoleBinding named rbac.GrbCRBName(binding), none is
created and `sync` goes on to the provisioning binding; if the lister fails
other than with not-found, `sync` returns that error without any call; if the
lister reports not-found, the first call creates the ClusterRoleBinding of that
name, with the binding's subject and RoleRef ClusterRole "cluster-admin", and
it is the only ClusterRoleBinding created; a Create error other than
already-exists is returned, while no error or an already-exists error lets
`sync` go on to the provisioning binding. -/
theorem sync_cluster_admin_binding (r : RbacPkg) (c : grbHandler) (key : String)
    (obj : Option GlobalRoleBinding) :
    ((obj = none ∨ ∃ g, obj = some g ∧
        (g.DeletionTimestamp ≠ none ∨ isAdminRole r c g.GlobalRoleName = .ok false ∨
          (c.clusterName = "local" ∧ g.GlobalRoleName = r.GlobalRestrictedAdmin))) →
      (grbHandler.sync r c key obj).calls = []) ∧
    (∀ g, obj = some g → g.DeletionTimestamp = none →
      isAdminRole r c g.GlobalRoleName = .ok true →
      ¬(c.clusterName = "local" ∧ g.GlobalRoleName = r.GlobalRestrictedAdmin) →
      ∃ crb : ClusterRoleBinding,
        crb = { Name := r.GrbCRBName g
                Subjects := [r.GetGRBSubject g]
                RoleRef := { APIGroup := "", Kind := "ClusterRole", Name := "cluster-admin" } } ∧
        (∀ existing, c.crbLister "" (r.GrbCRBName g) = .ok existing →
          (∀ y, GrbCall.CreateClusterRoleBinding y ∉ (grbHandler.sync r c key obj).calls) ∧
          (grbHandler.sync r c key obj).err = (ensureProvisioningClusterAdminBinding r c g).1) ∧
        (∀ e, c.crbLister "" (r.GrbCRBName g) = .error e → IsNotFound e = false →
          grbHandler.sync r c key obj = { obj := none, err := some e, calls := [] }) ∧
        (∀ e, c.crbLister "" (r.GrbCRBName g) = .error e → IsNotFound e = true →
          (∀ e2, c.clusterRoleBindings crb = some e2 → IsAlreadyExists e2 = false →
            grbHandler.sync r c key obj =
              { obj := none, err := some e2, calls := [.CreateClusterRoleBinding crb] }) ∧
          ((c.clusterRoleBindings crb = none ∨
              ∃ e2, c.clusterRoleBindings crb = some e2 ∧ IsAlreadyExists e2 = true) →
            (grbHandler.sync r c key obj).calls =
              .CreateClusterRoleBinding crb :: (ensureProvisioningClusterAdminBinding r c g).2 ∧
            (∀ y, GrbCall.CreateClusterRoleBinding y ∉
              (ensureProvisioningClusterAdminBinding r c g).2) ∧
            (grbHandler.sync r c key obj).err =
              (ensureProvisioningClusterAdminBinding r c g).1))) := by
  constructor
  · rintro (rfl | ⟨g, rfl, hcase⟩)
    · rfl
    · unfold grbHandler.sync
      dsimp only
      rcases hcase with hdel | hnot | ⟨hl, hr⟩
      · cases hd : g.DeletionTimestamp with
        | none => exact absurd hd hdel
        | some t => simp
      · split
        · rfl
        · simp [hnot]
      · split
        · rfl
        · split
          · rfl
          · split
            · rfl
            · simp [hl, hr]
  · rintro g rfl hdel hadmin hlocal
    refine ⟨_, rfl, ?_, ?_, ?_⟩
    · intro existing hlist
      have hens : ensureClusterAdminBinding r c g = (none, []) := by
        simp [ensureClusterAdminBinding, hlist]
      obtain ⟨hcalls, herr⟩ := sync_after_ensure r c key g [] hdel hadmin hlocal hens
      rw [hcalls, herr]
      exact ⟨fun y => by simpa using ensureProvisioning_no_crb r c g y, rfl⟩
    · intro e hlist he
      rw [sync_active r c key g hdel hadmin hlocal]
      have hens : ensureClusterAdminBinding r c g = (some e, []) := by
        simp [ensureClusterAdminBinding, hlist, he]
      rw [hens]
    · intro e hlist he
      refine ⟨?_, ?_⟩
      · intro e2 hcreate hex
        rw [sync_active r c key g hdel hadmin hlocal]
        have hens : ensureClusterAdminBinding r c g =
            (some e2, [.CreateClusterRoleBinding
              { Name := r.GrbCRBName g
                Subjects := [r.GetGRBSubject g]
                RoleRef := { APIGroup := "", Kind := "ClusterRole", Name := "cluster-admin" } }])
            := by
          simp [ensureClusterAdminBinding, hlist, he, hcreate, hex]
        rw [hens]
      · intro hcreate
        have hens : ensureClusterAdminBinding r c g =
            (none, [.CreateClusterRoleBinding
              { Name := r.GrbCRBName g
                Subjects := [r.GetGRBSubject g]
                RoleRef := { APIGroup := "", Kind := "ClusterRole", Name := "cluster-admin" } }])
            := by
          rcases hcreate with hnone | ⟨e2, hsome, hex⟩
          · simp [ensureClusterAdminBinding, hlist, he, hnone]
          · simp [ensureClusterAdminBinding, hlist, he, hsome, hex]
        obtain ⟨hcalls, herr⟩ := sync_after_ensure r c key g _ hdel hadmin hlocal hens
        rw [hcalls, herr]
        exact ⟨rfl, ensureProvisioning_no_crb r c g, rfl⟩

/-- Witness for C28: a binding to the custom admin role in a downstream
cluster that holds no ClusterRoleBinding yet: `sync` creates the cluster-admin
binding of user `u-1` and nothing else. -/
theorem sync_cluster_admin_binding_witness :
    grbHandler.sync Demo.rbacPkg (Demo.grbh Demo.twoRuleRole) "grb-1" (some Demo.grb) =
      { obj := some Demo.grb, err := none,
        calls := [.CreateClusterRoleBinding
          { Name := "globaladmin-u-1"
            Subjects := [{ Kind := "User", Name := "u-1", Namespace := "" }]
            RoleRef := { APIGroup := "", Kind := "ClusterRole", Name := "cluster-admin" } }] } ∧
    ∃ crb : ClusterRoleBinding,
      crb = { Name := Demo.rbacPkg.GrbCRBName Demo.grb
              Subjects := [Demo.rbacPkg.GetGRBSubject Demo.grb]
              RoleRef := { APIGroup := "", Kind := "ClusterRole", Name := "cluster-admin" } } ∧
      (grbHandler.sync Demo.rbacPkg (Demo.grbh Demo.twoRuleRole) "grb-1" (some Demo.grb)).calls =
        .CreateClusterRoleBinding crb ::
          (ensureProvisioningClusterAdminBinding Demo.rbacPkg (Demo.grbh Demo.twoRuleRole)
            Demo.grb).2 :=
  ⟨by decide,
    match (sync_cluster_admin_binding Demo.rbacPkg (Demo.grbh Demo.twoRuleRole) "grb-1"
      (some Demo.grb)).2 Demo.grb rfl (by decide) (by decide) (by decide) with
    | ⟨crb, hcrb, _, _, hcreate⟩ =>
      ⟨crb, hcrb, ((hcreate .NotFound (by decide) (by decide)).2
        (Or.inl (by rw [hcrb]; decide))).1⟩⟩

end Bootstrap
